import Mathlib

/-!
Verification of the container_runway runtime (`src/main.cpp` and the
`src/runtime/*.cpp` modules) against its natural-language specification.

The C++ code is shallowly embedded: pure helpers become Lean functions on
`Nat` / `Int` / `String`; syscall-backed code is modelled by threading an
explicit world/oracle of syscall outcomes and recording the performed
actions as a trace.  Machine integers (`unsigned long` mount flags,
`long long` shares) stay well inside 64 bits in every reachable
computation, so they are modelled as `Nat` / `Int` with C++ truncating
division written as `Int.tdiv`.
-/

/-! ## Kernel mount-flag constants (linux/mount.h values used by the code) -/

def MS_RDONLY : Nat := 1
def MS_NOSUID : Nat := 2
def MS_NODEV : Nat := 4
def MS_NOEXEC : Nat := 8
def MS_SYNCHRONOUS : Nat := 16
def MS_REMOUNT : Nat := 32
def MS_DIRSYNC : Nat := 128
def MS_BIND : Nat := 4096
def MS_REC : Nat := 16384
def MS_UNBINDABLE : Nat := 131072
def MS_PRIVATE : Nat := 262144
def MS_SLAVE : Nat := 524288
def MS_SHARED : Nat := 1048576
def MS_RELATIME : Nat := 2097152
def MS_STRICTATIME : Nat := 16777216

/-- `MS_BIND | MS_REC`, as one named constant (see `MS_BIND_REC_def`). -/
def MS_BIND_REC : Nat := 20480

/-- `MS_PRIVATE | MS_REC`, as one named constant (see `MS_PRIVATE_REC_def`). -/
def MS_PRIVATE_REC : Nat := 278528

/-- `MS_SHARED | MS_REC`, as one named constant (see `MS_SHARED_REC_def`). -/
def MS_SHARED_REC : Nat := 1064960

/-- `MS_SLAVE | MS_REC`, as one named constant (see `MS_SLAVE_REC_def`). -/
def MS_SLAVE_REC : Nat := 540672

/-- `MS_UNBINDABLE | MS_REC`, as one named constant (see `MS_UNBINDABLE_REC_def`). -/
def MS_UNBINDABLE_REC : Nat := 147456

/-- C++ `a & ~m` on flag words: clear the bits of `m` in `a`. -/
def bitClear (a m : Nat) : Nat := a - (a &&& m)

/-! ## Mount option parsing (`parse_mount_options`, main.cpp:1061-1130) -/

structure ParsedMountOptions where
  flags : Nat := 0
  propagation : Nat := 0
  has_propagation : Bool := false
  bind_readonly : Bool := false
  data : String := ""
deriving Repr, DecidableEq

/-- `join_strings` (main.cpp:1047-1059); the runtime only calls it with the
default delimiter `","`. -/
def join_strings (parts : List String) : String :=
  String.intercalate "," parts

/-- Second half of the option if/else-if chain of `parse_mount_options`
(tokens `bind` onwards; the chain is split into two definitions only to
keep each term small). -/
def mount_option_step_rest (acc : ParsedMountOptions × List String) (opt : String) :
    ParsedMountOptions × List String :=
  let parsed := acc.1
  let data_options := acc.2
  if opt = "bind" then ({ parsed with flags := parsed.flags ||| MS_BIND }, data_options)
  else if opt = "rbind" then ({ parsed with flags := parsed.flags ||| MS_BIND_REC }, data_options)
  else if opt = "recursive" then ({ parsed with flags := parsed.flags ||| MS_REC }, data_options)
  else if opt = "private" then ({ parsed with propagation := MS_PRIVATE, has_propagation := true }, data_options)
  else if opt = "rprivate" then ({ parsed with propagation := MS_PRIVATE_REC, has_propagation := true }, data_options)
  else if opt = "shared" then ({ parsed with propagation := MS_SHARED, has_propagation := true }, data_options)
  else if opt = "rshared" then ({ parsed with propagation := MS_SHARED_REC, has_propagation := true }, data_options)
  else if opt = "slave" then ({ parsed with propagation := MS_SLAVE, has_propagation := true }, data_options)
  else if opt = "rslave" then ({ parsed with propagation := MS_SLAVE_REC, has_propagation := true }, data_options)
  else if opt = "unbindable" then ({ parsed with propagation := MS_UNBINDABLE, has_propagation := true }, data_options)
  else if opt = "runbindable" then ({ parsed with propagation := MS_UNBINDABLE_REC, has_propagation := true }, data_options)
  else if opt.contains '=' then (parsed, data_options ++ [opt])
  else (parsed, data_options ++ [opt])

/-- One iteration of the option loop of `parse_mount_options`: the
if/else-if chain over a single token, updating the accumulated flags and
the collected data tokens (continued in `mount_option_step_rest`). -/
def mount_option_step (acc : ParsedMountOptions × List String) (opt : String) :
    ParsedMountOptions × List String :=
  let parsed := acc.1
  let data_options := acc.2
  if opt = "ro" then ({ parsed with flags := parsed.flags ||| MS_RDONLY }, data_options)
  else if opt = "rw" then ({ parsed with flags := bitClear parsed.flags MS_RDONLY }, data_options)
  else if opt = "nosuid" then ({ parsed with flags := parsed.flags ||| MS_NOSUID }, data_options)
  else if opt = "nodev" then ({ parsed with flags := parsed.flags ||| MS_NODEV }, data_options)
  else if opt = "noexec" then ({ parsed with flags := parsed.flags ||| MS_NOEXEC }, data_options)
  else if opt = "relatime" then ({ parsed with flags := parsed.flags ||| MS_RELATIME }, data_options)
  else if opt = "norelatime" then ({ parsed with flags := bitClear parsed.flags MS_RELATIME }, data_options)
  else if opt = "strictatime" then ({ parsed with flags := parsed.flags ||| MS_STRICTATIME }, data_options)
  else if opt = "nostrictatime" then ({ parsed with flags := bitClear parsed.flags MS_STRICTATIME }, data_options)
  else if opt = "sync" then ({ parsed with flags := parsed.flags ||| MS_SYNCHRONOUS }, data_options)
  else if opt = "dirsync" then ({ parsed with flags := parsed.flags ||| MS_DIRSYNC }, data_options)
  else if opt = "remount" then ({ parsed with flags := parsed.flags ||| MS_REMOUNT }, data_options)
  else mount_option_step_rest acc opt

/-- `parse_mount_options` (main.cpp:1061-1130): fold the option tokens, join
the unrecognized ones into `data`, then derive `bind_readonly` from the
accumulated flags (C truthiness of `flags & MS_BIND` and `flags & MS_RDONLY`). -/
def parse_mount_options (options : List String) : ParsedMountOptions :=
  let res := options.foldl mount_option_step ({}, [])
  let parsed := { res.1 with data := join_strings res.2 }
  if (parsed.flags &&& MS_BIND) ≠ 0 ∧ (parsed.flags &&& MS_RDONLY) ≠ 0 then
    { parsed with bind_readonly := true }
  else
    parsed

/-- The flag constant contributed to `.flags` by a recognized flag token
(propagation tokens and unrecognized tokens contribute nothing to `.flags`;
the clearing tokens `rw` / `norelatime` / `nostrictatime` have no constant). -/
def mount_flag_bits (opt : String) : Nat :=
  if opt = "ro" then MS_RDONLY
  else if opt = "nosuid" then MS_NOSUID
  else if opt = "nodev" then MS_NODEV
  else if opt = "noexec" then MS_NOEXEC
  else if opt = "relatime" then MS_RELATIME
  else if opt = "strictatime" then MS_STRICTATIME
  else if opt = "sync" then MS_SYNCHRONOUS
  else if opt = "dirsync" then MS_DIRSYNC
  else if opt = "remount" then MS_REMOUNT
  else if opt = "bind" then MS_BIND
  else if opt = "rbind" then MS_BIND_REC
  else if opt = "recursive" then MS_REC
  else 0

/-- Modelled from the spec's words for the round-trip claim: "`parse(O).flags`
is the bitwise-or of the flags for each recognized token". -/
def spec_flags_or (options : List String) : Nat :=
  options.foldl (fun acc opt => acc ||| mount_flag_bits opt) 0

/-- A token whose `mount_option_step` branch clears bits instead of setting
them. -/
def clearing_token (opt : String) : Bool :=
  opt = "rw" || opt = "norelatime" || opt = "nostrictatime"

/-- Tokens with an explicit branch in `mount_option_step_rest`. -/
def recognized_token_rest (opt : String) : Bool :=
  opt = "bind" || opt = "rbind" ||
  opt = "recursive" || opt = "private" || opt = "rprivate" || opt = "shared" ||
  opt = "rshared" || opt = "slave" || opt = "rslave" || opt = "unbindable" ||
  opt = "runbindable"

/-- A token recognized by an explicit branch of `parse_mount_options`
(everything else is collected into `data`). -/
def recognized_token (opt : String) : Bool :=
  opt = "ro" || opt = "rw" || opt = "nosuid" || opt = "nodev" || opt = "noexec" ||
  opt = "relatime" || opt = "norelatime" || opt = "strictatime" || opt = "nostrictatime" ||
  opt = "sync" || opt = "dirsync" || opt = "remount" || recognized_token_rest opt

/-! ## cpu shares to cgroup-v2 weight (`cpu_shares_to_weight`, main.cpp:1026-1037) -/

/-- `cpu_shares_to_weight` (main.cpp:1026-1037, also
src/runtime/isolation.cpp).  `shares` is a C++ `long long`; `/` in the
source is C++ signed division, written `Int.tdiv` here (both operands are
nonnegative in the reachable branch). -/
def cpu_shares_to_weight (shares : Int) : Int :=
  if shares ≤ 0 then 100
  else if shares < 2 then 1
  else
    let clamped := if 262144 < shares then 262144 else shares
    1 + ((clamped - 2) * 9999).tdiv 262142

/-- Modelled from the spec's words: "`weight = 1 + ((shares-2) * 9999) /
262142`, clamped to `[1, 10000]`" (C++ truncating division). -/
def spec_weight_formula (shares : Int) : Int :=
  max 1 (min 10000 (1 + ((shares - 2) * 9999).tdiv 262142))

/-! ## Container state persistence (`ContainerState`, main.cpp:422-477) -/

/-- `RUNTIME_VERSION` (main.cpp:63). -/
def RUNTIME_VERSION : String := "0.1.0"

/-- `struct ContainerState` (main.cpp:422-429).  `annots` models the
`std::map<std::string, std::string> annotations` member as its ordered
entry list. -/
structure ContainerState where
  version : String := ""
  oci_version : String := ""
  id : String := ""
  pid : Int := -1
  status : String := ""
  bundle_path : String := ""
  annots : List (String × String) := []
deriving Repr, DecidableEq

/-- The JSON object passed to or produced by the state (de)serializers:
each optional key is `none` when absent.  `bundle_path` is the legacy
alias key accepted by `from_json`. -/
structure StateJsonDoc where
  version : Option String := none
  ociVersion : Option String := none
  id : String := ""
  pid : Int := 0
  status : String := ""
  bundle : Option String := none
  bundle_path : Option String := none
  annots : Option (List (String × String)) := none
deriving Repr, DecidableEq

/-- `ContainerState::to_json_object` (main.cpp:431-446). -/
def ContainerState.to_json_object (s : ContainerState) : StateJsonDoc :=
  let reported_version :=
    if s.version = "" then (if s.oci_version = "" then RUNTIME_VERSION else s.oci_version)
    else s.version
  let reported_oci := if s.oci_version = "" then reported_version else s.oci_version
  { version := some reported_version
    ociVersion := some reported_oci
    id := s.id
    status := s.status
    pid := if 0 ≤ s.pid then s.pid else 0
    bundle := some (if s.bundle_path = "" then "." else s.bundle_path)
    bundle_path := none
    annots := if s.annots = [] then none else some s.annots }

/-- `ContainerState::from_json` (main.cpp:452-476), on an already parsed
JSON object. -/
def ContainerState.from_json (j : StateJsonDoc) : ContainerState :=
  let version1 := match j.version with
    | some v => v
    | none => ""
  let (version2, oci) := match j.ociVersion with
    | some o => (if version1 = "" then o else version1, o)
    | none => (version1, "")
  { version := version2
    oci_version := oci
    id := j.id
    pid := j.pid
    status := j.status
    bundle_path := match j.bundle with
      | some b => b
      | none => match j.bundle_path with
        | some b => b
        | none => ""
    annots := match j.annots with
      | some a => a
      | none => [] }

/-! ## pid files (`write_pid_file`, main.cpp:510-518) -/

/-- The file content produced by `write_pid_file` in main.cpp:510-518: the
stream insertions `ofs << pid << std::endl` append the decimal digits of
`pid` and then a newline. -/
def write_pid_file_content (pid : Int) : String := toString pid ++ "\n"

/-- Modelled from the spec's words: "numeric payload only, no trailing
whitespace (shims parse as integer)". -/
def spec_pid_file_content (pid : Int) : String := toString pid

/-! ## Lifecycle hooks (`run_hook_sequence`, main.cpp:919-940) -/

/-- `std::map` membership (`annotations.find(key) != end()`). -/
def mapContains (m : List (String × String)) (k : String) : Bool :=
  m.any (fun p => p.1 = k)

/-- `std::map` assignment `m[k] = v`. -/
def mapSet (m : List (String × String)) (k v : String) : List (String × String) :=
  if m.any (fun p => p.1 = k) then m.map (fun p => if p.1 = k then (k, v) else p)
  else m ++ [(k, v)]

/-- The hook loop of `run_hook_sequence` (main.cpp:932-936): each entry of
`results` is the outcome of `execute_single_hook` for the corresponding
hook; returns whether all hooks ran successfully and how many were
executed. -/
def run_hooks_loop : List Bool → Bool × Nat
  | [] => (true, 0)
  | r :: rest =>
    if r then
      let x := run_hooks_loop rest
      (x.1, x.2 + 1)
    else (false, 1)

/-- `run_hook_sequence` (main.cpp:919-940).  `results` is the oracle of
per-hook execution outcomes, `now` the value of `iso8601_now()`; the
result is (return value, updated state, number of hooks executed). -/
def run_hook_sequence (results : List Bool) (state : ContainerState)
    (hook_type : String) (now : String) (enforce_once : Bool) :
    Bool × ContainerState × Nat :=
  if results = [] then (true, state, 0)
  else
    let key := "runway.hooks." ++ hook_type
    if enforce_once && mapContains state.annots key then (true, state, 0)
    else
      let x := run_hooks_loop results
      if x.1 then
        (true, { state with annots := mapSet state.annots key now }, x.2)
      else (false, state, x.2)

/-! ## Events, `kill_container` (main.cpp:942-962, 2700-2734) -/

/-- The events appended by `record_event` / `record_state_event`:
`signal` events, `state` events (keyed here by the persisted status) and
`error` events carrying `phase` and `message`. -/
inductive RuntimeEvent
  | signalEvent (signal : Int)
  | stateEvent (status : String)
  | errorEvent (phase message : String)
deriving Repr, DecidableEq

/-- `SIGKILL`. -/
def SIGKILL : Int := 9

/-- `SIGTERM`. -/
def SIGTERM : Int := 15

/-- `kill_container` (main.cpp:2700-2734) after a successful state load:
`killOk` is the outcome of the `kill(2)` call (false covers `ESRCH`);
the result is the state as persisted afterwards together with the events
recorded, in order. -/
def kill_container (state : ContainerState) (signal : Int) (killOk : Bool) :
    ContainerState × List RuntimeEvent :=
  if state.status ≠ "running" ∧ state.status ≠ "created" then (state, [])
  else if killOk then
    if signal = SIGKILL ∨ signal = SIGTERM then
      ({ state with status := "stopped" },
       [RuntimeEvent.signalEvent signal, RuntimeEvent.stateEvent "stopped"])
    else (state, [RuntimeEvent.signalEvent signal])
  else (state, [RuntimeEvent.errorEvent "signal" "kill failed"])

/-! ## `create_container` failure cleanup (main.cpp:1619-1644) -/

/-- The filesystem facts the cleanup path manipulates: the container state
directory, the files inside it, the forked init process and the cgroup. -/
structure CreateFsState where
  dirExists : Bool
  fifoExists : Bool
  stateFileExists : Bool
  eventsLogExists : Bool
  pidAlive : Bool
  cgroupExists : Bool
deriving Repr, DecidableEq

/-- `rmdir(container_dir)`: succeeds only when the directory is empty
(its result is ignored by the cleanup lambda). -/
def rmdir_op (fs : CreateFsState) : CreateFsState :=
  if fs.dirExists ∧ ¬fs.fifoExists ∧ ¬fs.stateFileExists ∧ ¬fs.eventsLogExists
  then { fs with dirExists := false } else fs

/-- `record_event` (main.cpp:942-962) on the filesystem:
`ensure_parent_directory` recreates the container directory if needed
(main.cpp:1132-1164) and the entry is appended to `events.log`. -/
def record_event_fs (fs : CreateFsState) : CreateFsState :=
  { fs with dirExists := true, eventsLogExists := true }

/-- The `cleanup_failure` lambda of `create_container` (main.cpp:1619-1644):
kill the forked pid if one was started, clean up the cgroup if created,
unlink the FIFO if created and the state file if saved, `rmdir` the state
directory, and record an `error` event with the phase and message. -/
def cleanup_failure (fs : CreateFsState)
    (pidStarted cgroupCreated fifoCreated stateSaved : Bool)
    (phase message : String) : CreateFsState × RuntimeEvent :=
  let fs1 := if pidStarted then { fs with pidAlive := false } else fs
  let fs2 := if cgroupCreated then { fs1 with cgroupExists := false } else fs1
  let fs3 := if fifoCreated then { fs2 with fifoExists := false } else fs2
  let fs4 := if stateSaved then { fs3 with stateFileExists := false } else fs3
  let fs5 := rmdir_op fs4
  (record_event_fs fs5, RuntimeEvent.errorEvent phase message)

/-! ## Container init (`container_main`, main.cpp:1272-1570) -/

/-- `container_absolute_path` (main.cpp:1216-1224). -/
def container_absolute_path (rootfs path : String) : String :=
  if path = "" ∨ path = "." then rootfs
  else if path.front = '/' then rootfs ++ path
  else rootfs ++ "/" ++ path

/-- `propagation_flag_from_string` (main.cpp:1226-1252). -/
def propagation_flag_from_string (propagation : String) : Nat :=
  if propagation = "private" then MS_PRIVATE
  else if propagation = "rprivate" then MS_PRIVATE_REC
  else if propagation = "shared" then MS_SHARED
  else if propagation = "rshared" then MS_SHARED_REC
  else if propagation = "slave" then MS_SLAVE
  else if propagation = "rslave" then MS_SLAVE_REC
  else if propagation = "unbindable" then MS_UNBINDABLE
  else if propagation = "runbindable" then MS_UNBINDABLE_REC
  else 0

/-- `struct MountConfig` (the fields used by `container_main`). -/
structure MountConfig where
  destination : String := ""
  source : String := ""
  type : String := ""
  options : List String := []
deriving Repr, DecidableEq

/-- `struct ContainerArgs` (main.cpp:376-393). -/
structure ContainerArgs where
  process_args : List String := []
  process_env : List String := []
  process_cwd : String := "/"
  sync_fifo_path : String := ""
  rootfs_path : String := ""
  hostname : String := ""
  rootfs_readonly : Bool := false
  enable_pivot_root : Bool := true
  mounts : List MountConfig := []
  masked_paths : List String := []
  readonly_paths : List String := []
  rootfs_propagation : String := ""
  join_namespaces : List (Int × Nat) := []
  terminal : Bool := false
  console_slave_fd : Int := -1
deriving Repr, DecidableEq

/-- The state-changing calls `container_main` issues, in program order.
The credential-change constructors exist so that their absence from every
trace is expressible. -/
inductive SysAction
  | setnsA (fd : Int) (nstype : Nat)
  | fifoOpenA (path : String)
  | fifoReadA
  | sethostnameA (name : String)
  | mountA (source target fstype : String) (flags : Nat) (data : String)
  | chdirA (path : String)
  | ensureDirA (path : String)
  | ensureFileA (path : String)
  | pivotRootA
  | umountDetachA (path : String)
  | rmdirA (path : String)
  | chrootA
  | setsidA
  | ioctlTIOCSCTTYA
  | dup2A (fd : Nat)
  | clearenvA
  | setenvA (key value : String)
  | setgroupsA
  | setgidA
  | setuidA
  | execvpA (prog : String)
deriving Repr, DecidableEq

/-- Outcomes of the syscalls `container_main` makes, as an oracle: a
`false` answer models the corresponding call failing (the specific
`errno`, e.g. `EBUSY`, is never inspected by the code). -/
structure InitWorld where
  setnsOk : Int → Nat → Bool := fun _ _ => true
  fifoOpenOk : Bool := true
  fifoReadOk : Bool := true
  sethostnameOk : Bool := true
  mountOk : String → String → String → Nat → String → Bool := fun _ _ _ _ _ => true
  chdirOk : String → Bool := fun _ => true
  statExists : String → Bool := fun _ => true
  statIsDir : String → Bool := fun _ => true
  lstatExists : String → Bool := fun _ => true
  lstatIsDir : String → Bool := fun _ => true
  ensureDirOk : String → Bool := fun _ => true
  ensureFileOk : String → Bool := fun _ => true
  pivotOk : Bool := true
  chrootOk : Bool := true
  setsidOk : Bool := true
  ioctlOk : Bool := true
  dup2Ok : Bool := true
  clearenvOk : Bool := true
  setenvOk : String → String → Bool := fun _ _ => true

/-- Sequencing of init phases: run `next` only if the phase so far
succeeded, concatenating the traces. -/
def andThen (r : List SysAction × Bool) (next : Unit → List SysAction × Bool) :
    List SysAction × Bool :=
  if r.2 then
    let s := next ()
    (r.1 ++ s.1, s.2)
  else r

/-- A loop over a list with early `return 1` on a failing element. -/
def run_list (f : α → List SysAction × Bool) : List α → List SysAction × Bool
  | [] => ([], true)
  | x :: xs =>
    let r := f x
    if r.2 then
      let rest := run_list f xs
      (r.1 ++ rest.1, rest.2)
    else (r.1, false)

/-- One iteration of the `setns` loop (main.cpp:1276-1283). -/
def setns_one (w : InitWorld) (ns : Int × Nat) : List SysAction × Bool :=
  ([SysAction.setnsA ns.1 ns.2], w.setnsOk ns.1 ns.2)

/-- `apply_mount_propagation` (main.cpp:1254-1269). -/
def apply_mount_propagation (w : InitWorld) (path propagation : String) :
    List SysAction × Bool :=
  if propagation = "" then ([], true)
  else
    let flag := propagation_flag_from_string propagation
    if flag = 0 then ([], false)
    else ([SysAction.mountA "" path "" flag ""], w.mountOk "" path "" flag "")

/-- One iteration of the config-mount loop (main.cpp:1321-1391).  Every
failing branch is `return 1`; no mount error is tolerated. -/
def mount_one (w : InitWorld) (rootfs : String) (cfg : MountConfig) :
    List SysAction × Bool :=
  if cfg.destination = "" then ([], true)
  else
    let destination :=
      if cfg.destination.front = '/' then cfg.destination else "/" ++ cfg.destination
    let mount_target := container_absolute_path rootfs destination
    let parsed := parse_mount_options cfg.options
    let is_bind := decide (parsed.flags &&& MS_BIND ≠ 0) || cfg.type = "bind"
    let stat_failed_bind :=
      cfg.source ≠ "" ∧ w.statExists cfg.source = false ∧ is_bind = true
    if stat_failed_bind then ([], false)
    else
      let source_is_dir :=
        if cfg.source ≠ "" ∧ w.statExists cfg.source = true
        then w.statIsDir cfg.source else true
      let ensure : List SysAction × Bool :=
        if source_is_dir then
          ([SysAction.ensureDirA mount_target], w.ensureDirOk mount_target)
        else
          ([SysAction.ensureFileA mount_target], w.ensureFileOk mount_target)
      andThen ensure fun _ =>
        let first_flags0 := bitClear parsed.flags MS_REMOUNT
        let first_flags :=
          if parsed.bind_readonly then bitClear first_flags0 MS_RDONLY else first_flags0
        let first : List SysAction × Bool :=
          ([SysAction.mountA cfg.source mount_target cfg.type first_flags parsed.data],
           w.mountOk cfg.source mount_target cfg.type first_flags parsed.data)
        andThen first fun _ =>
          let second : List SysAction × Bool :=
            if parsed.bind_readonly then
              let remount_flags := parsed.flags ||| MS_REMOUNT
              ([SysAction.mountA "" mount_target "" remount_flags ""],
               w.mountOk "" mount_target "" remount_flags "")
            else if parsed.flags &&& MS_REMOUNT ≠ 0 then
              ([SysAction.mountA cfg.source mount_target cfg.type parsed.flags parsed.data],
               w.mountOk cfg.source mount_target cfg.type parsed.flags parsed.data)
            else ([], true)
          andThen second fun _ =>
            if parsed.has_propagation then
              ([SysAction.mountA "" mount_target "" parsed.propagation ""],
               w.mountOk "" mount_target "" parsed.propagation "")
            else ([], true)

/-- One iteration of the masked-paths loop (main.cpp:1393-1433).  Every
failing branch is `return 1`: an unmountable masked path aborts the init. -/
def mask_one (w : InitWorld) (rootfs : String) (masked : String) :
    List SysAction × Bool :=
  if masked = "" then ([], true)
  else
    let target := container_absolute_path rootfs masked
    if w.lstatExists target then
      mask_mount w target masked (w.lstatIsDir target)
    else if masked.back = '/' then
      andThen ([SysAction.ensureDirA target], w.ensureDirOk target) fun _ =>
        mask_mount w target masked true
    else
      let r1 := ([SysAction.ensureFileA target], w.ensureFileOk target)
      if r1.2 then
        andThen (r1.1, true) fun _ => mask_mount w target masked false
      else
        let r2 := ([SysAction.ensureDirA target], w.ensureDirOk target)
        if r2.2 then
          andThen (r1.1 ++ r2.1, true) fun _ => mask_mount w target masked true
        else
          andThen (r1.1 ++ r2.1, true) fun _ => mask_mount w target masked false
where
  /-- The tail of a masked-paths iteration: read-only zero-size tmpfs for a
  directory, bind-mount of `/dev/null` for a file (main.cpp:1416-1432). -/
  mask_mount (w : InitWorld) (target : String) (_m : String) (is_dir : Bool) :
      List SysAction × Bool :=
    if is_dir then
      ([SysAction.mountA "tmpfs" target "tmpfs"
          (MS_RDONLY ||| MS_NOSUID ||| MS_NODEV ||| MS_NOEXEC) "size=0"],
       w.mountOk "tmpfs" target "tmpfs"
          (MS_RDONLY ||| MS_NOSUID ||| MS_NODEV ||| MS_NOEXEC) "size=0")
    else
      andThen ([SysAction.ensureFileA target], w.ensureFileOk target) fun _ =>
        ([SysAction.mountA "/dev/null" target "" MS_BIND ""],
         w.mountOk "/dev/null" target "" MS_BIND "")

/-- One iteration of the readonly-paths loop (main.cpp:1435-1462). -/
def ro_one (w : InitWorld) (rootfs : String) (ro_path : String) :
    List SysAction × Bool :=
  if ro_path = "" then ([], true)
  else
    let target := container_absolute_path rootfs ro_path
    let prepare : List SysAction × Bool :=
      if w.statExists target then ([], true)
      else if ro_path.back = '/' then
        ([SysAction.ensureDirA target], w.ensureDirOk target)
      else
        let r1 := ([SysAction.ensureFileA target], w.ensureFileOk target)
        if r1.2 then (r1.1, true)
        else
          let r2 := ([SysAction.ensureDirA target], w.ensureDirOk target)
          (r1.1 ++ r2.1, r2.2)
    andThen prepare fun _ =>
      andThen ([SysAction.mountA target target "" MS_BIND_REC ""],
               w.mountOk target target "" MS_BIND_REC "") fun _ =>
        ([SysAction.mountA "" target ""
            (MS_BIND ||| MS_REMOUNT ||| MS_REC ||| MS_RDONLY) ""],
         w.mountOk "" target ""
            (MS_BIND ||| MS_REMOUNT ||| MS_REC ||| MS_RDONLY) "")

/-- The pivot_root / chroot phase (main.cpp:1464-1497).  A failing
`ensure_directory` or `pivot_root` only falls back to `chroot`; after a
successful pivot the `umount2`/`rmdir` of the old root have their errors
ignored. -/
def pivot_phase (w : InitWorld) (enable_pivot_root : Bool) :
    List SysAction × Bool :=
  let old_root := ".runway-oldroot"
  if enable_pivot_root then
    if w.ensureDirOk old_root then
      if w.pivotOk then
        andThen ([SysAction.ensureDirA old_root, SysAction.pivotRootA], true) fun _ =>
          andThen ([SysAction.chdirA "/"], w.chdirOk "/") fun _ =>
            ([SysAction.umountDetachA ("/" ++ old_root),
              SysAction.rmdirA ("/" ++ old_root)], true)
      else
        andThen ([SysAction.ensureDirA old_root, SysAction.pivotRootA], true) fun _ =>
          chroot_fallback w
    else
      andThen ([SysAction.ensureDirA old_root], true) fun _ => chroot_fallback w
  else chroot_fallback w
where
  /-- The `!pivot_succeeded` fallback: `chroot(".")` then `chdir("/")`,
  both fatal on failure (main.cpp:1486-1497). -/
  chroot_fallback (w : InitWorld) : List SysAction × Bool :=
    andThen ([SysAction.chrootA], w.chrootOk) fun _ =>
      ([SysAction.chdirA "/"], w.chdirOk "/")

/-- The console phase (main.cpp:1517-1535). -/
def console_phase (w : InitWorld) (terminal : Bool) (console_slave_fd : Int) :
    List SysAction × Bool :=
  if terminal ∧ 0 ≤ console_slave_fd then
    andThen ([SysAction.setsidA], w.setsidOk) fun _ =>
      andThen ([SysAction.ioctlTIOCSCTTYA], w.ioctlOk) fun _ =>
        andThen ([SysAction.dup2A 0], w.dup2Ok) fun _ =>
          andThen ([SysAction.dup2A 1], w.dup2Ok) fun _ =>
            ([SysAction.dup2A 2], w.dup2Ok)
  else ([], true)

/-- Key of a `KEY=VALUE` environment entry (`substr` up to the first
`'='`). -/
def env_key (e : String) : String := e.takeWhile (fun c => c ≠ '=')

/-- Value of a `KEY=VALUE` environment entry (empty when no `'='`). -/
def env_value (e : String) : String :=
  if e.any (fun c => c = '=') then (e.drop (env_key e).length).drop 1 else ""

/-- One `setenv` of the environment loop (main.cpp:1542-1553). -/
def setenv_one (w : InitWorld) (e : String) : List SysAction × Bool :=
  if env_key e = "" then ([], true)
  else ([SysAction.setenvA (env_key e) (env_value e)], w.setenvOk (env_key e) (env_value e))

/-- The environment phase (main.cpp:1537-1555): only a non-empty
`process_env` clears and repopulates the environment. -/
def env_phase (w : InitWorld) (process_env : List String) :
    List SysAction × Bool :=
  if process_env = [] then ([], true)
  else
    andThen ([SysAction.clearenvA], w.clearenvOk) fun _ =>
      run_list (setenv_one w) process_env

/-- `container_main` (main.cpp:1272-1570) as the ordered trace of
state-changing calls it makes together with whether it reaches `execvp`
(`false` models `return 1`).  The proc mount (main.cpp:1508-1510) and the
read-only rootfs remount (main.cpp:1512-1516) tolerate failure: they
record the attempt but never abort. -/
def container_main (w : InitWorld) (args : ContainerArgs) :
    List SysAction × Bool :=
  andThen (run_list (setns_one w) args.join_namespaces) fun _ =>
  andThen ([SysAction.fifoOpenA args.sync_fifo_path], w.fifoOpenOk) fun _ =>
  andThen ([SysAction.fifoReadA], w.fifoReadOk) fun _ =>
  andThen ([SysAction.sethostnameA args.hostname], w.sethostnameOk) fun _ =>
  andThen ([SysAction.mountA args.rootfs_path args.rootfs_path "" MS_BIND_REC ""],
           w.mountOk args.rootfs_path args.rootfs_path "" MS_BIND_REC "") fun _ =>
  andThen (apply_mount_propagation w args.rootfs_path args.rootfs_propagation) fun _ =>
  andThen ([SysAction.chdirA args.rootfs_path], w.chdirOk args.rootfs_path) fun _ =>
  andThen (run_list (mount_one w args.rootfs_path) args.mounts) fun _ =>
  andThen (run_list (mask_one w args.rootfs_path) args.masked_paths) fun _ =>
  andThen (run_list (ro_one w args.rootfs_path) args.readonly_paths) fun _ =>
  andThen (pivot_phase w args.enable_pivot_root) fun _ =>
  andThen (apply_mount_propagation w "/" args.rootfs_propagation) fun _ =>
  andThen ([SysAction.chdirA (if args.process_cwd = "" then "/" else args.process_cwd)],
           w.chdirOk (if args.process_cwd = "" then "/" else args.process_cwd)) fun _ =>
  andThen ([SysAction.mountA "proc" "/proc" "proc" 0 ""], true) fun _ =>
  andThen (if args.rootfs_readonly then
             ([SysAction.mountA "" "/" "" (MS_REMOUNT ||| MS_RDONLY) ""], true)
           else ([], true)) fun _ =>
  andThen (console_phase w args.terminal args.console_slave_fd) fun _ =>
  andThen (env_phase w args.process_env) fun _ =>
  ([SysAction.execvpA (args.process_args.headD "")], true)

/-- Classifier for the credential-change calls of the claimed drop
sequence. -/
def cred_free_b (a : SysAction) : Bool :=
  match a with
  | SysAction.setgroupsA => false
  | SysAction.setgidA => false
  | SysAction.setuidA => false
  | _ => true

/-- Concrete init input: a masked directory under a `/r` rootfs. -/
def args_masked : ContainerArgs :=
  { process_args := ["/bin/sh"], rootfs_path := "/r",
    masked_paths := ["/sys/firmware"] }

/-- World where only the mount onto the masked target fails. -/
def w_mask_fail : InitWorld :=
  { mountOk := fun _ t _ _ _ => t != "/r/sys/firmware" }

/-- Concrete init input: one cgroup-filesystem mount under a `/r` rootfs. -/
def args_cgroup : ContainerArgs :=
  { process_args := ["/bin/sh"], rootfs_path := "/r",
    mounts := [{ destination := "/sys/fs/cgroup", source := "cgroup",
                 type := "cgroup", options := [] }] }

/-- World where only the cgroup mount fails (as with `EBUSY` on a host
that pre-mounted it; the code never reads `errno` here). -/
def w_cgroup_busy : InitWorld :=
  { mountOk := fun _ t _ _ _ => t != "/r/sys/fs/cgroup" }

/-! # Theorems -/

/-- The composite flag constants equal the corresponding or of their parts. -/
theorem MS_BIND_REC_def : MS_BIND_REC = MS_BIND ||| MS_REC := by decide

theorem MS_PRIVATE_REC_def : MS_PRIVATE_REC = MS_PRIVATE ||| MS_REC := by decide

theorem MS_SHARED_REC_def : MS_SHARED_REC = MS_SHARED ||| MS_REC := by decide

theorem MS_SLAVE_REC_def : MS_SLAVE_REC = MS_SLAVE ||| MS_REC := by decide

theorem MS_UNBINDABLE_REC_def : MS_UNBINDABLE_REC = MS_UNBINDABLE ||| MS_REC := by decide

/-! Per-token evaluation lemmas for the mount-option tables, stated with
small named facts so that no proof forces a long literal string-comparison
chain through the kernel in a single descent. -/

theorem mount_option_step_eq_ro (parsed : ParsedMountOptions) (d : List String) :
    mount_option_step (parsed, d) "ro" = ({ parsed with flags := parsed.flags ||| MS_RDONLY }, d) := by
  unfold mount_option_step
  rw [if_pos rfl]

theorem deq_rw_ro : decide (("rw" : String) = "ro") = false := rfl

theorem mount_option_step_eq_rw (parsed : ParsedMountOptions) (d : List String) :
    mount_option_step (parsed, d) "rw" = ({ parsed with flags := bitClear parsed.flags MS_RDONLY }, d) := by
  unfold mount_option_step
  rw [if_neg (of_decide_eq_false deq_rw_ro),
    if_pos rfl]

theorem deq_nosuid_ro : decide (("nosuid" : String) = "ro") = false := rfl

theorem deq_nosuid_rw : decide (("nosuid" : String) = "rw") = false := rfl

theorem mount_option_step_eq_nosuid (parsed : ParsedMountOptions) (d : List String) :
    mount_option_step (parsed, d) "nosuid" = ({ parsed with flags := parsed.flags ||| MS_NOSUID }, d) := by
  unfold mount_option_step
  rw [if_neg (of_decide_eq_false deq_nosuid_ro),
    if_neg (of_decide_eq_false deq_nosuid_rw),
    if_pos rfl]

theorem deq_nodev_ro : decide (("nodev" : String) = "ro") = false := rfl

theorem deq_nodev_rw : decide (("nodev" : String) = "rw") = false := rfl

theorem deq_nodev_nosuid : decide (("nodev" : String) = "nosuid") = false := rfl

theorem mount_option_step_eq_nodev (parsed : ParsedMountOptions) (d : List String) :
    mount_option_step (parsed, d) "nodev" = ({ parsed with flags := parsed.flags ||| MS_NODEV }, d) := by
  unfold mount_option_step
  rw [if_neg (of_decide_eq_false deq_nodev_ro),
    if_neg (of_decide_eq_false deq_nodev_rw),
    if_neg (of_decide_eq_false deq_nodev_nosuid),
    if_pos rfl]

theorem deq_noexec_ro : decide (("noexec" : String) = "ro") = false := rfl

theorem deq_noexec_rw : decide (("noexec" : String) = "rw") = false := rfl

theorem deq_noexec_nosuid : decide (("noexec" : String) = "nosuid") = false := rfl

theorem deq_noexec_nodev : decide (("noexec" : String) = "nodev") = false := rfl

theorem mount_option_step_eq_noexec (parsed : ParsedMountOptions) (d : List String) :
    mount_option_step (parsed, d) "noexec" = ({ parsed with flags := parsed.flags ||| MS_NOEXEC }, d) := by
  unfold mount_option_step
  rw [if_neg (of_decide_eq_false deq_noexec_ro),
    if_neg (of_decide_eq_false deq_noexec_rw),
    if_neg (of_decide_eq_false deq_noexec_nosuid),
    if_neg (of_decide_eq_false deq_noexec_nodev),
    if_pos rfl]

theorem deq_relatime_ro : decide (("relatime" : String) = "ro") = false := rfl

theorem deq_relatime_rw : decide (("relatime" : String) = "rw") = false := rfl

theorem deq_relatime_nosuid : decide (("relatime" : String) = "nosuid") = false := rfl

theorem deq_relatime_nodev : decide (("relatime" : String) = "nodev") = false := rfl

theorem deq_relatime_noexec : decide (("relatime" : String) = "noexec") = false := rfl

theorem mount_option_step_eq_relatime (parsed : ParsedMountOptions) (d : List String) :
    mount_option_step (parsed, d) "relatime" = ({ parsed with flags := parsed.flags ||| MS_RELATIME }, d) := by
  unfold mount_option_step
  rw [if_neg (of_decide_eq_false deq_relatime_ro),
    if_neg (of_decide_eq_false deq_relatime_rw),
    if_neg (of_decide_eq_false deq_relatime_nosuid),
    if_neg (of_decide_eq_false deq_relatime_nodev),
    if_neg (of_decide_eq_false deq_relatime_noexec),
    if_pos rfl]

theorem deq_norelatime_ro : decide (("norelatime" : String) = "ro") = false := rfl

theorem deq_norelatime_rw : decide (("norelatime" : String) = "rw") = false := rfl

theorem deq_norelatime_nosuid : decide (("norelatime" : String) = "nosuid") = false := rfl

theorem deq_norelatime_nodev : decide (("norelatime" : String) = "nodev") = false := rfl

theorem deq_norelatime_noexec : decide (("norelatime" : String) = "noexec") = false := rfl

theorem deq_norelatime_relatime : decide (("norelatime" : String) = "relatime") = false := rfl

theorem mount_option_step_eq_norelatime (parsed : ParsedMountOptions) (d : List String) :
    mount_option_step (parsed, d) "norelatime" = ({ parsed with flags := bitClear parsed.flags MS_RELATIME }, d) := by
  unfold mount_option_step
  rw [if_neg (of_decide_eq_false deq_norelatime_ro),
    if_neg (of_decide_eq_false deq_norelatime_rw),
    if_neg (of_decide_eq_false deq_norelatime_nosuid),
    if_neg (of_decide_eq_false deq_norelatime_nodev),
    if_neg (of_decide_eq_false deq_norelatime_noexec),
    if_neg (of_decide_eq_false deq_norelatime_relatime),
    if_pos rfl]

theorem deq_strictatime_ro : decide (("strictatime" : String) = "ro") = false := rfl

theorem deq_strictatime_rw : decide (("strictatime" : String) = "rw") = false := rfl

theorem deq_strictatime_nosuid : decide (("strictatime" : String) = "nosuid") = false := rfl

theorem deq_strictatime_nodev : decide (("strictatime" : String) = "nodev") = false := rfl

theorem deq_strictatime_noexec : decide (("strictatime" : String) = "noexec") = false := rfl

theorem deq_strictatime_relatime : decide (("strictatime" : String) = "relatime") = false := rfl

theorem deq_strictatime_norelatime : decide (("strictatime" : String) = "norelatime") = false := rfl

theorem mount_option_step_eq_strictatime (parsed : ParsedMountOptions) (d : List String) :
    mount_option_step (parsed, d) "strictatime" = ({ parsed with flags := parsed.flags ||| MS_STRICTATIME }, d) := by
  unfold mount_option_step
  rw [if_neg (of_decide_eq_false deq_strictatime_ro),
    if_neg (of_decide_eq_false deq_strictatime_rw),
    if_neg (of_decide_eq_false deq_strictatime_nosuid),
    if_neg (of_decide_eq_false deq_strictatime_nodev),
    if_neg (of_decide_eq_false deq_strictatime_noexec),
    if_neg (of_decide_eq_false deq_strictatime_relatime),
    if_neg (of_decide_eq_false deq_strictatime_norelatime),
    if_pos rfl]

theorem deq_nostrictatime_ro : decide (("nostrictatime" : String) = "ro") = false := rfl

theorem deq_nostrictatime_rw : decide (("nostrictatime" : String) = "rw") = false := rfl

theorem deq_nostrictatime_nosuid : decide (("nostrictatime" : String) = "nosuid") = false := rfl

theorem deq_nostrictatime_nodev : decide (("nostrictatime" : String) = "nodev") = false := rfl

theorem deq_nostrictatime_noexec : decide (("nostrictatime" : String) = "noexec") = false := rfl

theorem deq_nostrictatime_relatime : decide (("nostrictatime" : String) = "relatime") = false := rfl

theorem deq_nostrictatime_norelatime : decide (("nostrictatime" : String) = "norelatime") = false := rfl

theorem deq_nostrictatime_strictatime : decide (("nostrictatime" : String) = "strictatime") = false := rfl

theorem mount_option_step_eq_nostrictatime (parsed : ParsedMountOptions) (d : List String) :
    mount_option_step (parsed, d) "nostrictatime" = ({ parsed with flags := bitClear parsed.flags MS_STRICTATIME }, d) := by
  unfold mount_option_step
  rw [if_neg (of_decide_eq_false deq_nostrictatime_ro),
    if_neg (of_decide_eq_false deq_nostrictatime_rw),
    if_neg (of_decide_eq_false deq_nostrictatime_nosuid),
    if_neg (of_decide_eq_false deq_nostrictatime_nodev),
    if_neg (of_decide_eq_false deq_nostrictatime_noexec),
    if_neg (of_decide_eq_false deq_nostrictatime_relatime),
    if_neg (of_decide_eq_false deq_nostrictatime_norelatime),
    if_neg (of_decide_eq_false deq_nostrictatime_strictatime),
    if_pos rfl]

theorem deq_sync_ro : decide (("sync" : String) = "ro") = false := rfl

theorem deq_sync_rw : decide (("sync" : String) = "rw") = false := rfl

theorem deq_sync_nosuid : decide (("sync" : String) = "nosuid") = false := rfl

theorem deq_sync_nodev : decide (("sync" : String) = "nodev") = false := rfl

theorem deq_sync_noexec : decide (("sync" : String) = "noexec") = false := rfl

theorem deq_sync_relatime : decide (("sync" : String) = "relatime") = false := rfl

theorem deq_sync_norelatime : decide (("sync" : String) = "norelatime") = false := rfl

theorem deq_sync_strictatime : decide (("sync" : String) = "strictatime") = false := rfl

theorem deq_sync_nostrictatime : decide (("sync" : String) = "nostrictatime") = false := rfl

theorem mount_option_step_eq_sync (parsed : ParsedMountOptions) (d : List String) :
    mount_option_step (parsed, d) "sync" = ({ parsed with flags := parsed.flags ||| MS_SYNCHRONOUS }, d) := by
  unfold mount_option_step
  rw [if_neg (of_decide_eq_false deq_sync_ro),
    if_neg (of_decide_eq_false deq_sync_rw),
    if_neg (of_decide_eq_false deq_sync_nosuid),
    if_neg (of_decide_eq_false deq_sync_nodev),
    if_neg (of_decide_eq_false deq_sync_noexec),
    if_neg (of_decide_eq_false deq_sync_relatime),
    if_neg (of_decide_eq_false deq_sync_norelatime),
    if_neg (of_decide_eq_false deq_sync_strictatime),
    if_neg (of_decide_eq_false deq_sync_nostrictatime),
    if_pos rfl]

theorem deq_dirsync_ro : decide (("dirsync" : String) = "ro") = false := rfl

theorem deq_dirsync_rw : decide (("dirsync" : String) = "rw") = false := rfl

theorem deq_dirsync_nosuid : decide (("dirsync" : String) = "nosuid") = false := rfl

theorem deq_dirsync_nodev : decide (("dirsync" : String) = "nodev") = false := rfl

theorem deq_dirsync_noexec : decide (("dirsync" : String) = "noexec") = false := rfl

theorem deq_dirsync_relatime : decide (("dirsync" : String) = "relatime") = false := rfl

theorem deq_dirsync_norelatime : decide (("dirsync" : String) = "norelatime") = false := rfl

theorem deq_dirsync_strictatime : decide (("dirsync" : String) = "strictatime") = false := rfl

theorem deq_dirsync_nostrictatime : decide (("dirsync" : String) = "nostrictatime") = false := rfl

theorem deq_dirsync_sync : decide (("dirsync" : String) = "sync") = false := rfl

theorem mount_option_step_eq_dirsync (parsed : ParsedMountOptions) (d : List String) :
    mount_option_step (parsed, d) "dirsync" = ({ parsed with flags := parsed.flags ||| MS_DIRSYNC }, d) := by
  unfold mount_option_step
  rw [if_neg (of_decide_eq_false deq_dirsync_ro),
    if_neg (of_decide_eq_false deq_dirsync_rw),
    if_neg (of_decide_eq_false deq_dirsync_nosuid),
    if_neg (of_decide_eq_false deq_dirsync_nodev),
    if_neg (of_decide_eq_false deq_dirsync_noexec),
    if_neg (of_decide_eq_false deq_dirsync_relatime),
    if_neg (of_decide_eq_false deq_dirsync_norelatime),
    if_neg (of_decide_eq_false deq_dirsync_strictatime),
    if_neg (of_decide_eq_false deq_dirsync_nostrictatime),
    if_neg (of_decide_eq_false deq_dirsync_sync),
    if_pos rfl]

theorem deq_remount_ro : decide (("remount" : String) = "ro") = false := rfl

theorem deq_remount_rw : decide (("remount" : String) = "rw") = false := rfl

theorem deq_remount_nosuid : decide (("remount" : String) = "nosuid") = false := rfl

theorem deq_remount_nodev : decide (("remount" : String) = "nodev") = false := rfl

theorem deq_remount_noexec : decide (("remount" : String) = "noexec") = false := rfl

theorem deq_remount_relatime : decide (("remount" : String) = "relatime") = false := rfl

theorem deq_remount_norelatime : decide (("remount" : String) = "norelatime") = false := rfl

theorem deq_remount_strictatime : decide (("remount" : String) = "strictatime") = false := rfl

theorem deq_remount_nostrictatime : decide (("remount" : String) = "nostrictatime") = false := rfl

theorem deq_remount_sync : decide (("remount" : String) = "sync") = false := rfl

theorem deq_remount_dirsync : decide (("remount" : String) = "dirsync") = false := rfl

theorem mount_option_step_eq_remount (parsed : ParsedMountOptions) (d : List String) :
    mount_option_step (parsed, d) "remount" = ({ parsed with flags := parsed.flags ||| MS_REMOUNT }, d) := by
  unfold mount_option_step
  rw [if_neg (of_decide_eq_false deq_remount_ro),
    if_neg (of_decide_eq_false deq_remount_rw),
    if_neg (of_decide_eq_false deq_remount_nosuid),
    if_neg (of_decide_eq_false deq_remount_nodev),
    if_neg (of_decide_eq_false deq_remount_noexec),
    if_neg (of_decide_eq_false deq_remount_relatime),
    if_neg (of_decide_eq_false deq_remount_norelatime),
    if_neg (of_decide_eq_false deq_remount_strictatime),
    if_neg (of_decide_eq_false deq_remount_nostrictatime),
    if_neg (of_decide_eq_false deq_remount_sync),
    if_neg (of_decide_eq_false deq_remount_dirsync),
    if_pos rfl]

theorem deq_bind_ro : decide (("bind" : String) = "ro") = false := rfl

theorem deq_bind_rw : decide (("bind" : String) = "rw") = false := rfl

theorem deq_bind_nosuid : decide (("bind" : String) = "nosuid") = false := rfl

theorem deq_bind_nodev : decide (("bind" : String) = "nodev") = false := rfl

theorem deq_bind_noexec : decide (("bind" : String) = "noexec") = false := rfl

theorem deq_bind_relatime : decide (("bind" : String) = "relatime") = false := rfl

theorem deq_bind_norelatime : decide (("bind" : String) = "norelatime") = false := rfl

theorem deq_bind_strictatime : decide (("bind" : String) = "strictatime") = false := rfl

theorem deq_bind_nostrictatime : decide (("bind" : String) = "nostrictatime") = false := rfl

theorem deq_bind_sync : decide (("bind" : String) = "sync") = false := rfl

theorem deq_bind_dirsync : decide (("bind" : String) = "dirsync") = false := rfl

theorem deq_bind_remount : decide (("bind" : String) = "remount") = false := rfl

theorem mount_option_step_eq_bind (parsed : ParsedMountOptions) (d : List String) :
    mount_option_step (parsed, d) "bind" = ({ parsed with flags := parsed.flags ||| MS_BIND }, d) := by
  unfold mount_option_step
  rw [if_neg (of_decide_eq_false deq_bind_ro),
    if_neg (of_decide_eq_false deq_bind_rw),
    if_neg (of_decide_eq_false deq_bind_nosuid),
    if_neg (of_decide_eq_false deq_bind_nodev),
    if_neg (of_decide_eq_false deq_bind_noexec),
    if_neg (of_decide_eq_false deq_bind_relatime),
    if_neg (of_decide_eq_false deq_bind_norelatime),
    if_neg (of_decide_eq_false deq_bind_strictatime),
    if_neg (of_decide_eq_false deq_bind_nostrictatime),
    if_neg (of_decide_eq_false deq_bind_sync),
    if_neg (of_decide_eq_false deq_bind_dirsync),
    if_neg (of_decide_eq_false deq_bind_remount)]
  unfold mount_option_step_rest
  rw [if_pos rfl]

theorem deq_rbind_ro : decide (("rbind" : String) = "ro") = false := rfl

theorem deq_rbind_rw : decide (("rbind" : String) = "rw") = false := rfl

theorem deq_rbind_nosuid : decide (("rbind" : String) = "nosuid") = false := rfl

theorem deq_rbind_nodev : decide (("rbind" : String) = "nodev") = false := rfl

theorem deq_rbind_noexec : decide (("rbind" : String) = "noexec") = false := rfl

theorem deq_rbind_relatime : decide (("rbind" : String) = "relatime") = false := rfl

theorem deq_rbind_norelatime : decide (("rbind" : String) = "norelatime") = false := rfl

theorem deq_rbind_strictatime : decide (("rbind" : String) = "strictatime") = false := rfl

theorem deq_rbind_nostrictatime : decide (("rbind" : String) = "nostrictatime") = false := rfl

theorem deq_rbind_sync : decide (("rbind" : String) = "sync") = false := rfl

theorem deq_rbind_dirsync : decide (("rbind" : String) = "dirsync") = false := rfl

theorem deq_rbind_remount : decide (("rbind" : String) = "remount") = false := rfl

theorem deq_rbind_bind : decide (("rbind" : String) = "bind") = false := rfl

theorem mount_option_step_eq_rbind (parsed : ParsedMountOptions) (d : List String) :
    mount_option_step (parsed, d) "rbind" = ({ parsed with flags := parsed.flags ||| MS_BIND_REC }, d) := by
  unfold mount_option_step
  rw [if_neg (of_decide_eq_false deq_rbind_ro),
    if_neg (of_decide_eq_false deq_rbind_rw),
    if_neg (of_decide_eq_false deq_rbind_nosuid),
    if_neg (of_decide_eq_false deq_rbind_nodev),
    if_neg (of_decide_eq_false deq_rbind_noexec),
    if_neg (of_decide_eq_false deq_rbind_relatime),
    if_neg (of_decide_eq_false deq_rbind_norelatime),
    if_neg (of_decide_eq_false deq_rbind_strictatime),
    if_neg (of_decide_eq_false deq_rbind_nostrictatime),
    if_neg (of_decide_eq_false deq_rbind_sync),
    if_neg (of_decide_eq_false deq_rbind_dirsync),
    if_neg (of_decide_eq_false deq_rbind_remount)]
  unfold mount_option_step_rest
  rw [if_neg (of_decide_eq_false deq_rbind_bind),
    if_pos rfl]

theorem deq_recursive_ro : decide (("recursive" : String) = "ro") = false := rfl

theorem deq_recursive_rw : decide (("recursive" : String) = "rw") = false := rfl

theorem deq_recursive_nosuid : decide (("recursive" : String) = "nosuid") = false := rfl

theorem deq_recursive_nodev : decide (("recursive" : String) = "nodev") = false := rfl

theorem deq_recursive_noexec : decide (("recursive" : String) = "noexec") = false := rfl

theorem deq_recursive_relatime : decide (("recursive" : String) = "relatime") = false := rfl

theorem deq_recursive_norelatime : decide (("recursive" : String) = "norelatime") = false := rfl

theorem deq_recursive_strictatime : decide (("recursive" : String) = "strictatime") = false := rfl

theorem deq_recursive_nostrictatime : decide (("recursive" : String) = "nostrictatime") = false := rfl

theorem deq_recursive_sync : decide (("recursive" : String) = "sync") = false := rfl

theorem deq_recursive_dirsync : decide (("recursive" : String) = "dirsync") = false := rfl

theorem deq_recursive_remount : decide (("recursive" : String) = "remount") = false := rfl

theorem deq_recursive_bind : decide (("recursive" : String) = "bind") = false := rfl

theorem deq_recursive_rbind : decide (("recursive" : String) = "rbind") = false := rfl

theorem mount_option_step_eq_recursive (parsed : ParsedMountOptions) (d : List String) :
    mount_option_step (parsed, d) "recursive" = ({ parsed with flags := parsed.flags ||| MS_REC }, d) := by
  unfold mount_option_step
  rw [if_neg (of_decide_eq_false deq_recursive_ro),
    if_neg (of_decide_eq_false deq_recursive_rw),
    if_neg (of_decide_eq_false deq_recursive_nosuid),
    if_neg (of_decide_eq_false deq_recursive_nodev),
    if_neg (of_decide_eq_false deq_recursive_noexec),
    if_neg (of_decide_eq_false deq_recursive_relatime),
    if_neg (of_decide_eq_false deq_recursive_norelatime),
    if_neg (of_decide_eq_false deq_recursive_strictatime),
    if_neg (of_decide_eq_false deq_recursive_nostrictatime),
    if_neg (of_decide_eq_false deq_recursive_sync),
    if_neg (of_decide_eq_false deq_recursive_dirsync),
    if_neg (of_decide_eq_false deq_recursive_remount)]
  unfold mount_option_step_rest
  rw [if_neg (of_decide_eq_false deq_recursive_bind),
    if_neg (of_decide_eq_false deq_recursive_rbind),
    if_pos rfl]

theorem deq_private_ro : decide (("private" : String) = "ro") = false := rfl

theorem deq_private_rw : decide (("private" : String) = "rw") = false := rfl

theorem deq_private_nosuid : decide (("private" : String) = "nosuid") = false := rfl

theorem deq_private_nodev : decide (("private" : String) = "nodev") = false := rfl

theorem deq_private_noexec : decide (("private" : String) = "noexec") = false := rfl

theorem deq_private_relatime : decide (("private" : String) = "relatime") = false := rfl

theorem deq_private_norelatime : decide (("private" : String) = "norelatime") = false := rfl

theorem deq_private_strictatime : decide (("private" : String) = "strictatime") = false := rfl

theorem deq_private_nostrictatime : decide (("private" : String) = "nostrictatime") = false := rfl

theorem deq_private_sync : decide (("private" : String) = "sync") = false := rfl

theorem deq_private_dirsync : decide (("private" : String) = "dirsync") = false := rfl

theorem deq_private_remount : decide (("private" : String) = "remount") = false := rfl

theorem deq_private_bind : decide (("private" : String) = "bind") = false := rfl

theorem deq_private_rbind : decide (("private" : String) = "rbind") = false := rfl

theorem deq_private_recursive : decide (("private" : String) = "recursive") = false := rfl

theorem mount_option_step_eq_private (parsed : ParsedMountOptions) (d : List String) :
    mount_option_step (parsed, d) "private" = ({ parsed with propagation := MS_PRIVATE, has_propagation := true }, d) := by
  unfold mount_option_step
  rw [if_neg (of_decide_eq_false deq_private_ro),
    if_neg (of_decide_eq_false deq_private_rw),
    if_neg (of_decide_eq_false deq_private_nosuid),
    if_neg (of_decide_eq_false deq_private_nodev),
    if_neg (of_decide_eq_false deq_private_noexec),
    if_neg (of_decide_eq_false deq_private_relatime),
    if_neg (of_decide_eq_false deq_private_norelatime),
    if_neg (of_decide_eq_false deq_private_strictatime),
    if_neg (of_decide_eq_false deq_private_nostrictatime),
    if_neg (of_decide_eq_false deq_private_sync),
    if_neg (of_decide_eq_false deq_private_dirsync),
    if_neg (of_decide_eq_false deq_private_remount)]
  unfold mount_option_step_rest
  rw [if_neg (of_decide_eq_false deq_private_bind),
    if_neg (of_decide_eq_false deq_private_rbind),
    if_neg (of_decide_eq_false deq_private_recursive),
    if_pos rfl]

theorem deq_rprivate_ro : decide (("rprivate" : String) = "ro") = false := rfl

theorem deq_rprivate_rw : decide (("rprivate" : String) = "rw") = false := rfl

theorem deq_rprivate_nosuid : decide (("rprivate" : String) = "nosuid") = false := rfl

theorem deq_rprivate_nodev : decide (("rprivate" : String) = "nodev") = false := rfl

theorem deq_rprivate_noexec : decide (("rprivate" : String) = "noexec") = false := rfl

theorem deq_rprivate_relatime : decide (("rprivate" : String) = "relatime") = false := rfl

theorem deq_rprivate_norelatime : decide (("rprivate" : String) = "norelatime") = false := rfl

theorem deq_rprivate_strictatime : decide (("rprivate" : String) = "strictatime") = false := rfl

theorem deq_rprivate_nostrictatime : decide (("rprivate" : String) = "nostrictatime") = false := rfl

theorem deq_rprivate_sync : decide (("rprivate" : String) = "sync") = false := rfl

theorem deq_rprivate_dirsync : decide (("rprivate" : String) = "dirsync") = false := rfl

theorem deq_rprivate_remount : decide (("rprivate" : String) = "remount") = false := rfl

theorem deq_rprivate_bind : decide (("rprivate" : String) = "bind") = false := rfl

theorem deq_rprivate_rbind : decide (("rprivate" : String) = "rbind") = false := rfl

theorem deq_rprivate_recursive : decide (("rprivate" : String) = "recursive") = false := rfl

theorem deq_rprivate_private : decide (("rprivate" : String) = "private") = false := rfl

theorem mount_option_step_eq_rprivate (parsed : ParsedMountOptions) (d : List String) :
    mount_option_step (parsed, d) "rprivate" = ({ parsed with propagation := MS_PRIVATE_REC, has_propagation := true }, d) := by
  unfold mount_option_step
  rw [if_neg (of_decide_eq_false deq_rprivate_ro),
    if_neg (of_decide_eq_false deq_rprivate_rw),
    if_neg (of_decide_eq_false deq_rprivate_nosuid),
    if_neg (of_decide_eq_false deq_rprivate_nodev),
    if_neg (of_decide_eq_false deq_rprivate_noexec),
    if_neg (of_decide_eq_false deq_rprivate_relatime),
    if_neg (of_decide_eq_false deq_rprivate_norelatime),
    if_neg (of_decide_eq_false deq_rprivate_strictatime),
    if_neg (of_decide_eq_false deq_rprivate_nostrictatime),
    if_neg (of_decide_eq_false deq_rprivate_sync),
    if_neg (of_decide_eq_false deq_rprivate_dirsync),
    if_neg (of_decide_eq_false deq_rprivate_remount)]
  unfold mount_option_step_rest
  rw [if_neg (of_decide_eq_false deq_rprivate_bind),
    if_neg (of_decide_eq_false deq_rprivate_rbind),
    if_neg (of_decide_eq_false deq_rprivate_recursive),
    if_neg (of_decide_eq_false deq_rprivate_private),
    if_pos rfl]

theorem deq_shared_ro : decide (("shared" : String) = "ro") = false := rfl

theorem deq_shared_rw : decide (("shared" : String) = "rw") = false := rfl

theorem deq_shared_nosuid : decide (("shared" : String) = "nosuid") = false := rfl

theorem deq_shared_nodev : decide (("shared" : String) = "nodev") = false := rfl

theorem deq_shared_noexec : decide (("shared" : String) = "noexec") = false := rfl

theorem deq_shared_relatime : decide (("shared" : String) = "relatime") = false := rfl

theorem deq_shared_norelatime : decide (("shared" : String) = "norelatime") = false := rfl

theorem deq_shared_strictatime : decide (("shared" : String) = "strictatime") = false := rfl

theorem deq_shared_nostrictatime : decide (("shared" : String) = "nostrictatime") = false := rfl

theorem deq_shared_sync : decide (("shared" : String) = "sync") = false := rfl

theorem deq_shared_dirsync : decide (("shared" : String) = "dirsync") = false := rfl

theorem deq_shared_remount : decide (("shared" : String) = "remount") = false := rfl

theorem deq_shared_bind : decide (("shared" : String) = "bind") = false := rfl

theorem deq_shared_rbind : decide (("shared" : String) = "rbind") = false := rfl

theorem deq_shared_recursive : decide (("shared" : String) = "recursive") = false := rfl

theorem deq_shared_private : decide (("shared" : String) = "private") = false := rfl

theorem deq_shared_rprivate : decide (("shared" : String) = "rprivate") = false := rfl

theorem mount_option_step_eq_shared (parsed : ParsedMountOptions) (d : List String) :
    mount_option_step (parsed, d) "shared" = ({ parsed with propagation := MS_SHARED, has_propagation := true }, d) := by
  unfold mount_option_step
  rw [if_neg (of_decide_eq_false deq_shared_ro),
    if_neg (of_decide_eq_false deq_shared_rw),
    if_neg (of_decide_eq_false deq_shared_nosuid),
    if_neg (of_decide_eq_false deq_shared_nodev),
    if_neg (of_decide_eq_false deq_shared_noexec),
    if_neg (of_decide_eq_false deq_shared_relatime),
    if_neg (of_decide_eq_false deq_shared_norelatime),
    if_neg (of_decide_eq_false deq_shared_strictatime),
    if_neg (of_decide_eq_false deq_shared_nostrictatime),
    if_neg (of_decide_eq_false deq_shared_sync),
    if_neg (of_decide_eq_false deq_shared_dirsync),
    if_neg (of_decide_eq_false deq_shared_remount)]
  unfold mount_option_step_rest
  rw [if_neg (of_decide_eq_false deq_shared_bind),
    if_neg (of_decide_eq_false deq_shared_rbind),
    if_neg (of_decide_eq_false deq_shared_recursive),
    if_neg (of_decide_eq_false deq_shared_private),
    if_neg (of_decide_eq_false deq_shared_rprivate),
    if_pos rfl]

theorem deq_rshared_ro : decide (("rshared" : String) = "ro") = false := rfl

theorem deq_rshared_rw : decide (("rshared" : String) = "rw") = false := rfl

theorem deq_rshared_nosuid : decide (("rshared" : String) = "nosuid") = false := rfl

theorem deq_rshared_nodev : decide (("rshared" : String) = "nodev") = false := rfl

theorem deq_rshared_noexec : decide (("rshared" : String) = "noexec") = false := rfl

theorem deq_rshared_relatime : decide (("rshared" : String) = "relatime") = false := rfl

theorem deq_rshared_norelatime : decide (("rshared" : String) = "norelatime") = false := rfl

theorem deq_rshared_strictatime : decide (("rshared" : String) = "strictatime") = false := rfl

theorem deq_rshared_nostrictatime : decide (("rshared" : String) = "nostrictatime") = false := rfl

theorem deq_rshared_sync : decide (("rshared" : String) = "sync") = false := rfl

theorem deq_rshared_dirsync : decide (("rshared" : String) = "dirsync") = false := rfl

theorem deq_rshared_remount : decide (("rshared" : String) = "remount") = false := rfl

theorem deq_rshared_bind : decide (("rshared" : String) = "bind") = false := rfl

theorem deq_rshared_rbind : decide (("rshared" : String) = "rbind") = false := rfl

theorem deq_rshared_recursive : decide (("rshared" : String) = "recursive") = false := rfl

theorem deq_rshared_private : decide (("rshared" : String) = "private") = false := rfl

theorem deq_rshared_rprivate : decide (("rshared" : String) = "rprivate") = false := rfl

theorem deq_rshared_shared : decide (("rshared" : String) = "shared") = false := rfl

theorem mount_option_step_eq_rshared (parsed : ParsedMountOptions) (d : List String) :
    mount_option_step (parsed, d) "rshared" = ({ parsed with propagation := MS_SHARED_REC, has_propagation := true }, d) := by
  unfold mount_option_step
  rw [if_neg (of_decide_eq_false deq_rshared_ro),
    if_neg (of_decide_eq_false deq_rshared_rw),
    if_neg (of_decide_eq_false deq_rshared_nosuid),
    if_neg (of_decide_eq_false deq_rshared_nodev),
    if_neg (of_decide_eq_false deq_rshared_noexec),
    if_neg (of_decide_eq_false deq_rshared_relatime),
    if_neg (of_decide_eq_false deq_rshared_norelatime),
    if_neg (of_decide_eq_false deq_rshared_strictatime),
    if_neg (of_decide_eq_false deq_rshared_nostrictatime),
    if_neg (of_decide_eq_false deq_rshared_sync),
    if_neg (of_decide_eq_false deq_rshared_dirsync),
    if_neg (of_decide_eq_false deq_rshared_remount)]
  unfold mount_option_step_rest
  rw [if_neg (of_decide_eq_false deq_rshared_bind),
    if_neg (of_decide_eq_false deq_rshared_rbind),
    if_neg (of_decide_eq_false deq_rshared_recursive),
    if_neg (of_decide_eq_false deq_rshared_private),
    if_neg (of_decide_eq_false deq_rshared_rprivate),
    if_neg (of_decide_eq_false deq_rshared_shared),
    if_pos rfl]

theorem deq_slave_ro : decide (("slave" : String) = "ro") = false := rfl

theorem deq_slave_rw : decide (("slave" : String) = "rw") = false := rfl

theorem deq_slave_nosuid : decide (("slave" : String) = "nosuid") = false := rfl

theorem deq_slave_nodev : decide (("slave" : String) = "nodev") = false := rfl

theorem deq_slave_noexec : decide (("slave" : String) = "noexec") = false := rfl

theorem deq_slave_relatime : decide (("slave" : String) = "relatime") = false := rfl

theorem deq_slave_norelatime : decide (("slave" : String) = "norelatime") = false := rfl

theorem deq_slave_strictatime : decide (("slave" : String) = "strictatime") = false := rfl

theorem deq_slave_nostrictatime : decide (("slave" : String) = "nostrictatime") = false := rfl

theorem deq_slave_sync : decide (("slave" : String) = "sync") = false := rfl

theorem deq_slave_dirsync : decide (("slave" : String) = "dirsync") = false := rfl

theorem deq_slave_remount : decide (("slave" : String) = "remount") = false := rfl

theorem deq_slave_bind : decide (("slave" : String) = "bind") = false := rfl

theorem deq_slave_rbind : decide (("slave" : String) = "rbind") = false := rfl

theorem deq_slave_recursive : decide (("slave" : String) = "recursive") = false := rfl

theorem deq_slave_private : decide (("slave" : String) = "private") = false := rfl

theorem deq_slave_rprivate : decide (("slave" : String) = "rprivate") = false := rfl

theorem deq_slave_shared : decide (("slave" : String) = "shared") = false := rfl

theorem deq_slave_rshared : decide (("slave" : String) = "rshared") = false := rfl

theorem mount_option_step_eq_slave (parsed : ParsedMountOptions) (d : List String) :
    mount_option_step (parsed, d) "slave" = ({ parsed with propagation := MS_SLAVE, has_propagation := true }, d) := by
  unfold mount_option_step
  rw [if_neg (of_decide_eq_false deq_slave_ro),
    if_neg (of_decide_eq_false deq_slave_rw),
    if_neg (of_decide_eq_false deq_slave_nosuid),
    if_neg (of_decide_eq_false deq_slave_nodev),
    if_neg (of_decide_eq_false deq_slave_noexec),
    if_neg (of_decide_eq_false deq_slave_relatime),
    if_neg (of_decide_eq_false deq_slave_norelatime),
    if_neg (of_decide_eq_false deq_slave_strictatime),
    if_neg (of_decide_eq_false deq_slave_nostrictatime),
    if_neg (of_decide_eq_false deq_slave_sync),
    if_neg (of_decide_eq_false deq_slave_dirsync),
    if_neg (of_decide_eq_false deq_slave_remount)]
  unfold mount_option_step_rest
  rw [if_neg (of_decide_eq_false deq_slave_bind),
    if_neg (of_decide_eq_false deq_slave_rbind),
    if_neg (of_decide_eq_false deq_slave_recursive),
    if_neg (of_decide_eq_false deq_slave_private),
    if_neg (of_decide_eq_false deq_slave_rprivate),
    if_neg (of_decide_eq_false deq_slave_shared),
    if_neg (of_decide_eq_false deq_slave_rshared),
    if_pos rfl]

theorem deq_rslave_ro : decide (("rslave" : String) = "ro") = false := rfl

theorem deq_rslave_rw : decide (("rslave" : String) = "rw") = false := rfl

theorem deq_rslave_nosuid : decide (("rslave" : String) = "nosuid") = false := rfl

theorem deq_rslave_nodev : decide (("rslave" : String) = "nodev") = false := rfl

theorem deq_rslave_noexec : decide (("rslave" : String) = "noexec") = false := rfl

theorem deq_rslave_relatime : decide (("rslave" : String) = "relatime") = false := rfl

theorem deq_rslave_norelatime : decide (("rslave" : String) = "norelatime") = false := rfl

theorem deq_rslave_strictatime : decide (("rslave" : String) = "strictatime") = false := rfl

theorem deq_rslave_nostrictatime : decide (("rslave" : String) = "nostrictatime") = false := rfl

theorem deq_rslave_sync : decide (("rslave" : String) = "sync") = false := rfl

theorem deq_rslave_dirsync : decide (("rslave" : String) = "dirsync") = false := rfl

theorem deq_rslave_remount : decide (("rslave" : String) = "remount") = false := rfl

theorem deq_rslave_bind : decide (("rslave" : String) = "bind") = false := rfl

theorem deq_rslave_rbind : decide (("rslave" : String) = "rbind") = false := rfl

theorem deq_rslave_recursive : decide (("rslave" : String) = "recursive") = false := rfl

theorem deq_rslave_private : decide (("rslave" : String) = "private") = false := rfl

theorem deq_rslave_rprivate : decide (("rslave" : String) = "rprivate") = false := rfl

theorem deq_rslave_shared : decide (("rslave" : String) = "shared") = false := rfl

theorem deq_rslave_rshared : decide (("rslave" : String) = "rshared") = false := rfl

theorem deq_rslave_slave : decide (("rslave" : String) = "slave") = false := rfl

theorem mount_option_step_eq_rslave (parsed : ParsedMountOptions) (d : List String) :
    mount_option_step (parsed, d) "rslave" = ({ parsed with propagation := MS_SLAVE_REC, has_propagation := true }, d) := by
  unfold mount_option_step
  rw [if_neg (of_decide_eq_false deq_rslave_ro),
    if_neg (of_decide_eq_false deq_rslave_rw),
    if_neg (of_decide_eq_false deq_rslave_nosuid),
    if_neg (of_decide_eq_false deq_rslave_nodev),
    if_neg (of_decide_eq_false deq_rslave_noexec),
    if_neg (of_decide_eq_false deq_rslave_relatime),
    if_neg (of_decide_eq_false deq_rslave_norelatime),
    if_neg (of_decide_eq_false deq_rslave_strictatime),
    if_neg (of_decide_eq_false deq_rslave_nostrictatime),
    if_neg (of_decide_eq_false deq_rslave_sync),
    if_neg (of_decide_eq_false deq_rslave_dirsync),
    if_neg (of_decide_eq_false deq_rslave_remount)]
  unfold mount_option_step_rest
  rw [if_neg (of_decide_eq_false deq_rslave_bind),
    if_neg (of_decide_eq_false deq_rslave_rbind),
    if_neg (of_decide_eq_false deq_rslave_recursive),
    if_neg (of_decide_eq_false deq_rslave_private),
    if_neg (of_decide_eq_false deq_rslave_rprivate),
    if_neg (of_decide_eq_false deq_rslave_shared),
    if_neg (of_decide_eq_false deq_rslave_rshared),
    if_neg (of_decide_eq_false deq_rslave_slave),
    if_pos rfl]

theorem deq_unbindable_ro : decide (("unbindable" : String) = "ro") = false := rfl

theorem deq_unbindable_rw : decide (("unbindable" : String) = "rw") = false := rfl

theorem deq_unbindable_nosuid : decide (("unbindable" : String) = "nosuid") = false := rfl

theorem deq_unbindable_nodev : decide (("unbindable" : String) = "nodev") = false := rfl

theorem deq_unbindable_noexec : decide (("unbindable" : String) = "noexec") = false := rfl

theorem deq_unbindable_relatime : decide (("unbindable" : String) = "relatime") = false := rfl

theorem deq_unbindable_norelatime : decide (("unbindable" : String) = "norelatime") = false := rfl

theorem deq_unbindable_strictatime : decide (("unbindable" : String) = "strictatime") = false := rfl

theorem deq_unbindable_nostrictatime : decide (("unbindable" : String) = "nostrictatime") = false := rfl

theorem deq_unbindable_sync : decide (("unbindable" : String) = "sync") = false := rfl

theorem deq_unbindable_dirsync : decide (("unbindable" : String) = "dirsync") = false := rfl

theorem deq_unbindable_remount : decide (("unbindable" : String) = "remount") = false := rfl

theorem deq_unbindable_bind : decide (("unbindable" : String) = "bind") = false := rfl

theorem deq_unbindable_rbind : decide (("unbindable" : String) = "rbind") = false := rfl

theorem deq_unbindable_recursive : decide (("unbindable" : String) = "recursive") = false := rfl

theorem deq_unbindable_private : decide (("unbindable" : String) = "private") = false := rfl

theorem deq_unbindable_rprivate : decide (("unbindable" : String) = "rprivate") = false := rfl

theorem deq_unbindable_shared : decide (("unbindable" : String) = "shared") = false := rfl

theorem deq_unbindable_rshared : decide (("unbindable" : String) = "rshared") = false := rfl

theorem deq_unbindable_slave : decide (("unbindable" : String) = "slave") = false := rfl

theorem deq_unbindable_rslave : decide (("unbindable" : String) = "rslave") = false := rfl

theorem mount_option_step_eq_unbindable (parsed : ParsedMountOptions) (d : List String) :
    mount_option_step (parsed, d) "unbindable" = ({ parsed with propagation := MS_UNBINDABLE, has_propagation := true }, d) := by
  unfold mount_option_step
  rw [if_neg (of_decide_eq_false deq_unbindable_ro),
    if_neg (of_decide_eq_false deq_unbindable_rw),
    if_neg (of_decide_eq_false deq_unbindable_nosuid),
    if_neg (of_decide_eq_false deq_unbindable_nodev),
    if_neg (of_decide_eq_false deq_unbindable_noexec),
    if_neg (of_decide_eq_false deq_unbindable_relatime),
    if_neg (of_decide_eq_false deq_unbindable_norelatime),
    if_neg (of_decide_eq_false deq_unbindable_strictatime),
    if_neg (of_decide_eq_false deq_unbindable_nostrictatime),
    if_neg (of_decide_eq_false deq_unbindable_sync),
    if_neg (of_decide_eq_false deq_unbindable_dirsync),
    if_neg (of_decide_eq_false deq_unbindable_remount)]
  unfold mount_option_step_rest
  rw [if_neg (of_decide_eq_false deq_unbindable_bind),
    if_neg (of_decide_eq_false deq_unbindable_rbind),
    if_neg (of_decide_eq_false deq_unbindable_recursive),
    if_neg (of_decide_eq_false deq_unbindable_private),
    if_neg (of_decide_eq_false deq_unbindable_rprivate),
    if_neg (of_decide_eq_false deq_unbindable_shared),
    if_neg (of_decide_eq_false deq_unbindable_rshared),
    if_neg (of_decide_eq_false deq_unbindable_slave),
    if_neg (of_decide_eq_false deq_unbindable_rslave),
    if_pos rfl]

theorem deq_runbindable_ro : decide (("runbindable" : String) = "ro") = false := rfl

theorem deq_runbindable_rw : decide (("runbindable" : String) = "rw") = false := rfl

theorem deq_runbindable_nosuid : decide (("runbindable" : String) = "nosuid") = false := rfl

theorem deq_runbindable_nodev : decide (("runbindable" : String) = "nodev") = false := rfl

theorem deq_runbindable_noexec : decide (("runbindable" : String) = "noexec") = false := rfl

theorem deq_runbindable_relatime : decide (("runbindable" : String) = "relatime") = false := rfl

theorem deq_runbindable_norelatime : decide (("runbindable" : String) = "norelatime") = false := rfl

theorem deq_runbindable_strictatime : decide (("runbindable" : String) = "strictatime") = false := rfl

theorem deq_runbindable_nostrictatime : decide (("runbindable" : String) = "nostrictatime") = false := rfl

theorem deq_runbindable_sync : decide (("runbindable" : String) = "sync") = false := rfl

theorem deq_runbindable_dirsync : decide (("runbindable" : String) = "dirsync") = false := rfl

theorem deq_runbindable_remount : decide (("runbindable" : String) = "remount") = false := rfl

theorem deq_runbindable_bind : decide (("runbindable" : String) = "bind") = false := rfl

theorem deq_runbindable_rbind : decide (("runbindable" : String) = "rbind") = false := rfl

theorem deq_runbindable_recursive : decide (("runbindable" : String) = "recursive") = false := rfl

theorem deq_runbindable_private : decide (("runbindable" : String) = "private") = false := rfl

theorem deq_runbindable_rprivate : decide (("runbindable" : String) = "rprivate") = false := rfl

theorem deq_runbindable_shared : decide (("runbindable" : String) = "shared") = false := rfl

theorem deq_runbindable_rshared : decide (("runbindable" : String) = "rshared") = false := rfl

theorem deq_runbindable_slave : decide (("runbindable" : String) = "slave") = false := rfl

theorem deq_runbindable_rslave : decide (("runbindable" : String) = "rslave") = false := rfl

theorem deq_runbindable_unbindable : decide (("runbindable" : String) = "unbindable") = false := rfl

theorem mount_option_step_eq_runbindable (parsed : ParsedMountOptions) (d : List String) :
    mount_option_step (parsed, d) "runbindable" = ({ parsed with propagation := MS_UNBINDABLE_REC, has_propagation := true }, d) := by
  unfold mount_option_step
  rw [if_neg (of_decide_eq_false deq_runbindable_ro),
    if_neg (of_decide_eq_false deq_runbindable_rw),
    if_neg (of_decide_eq_false deq_runbindable_nosuid),
    if_neg (of_decide_eq_false deq_runbindable_nodev),
    if_neg (of_decide_eq_false deq_runbindable_noexec),
    if_neg (of_decide_eq_false deq_runbindable_relatime),
    if_neg (of_decide_eq_false deq_runbindable_norelatime),
    if_neg (of_decide_eq_false deq_runbindable_strictatime),
    if_neg (of_decide_eq_false deq_runbindable_nostrictatime),
    if_neg (of_decide_eq_false deq_runbindable_sync),
    if_neg (of_decide_eq_false deq_runbindable_dirsync),
    if_neg (of_decide_eq_false deq_runbindable_remount)]
  unfold mount_option_step_rest
  rw [if_neg (of_decide_eq_false deq_runbindable_bind),
    if_neg (of_decide_eq_false deq_runbindable_rbind),
    if_neg (of_decide_eq_false deq_runbindable_recursive),
    if_neg (of_decide_eq_false deq_runbindable_private),
    if_neg (of_decide_eq_false deq_runbindable_rprivate),
    if_neg (of_decide_eq_false deq_runbindable_shared),
    if_neg (of_decide_eq_false deq_runbindable_rshared),
    if_neg (of_decide_eq_false deq_runbindable_slave),
    if_neg (of_decide_eq_false deq_runbindable_rslave),
    if_neg (of_decide_eq_false deq_runbindable_unbindable),
    if_pos rfl]

theorem deq_size64k_ro : decide (("size=64k" : String) = "ro") = false := rfl

theorem deq_size64k_rw : decide (("size=64k" : String) = "rw") = false := rfl

theorem deq_size64k_nosuid : decide (("size=64k" : String) = "nosuid") = false := rfl

theorem deq_size64k_nodev : decide (("size=64k" : String) = "nodev") = false := rfl

theorem deq_size64k_noexec : decide (("size=64k" : String) = "noexec") = false := rfl

theorem deq_size64k_relatime : decide (("size=64k" : String) = "relatime") = false := rfl

theorem deq_size64k_norelatime : decide (("size=64k" : String) = "norelatime") = false := rfl

theorem deq_size64k_strictatime : decide (("size=64k" : String) = "strictatime") = false := rfl

theorem deq_size64k_nostrictatime : decide (("size=64k" : String) = "nostrictatime") = false := rfl

theorem deq_size64k_sync : decide (("size=64k" : String) = "sync") = false := rfl

theorem deq_size64k_dirsync : decide (("size=64k" : String) = "dirsync") = false := rfl

theorem deq_size64k_remount : decide (("size=64k" : String) = "remount") = false := rfl

theorem deq_size64k_bind : decide (("size=64k" : String) = "bind") = false := rfl

theorem deq_size64k_rbind : decide (("size=64k" : String) = "rbind") = false := rfl

theorem deq_size64k_recursive : decide (("size=64k" : String) = "recursive") = false := rfl

theorem deq_size64k_private : decide (("size=64k" : String) = "private") = false := rfl

theorem deq_size64k_rprivate : decide (("size=64k" : String) = "rprivate") = false := rfl

theorem deq_size64k_shared : decide (("size=64k" : String) = "shared") = false := rfl

theorem deq_size64k_rshared : decide (("size=64k" : String) = "rshared") = false := rfl

theorem deq_size64k_slave : decide (("size=64k" : String) = "slave") = false := rfl

theorem deq_size64k_rslave : decide (("size=64k" : String) = "rslave") = false := rfl

theorem deq_size64k_unbindable : decide (("size=64k" : String) = "unbindable") = false := rfl

theorem deq_size64k_runbindable : decide (("size=64k" : String) = "runbindable") = false := rfl

theorem mount_option_step_eq_size64k (parsed : ParsedMountOptions) (d : List String) :
    mount_option_step (parsed, d) "size=64k" = (parsed, d ++ ["size=64k"]) := by
  unfold mount_option_step
  rw [if_neg (of_decide_eq_false deq_size64k_ro),
    if_neg (of_decide_eq_false deq_size64k_rw),
    if_neg (of_decide_eq_false deq_size64k_nosuid),
    if_neg (of_decide_eq_false deq_size64k_nodev),
    if_neg (of_decide_eq_false deq_size64k_noexec),
    if_neg (of_decide_eq_false deq_size64k_relatime),
    if_neg (of_decide_eq_false deq_size64k_norelatime),
    if_neg (of_decide_eq_false deq_size64k_strictatime),
    if_neg (of_decide_eq_false deq_size64k_nostrictatime),
    if_neg (of_decide_eq_false deq_size64k_sync),
    if_neg (of_decide_eq_false deq_size64k_dirsync),
    if_neg (of_decide_eq_false deq_size64k_remount)]
  unfold mount_option_step_rest
  rw [if_neg (of_decide_eq_false deq_size64k_bind),
    if_neg (of_decide_eq_false deq_size64k_rbind),
    if_neg (of_decide_eq_false deq_size64k_recursive),
    if_neg (of_decide_eq_false deq_size64k_private),
    if_neg (of_decide_eq_false deq_size64k_rprivate),
    if_neg (of_decide_eq_false deq_size64k_shared),
    if_neg (of_decide_eq_false deq_size64k_rshared),
    if_neg (of_decide_eq_false deq_size64k_slave),
    if_neg (of_decide_eq_false deq_size64k_rslave),
    if_neg (of_decide_eq_false deq_size64k_unbindable),
    if_neg (of_decide_eq_false deq_size64k_runbindable)]
  rw [ite_self]

theorem deq_x1_ro : decide (("x=1" : String) = "ro") = false := rfl

theorem deq_x1_rw : decide (("x=1" : String) = "rw") = false := rfl

theorem deq_x1_nosuid : decide (("x=1" : String) = "nosuid") = false := rfl

theorem deq_x1_nodev : decide (("x=1" : String) = "nodev") = false := rfl

theorem deq_x1_noexec : decide (("x=1" : String) = "noexec") = false := rfl

theorem deq_x1_relatime : decide (("x=1" : String) = "relatime") = false := rfl

theorem deq_x1_norelatime : decide (("x=1" : String) = "norelatime") = false := rfl

theorem deq_x1_strictatime : decide (("x=1" : String) = "strictatime") = false := rfl

theorem deq_x1_nostrictatime : decide (("x=1" : String) = "nostrictatime") = false := rfl

theorem deq_x1_sync : decide (("x=1" : String) = "sync") = false := rfl

theorem deq_x1_dirsync : decide (("x=1" : String) = "dirsync") = false := rfl

theorem deq_x1_remount : decide (("x=1" : String) = "remount") = false := rfl

theorem deq_x1_bind : decide (("x=1" : String) = "bind") = false := rfl

theorem deq_x1_rbind : decide (("x=1" : String) = "rbind") = false := rfl

theorem deq_x1_recursive : decide (("x=1" : String) = "recursive") = false := rfl

theorem deq_x1_private : decide (("x=1" : String) = "private") = false := rfl

theorem deq_x1_rprivate : decide (("x=1" : String) = "rprivate") = false := rfl

theorem deq_x1_shared : decide (("x=1" : String) = "shared") = false := rfl

theorem deq_x1_rshared : decide (("x=1" : String) = "rshared") = false := rfl

theorem deq_x1_slave : decide (("x=1" : String) = "slave") = false := rfl

theorem deq_x1_rslave : decide (("x=1" : String) = "rslave") = false := rfl

theorem deq_x1_unbindable : decide (("x=1" : String) = "unbindable") = false := rfl

theorem deq_x1_runbindable : decide (("x=1" : String) = "runbindable") = false := rfl

theorem mount_option_step_eq_x1 (parsed : ParsedMountOptions) (d : List String) :
    mount_option_step (parsed, d) "x=1" = (parsed, d ++ ["x=1"]) := by
  unfold mount_option_step
  rw [if_neg (of_decide_eq_false deq_x1_ro),
    if_neg (of_decide_eq_false deq_x1_rw),
    if_neg (of_decide_eq_false deq_x1_nosuid),
    if_neg (of_decide_eq_false deq_x1_nodev),
    if_neg (of_decide_eq_false deq_x1_noexec),
    if_neg (of_decide_eq_false deq_x1_relatime),
    if_neg (of_decide_eq_false deq_x1_norelatime),
    if_neg (of_decide_eq_false deq_x1_strictatime),
    if_neg (of_decide_eq_false deq_x1_nostrictatime),
    if_neg (of_decide_eq_false deq_x1_sync),
    if_neg (of_decide_eq_false deq_x1_dirsync),
    if_neg (of_decide_eq_false deq_x1_remount)]
  unfold mount_option_step_rest
  rw [if_neg (of_decide_eq_false deq_x1_bind),
    if_neg (of_decide_eq_false deq_x1_rbind),
    if_neg (of_decide_eq_false deq_x1_recursive),
    if_neg (of_decide_eq_false deq_x1_private),
    if_neg (of_decide_eq_false deq_x1_rprivate),
    if_neg (of_decide_eq_false deq_x1_shared),
    if_neg (of_decide_eq_false deq_x1_rshared),
    if_neg (of_decide_eq_false deq_x1_slave),
    if_neg (of_decide_eq_false deq_x1_rslave),
    if_neg (of_decide_eq_false deq_x1_unbindable),
    if_neg (of_decide_eq_false deq_x1_runbindable)]
  rw [ite_self]

theorem mount_flag_bits_eq_ro : mount_flag_bits "ro" = MS_RDONLY := by
  unfold mount_flag_bits
  rw [if_pos rfl]

theorem deq_rw_nosuid : decide (("rw" : String) = "nosuid") = false := rfl

theorem deq_rw_nodev : decide (("rw" : String) = "nodev") = false := rfl

theorem deq_rw_noexec : decide (("rw" : String) = "noexec") = false := rfl

theorem deq_rw_relatime : decide (("rw" : String) = "relatime") = false := rfl

theorem deq_rw_strictatime : decide (("rw" : String) = "strictatime") = false := rfl

theorem deq_rw_sync : decide (("rw" : String) = "sync") = false := rfl

theorem deq_rw_dirsync : decide (("rw" : String) = "dirsync") = false := rfl

theorem deq_rw_remount : decide (("rw" : String) = "remount") = false := rfl

theorem deq_rw_bind : decide (("rw" : String) = "bind") = false := rfl

theorem deq_rw_rbind : decide (("rw" : String) = "rbind") = false := rfl

theorem deq_rw_recursive : decide (("rw" : String) = "recursive") = false := rfl

theorem mount_flag_bits_eq_rw : mount_flag_bits "rw" = 0 := by
  unfold mount_flag_bits
  rw [if_neg (of_decide_eq_false deq_rw_ro),
    if_neg (of_decide_eq_false deq_rw_nosuid),
    if_neg (of_decide_eq_false deq_rw_nodev),
    if_neg (of_decide_eq_false deq_rw_noexec),
    if_neg (of_decide_eq_false deq_rw_relatime),
    if_neg (of_decide_eq_false deq_rw_strictatime),
    if_neg (of_decide_eq_false deq_rw_sync),
    if_neg (of_decide_eq_false deq_rw_dirsync),
    if_neg (of_decide_eq_false deq_rw_remount),
    if_neg (of_decide_eq_false deq_rw_bind),
    if_neg (of_decide_eq_false deq_rw_rbind),
    if_neg (of_decide_eq_false deq_rw_recursive)]

theorem mount_flag_bits_eq_nosuid : mount_flag_bits "nosuid" = MS_NOSUID := by
  unfold mount_flag_bits
  rw [if_neg (of_decide_eq_false deq_nosuid_ro),
    if_pos rfl]

theorem mount_flag_bits_eq_nodev : mount_flag_bits "nodev" = MS_NODEV := by
  unfold mount_flag_bits
  rw [if_neg (of_decide_eq_false deq_nodev_ro),
    if_neg (of_decide_eq_false deq_nodev_nosuid),
    if_pos rfl]

theorem mount_flag_bits_eq_noexec : mount_flag_bits "noexec" = MS_NOEXEC := by
  unfold mount_flag_bits
  rw [if_neg (of_decide_eq_false deq_noexec_ro),
    if_neg (of_decide_eq_false deq_noexec_nosuid),
    if_neg (of_decide_eq_false deq_noexec_nodev),
    if_pos rfl]

theorem mount_flag_bits_eq_relatime : mount_flag_bits "relatime" = MS_RELATIME := by
  unfold mount_flag_bits
  rw [if_neg (of_decide_eq_false deq_relatime_ro),
    if_neg (of_decide_eq_false deq_relatime_nosuid),
    if_neg (of_decide_eq_false deq_relatime_nodev),
    if_neg (of_decide_eq_false deq_relatime_noexec),
    if_pos rfl]

theorem deq_norelatime_strictatime : decide (("norelatime" : String) = "strictatime") = false := rfl

theorem deq_norelatime_sync : decide (("norelatime" : String) = "sync") = false := rfl

theorem deq_norelatime_dirsync : decide (("norelatime" : String) = "dirsync") = false := rfl

theorem deq_norelatime_remount : decide (("norelatime" : String) = "remount") = false := rfl

theorem deq_norelatime_bind : decide (("norelatime" : String) = "bind") = false := rfl

theorem deq_norelatime_rbind : decide (("norelatime" : String) = "rbind") = false := rfl

theorem deq_norelatime_recursive : decide (("norelatime" : String) = "recursive") = false := rfl

theorem mount_flag_bits_eq_norelatime : mount_flag_bits "norelatime" = 0 := by
  unfold mount_flag_bits
  rw [if_neg (of_decide_eq_false deq_norelatime_ro),
    if_neg (of_decide_eq_false deq_norelatime_nosuid),
    if_neg (of_decide_eq_false deq_norelatime_nodev),
    if_neg (of_decide_eq_false deq_norelatime_noexec),
    if_neg (of_decide_eq_false deq_norelatime_relatime),
    if_neg (of_decide_eq_false deq_norelatime_strictatime),
    if_neg (of_decide_eq_false deq_norelatime_sync),
    if_neg (of_decide_eq_false deq_norelatime_dirsync),
    if_neg (of_decide_eq_false deq_norelatime_remount),
    if_neg (of_decide_eq_false deq_norelatime_bind),
    if_neg (of_decide_eq_false deq_norelatime_rbind),
    if_neg (of_decide_eq_false deq_norelatime_recursive)]

theorem mount_flag_bits_eq_strictatime : mount_flag_bits "strictatime" = MS_STRICTATIME := by
  unfold mount_flag_bits
  rw [if_neg (of_decide_eq_false deq_strictatime_ro),
    if_neg (of_decide_eq_false deq_strictatime_nosuid),
    if_neg (of_decide_eq_false deq_strictatime_nodev),
    if_neg (of_decide_eq_false deq_strictatime_noexec),
    if_neg (of_decide_eq_false deq_strictatime_relatime),
    if_pos rfl]

theorem deq_nostrictatime_sync : decide (("nostrictatime" : String) = "sync") = false := rfl

theorem deq_nostrictatime_dirsync : decide (("nostrictatime" : String) = "dirsync") = false := rfl

theorem deq_nostrictatime_remount : decide (("nostrictatime" : String) = "remount") = false := rfl

theorem deq_nostrictatime_bind : decide (("nostrictatime" : String) = "bind") = false := rfl

theorem deq_nostrictatime_rbind : decide (("nostrictatime" : String) = "rbind") = false := rfl

theorem deq_nostrictatime_recursive : decide (("nostrictatime" : String) = "recursive") = false := rfl

theorem mount_flag_bits_eq_nostrictatime : mount_flag_bits "nostrictatime" = 0 := by
  unfold mount_flag_bits
  rw [if_neg (of_decide_eq_false deq_nostrictatime_ro),
    if_neg (of_decide_eq_false deq_nostrictatime_nosuid),
    if_neg (of_decide_eq_false deq_nostrictatime_nodev),
    if_neg (of_decide_eq_false deq_nostrictatime_noexec),
    if_neg (of_decide_eq_false deq_nostrictatime_relatime),
    if_neg (of_decide_eq_false deq_nostrictatime_strictatime),
    if_neg (of_decide_eq_false deq_nostrictatime_sync),
    if_neg (of_decide_eq_false deq_nostrictatime_dirsync),
    if_neg (of_decide_eq_false deq_nostrictatime_remount),
    if_neg (of_decide_eq_false deq_nostrictatime_bind),
    if_neg (of_decide_eq_false deq_nostrictatime_rbind),
    if_neg (of_decide_eq_false deq_nostrictatime_recursive)]

theorem mount_flag_bits_eq_sync : mount_flag_bits "sync" = MS_SYNCHRONOUS := by
  unfold mount_flag_bits
  rw [if_neg (of_decide_eq_false deq_sync_ro),
    if_neg (of_decide_eq_false deq_sync_nosuid),
    if_neg (of_decide_eq_false deq_sync_nodev),
    if_neg (of_decide_eq_false deq_sync_noexec),
    if_neg (of_decide_eq_false deq_sync_relatime),
    if_neg (of_decide_eq_false deq_sync_strictatime),
    if_pos rfl]

theorem mount_flag_bits_eq_dirsync : mount_flag_bits "dirsync" = MS_DIRSYNC := by
  unfold mount_flag_bits
  rw [if_neg (of_decide_eq_false deq_dirsync_ro),
    if_neg (of_decide_eq_false deq_dirsync_nosuid),
    if_neg (of_decide_eq_false deq_dirsync_nodev),
    if_neg (of_decide_eq_false deq_dirsync_noexec),
    if_neg (of_decide_eq_false deq_dirsync_relatime),
    if_neg (of_decide_eq_false deq_dirsync_strictatime),
    if_neg (of_decide_eq_false deq_dirsync_sync),
    if_pos rfl]

theorem mount_flag_bits_eq_remount : mount_flag_bits "remount" = MS_REMOUNT := by
  unfold mount_flag_bits
  rw [if_neg (of_decide_eq_false deq_remount_ro),
    if_neg (of_decide_eq_false deq_remount_nosuid),
    if_neg (of_decide_eq_false deq_remount_nodev),
    if_neg (of_decide_eq_false deq_remount_noexec),
    if_neg (of_decide_eq_false deq_remount_relatime),
    if_neg (of_decide_eq_false deq_remount_strictatime),
    if_neg (of_decide_eq_false deq_remount_sync),
    if_neg (of_decide_eq_false deq_remount_dirsync),
    if_pos rfl]

theorem mount_flag_bits_eq_bind : mount_flag_bits "bind" = MS_BIND := by
  unfold mount_flag_bits
  rw [if_neg (of_decide_eq_false deq_bind_ro),
    if_neg (of_decide_eq_false deq_bind_nosuid),
    if_neg (of_decide_eq_false deq_bind_nodev),
    if_neg (of_decide_eq_false deq_bind_noexec),
    if_neg (of_decide_eq_false deq_bind_relatime),
    if_neg (of_decide_eq_false deq_bind_strictatime),
    if_neg (of_decide_eq_false deq_bind_sync),
    if_neg (of_decide_eq_false deq_bind_dirsync),
    if_neg (of_decide_eq_false deq_bind_remount),
    if_pos rfl]

theorem mount_flag_bits_eq_rbind : mount_flag_bits "rbind" = MS_BIND_REC := by
  unfold mount_flag_bits
  rw [if_neg (of_decide_eq_false deq_rbind_ro),
    if_neg (of_decide_eq_false deq_rbind_nosuid),
    if_neg (of_decide_eq_false deq_rbind_nodev),
    if_neg (of_decide_eq_false deq_rbind_noexec),
    if_neg (of_decide_eq_false deq_rbind_relatime),
    if_neg (of_decide_eq_false deq_rbind_strictatime),
    if_neg (of_decide_eq_false deq_rbind_sync),
    if_neg (of_decide_eq_false deq_rbind_dirsync),
    if_neg (of_decide_eq_false deq_rbind_remount),
    if_neg (of_decide_eq_false deq_rbind_bind),
    if_pos rfl]

theorem mount_flag_bits_eq_recursive : mount_flag_bits "recursive" = MS_REC := by
  unfold mount_flag_bits
  rw [if_neg (of_decide_eq_false deq_recursive_ro),
    if_neg (of_decide_eq_false deq_recursive_nosuid),
    if_neg (of_decide_eq_false deq_recursive_nodev),
    if_neg (of_decide_eq_false deq_recursive_noexec),
    if_neg (of_decide_eq_false deq_recursive_relatime),
    if_neg (of_decide_eq_false deq_recursive_strictatime),
    if_neg (of_decide_eq_false deq_recursive_sync),
    if_neg (of_decide_eq_false deq_recursive_dirsync),
    if_neg (of_decide_eq_false deq_recursive_remount),
    if_neg (of_decide_eq_false deq_recursive_bind),
    if_neg (of_decide_eq_false deq_recursive_rbind),
    if_pos rfl]

theorem mount_flag_bits_eq_private : mount_flag_bits "private" = 0 := by
  unfold mount_flag_bits
  rw [if_neg (of_decide_eq_false deq_private_ro),
    if_neg (of_decide_eq_false deq_private_nosuid),
    if_neg (of_decide_eq_false deq_private_nodev),
    if_neg (of_decide_eq_false deq_private_noexec),
    if_neg (of_decide_eq_false deq_private_relatime),
    if_neg (of_decide_eq_false deq_private_strictatime),
    if_neg (of_decide_eq_false deq_private_sync),
    if_neg (of_decide_eq_false deq_private_dirsync),
    if_neg (of_decide_eq_false deq_private_remount),
    if_neg (of_decide_eq_false deq_private_bind),
    if_neg (of_decide_eq_false deq_private_rbind),
    if_neg (of_decide_eq_false deq_private_recursive)]

theorem mount_flag_bits_eq_rprivate : mount_flag_bits "rprivate" = 0 := by
  unfold mount_flag_bits
  rw [if_neg (of_decide_eq_false deq_rprivate_ro),
    if_neg (of_decide_eq_false deq_rprivate_nosuid),
    if_neg (of_decide_eq_false deq_rprivate_nodev),
    if_neg (of_decide_eq_false deq_rprivate_noexec),
    if_neg (of_decide_eq_false deq_rprivate_relatime),
    if_neg (of_decide_eq_false deq_rprivate_strictatime),
    if_neg (of_decide_eq_false deq_rprivate_sync),
    if_neg (of_decide_eq_false deq_rprivate_dirsync),
    if_neg (of_decide_eq_false deq_rprivate_remount),
    if_neg (of_decide_eq_false deq_rprivate_bind),
    if_neg (of_decide_eq_false deq_rprivate_rbind),
    if_neg (of_decide_eq_false deq_rprivate_recursive)]

theorem mount_flag_bits_eq_shared : mount_flag_bits "shared" = 0 := by
  unfold mount_flag_bits
  rw [if_neg (of_decide_eq_false deq_shared_ro),
    if_neg (of_decide_eq_false deq_shared_nosuid),
    if_neg (of_decide_eq_false deq_shared_nodev),
    if_neg (of_decide_eq_false deq_shared_noexec),
    if_neg (of_decide_eq_false deq_shared_relatime),
    if_neg (of_decide_eq_false deq_shared_strictatime),
    if_neg (of_decide_eq_false deq_shared_sync),
    if_neg (of_decide_eq_false deq_shared_dirsync),
    if_neg (of_decide_eq_false deq_shared_remount),
    if_neg (of_decide_eq_false deq_shared_bind),
    if_neg (of_decide_eq_false deq_shared_rbind),
    if_neg (of_decide_eq_false deq_shared_recursive)]

theorem mount_flag_bits_eq_rshared : mount_flag_bits "rshared" = 0 := by
  unfold mount_flag_bits
  rw [if_neg (of_decide_eq_false deq_rshared_ro),
    if_neg (of_decide_eq_false deq_rshared_nosuid),
    if_neg (of_decide_eq_false deq_rshared_nodev),
    if_neg (of_decide_eq_false deq_rshared_noexec),
    if_neg (of_decide_eq_false deq_rshared_relatime),
    if_neg (of_decide_eq_false deq_rshared_strictatime),
    if_neg (of_decide_eq_false deq_rshared_sync),
    if_neg (of_decide_eq_false deq_rshared_dirsync),
    if_neg (of_decide_eq_false deq_rshared_remount),
    if_neg (of_decide_eq_false deq_rshared_bind),
    if_neg (of_decide_eq_false deq_rshared_rbind),
    if_neg (of_decide_eq_false deq_rshared_recursive)]

theorem mount_flag_bits_eq_slave : mount_flag_bits "slave" = 0 := by
  unfold mount_flag_bits
  rw [if_neg (of_decide_eq_false deq_slave_ro),
    if_neg (of_decide_eq_false deq_slave_nosuid),
    if_neg (of_decide_eq_false deq_slave_nodev),
    if_neg (of_decide_eq_false deq_slave_noexec),
    if_neg (of_decide_eq_false deq_slave_relatime),
    if_neg (of_decide_eq_false deq_slave_strictatime),
    if_neg (of_decide_eq_false deq_slave_sync),
    if_neg (of_decide_eq_false deq_slave_dirsync),
    if_neg (of_decide_eq_false deq_slave_remount),
    if_neg (of_decide_eq_false deq_slave_bind),
    if_neg (of_decide_eq_false deq_slave_rbind),
    if_neg (of_decide_eq_false deq_slave_recursive)]

theorem mount_flag_bits_eq_rslave : mount_flag_bits "rslave" = 0 := by
  unfold mount_flag_bits
  rw [if_neg (of_decide_eq_false deq_rslave_ro),
    if_neg (of_decide_eq_false deq_rslave_nosuid),
    if_neg (of_decide_eq_false deq_rslave_nodev),
    if_neg (of_decide_eq_false deq_rslave_noexec),
    if_neg (of_decide_eq_false deq_rslave_relatime),
    if_neg (of_decide_eq_false deq_rslave_strictatime),
    if_neg (of_decide_eq_false deq_rslave_sync),
    if_neg (of_decide_eq_false deq_rslave_dirsync),
    if_neg (of_decide_eq_false deq_rslave_remount),
    if_neg (of_decide_eq_false deq_rslave_bind),
    if_neg (of_decide_eq_false deq_rslave_rbind),
    if_neg (of_decide_eq_false deq_rslave_recursive)]

theorem mount_flag_bits_eq_unbindable : mount_flag_bits "unbindable" = 0 := by
  unfold mount_flag_bits
  rw [if_neg (of_decide_eq_false deq_unbindable_ro),
    if_neg (of_decide_eq_false deq_unbindable_nosuid),
    if_neg (of_decide_eq_false deq_unbindable_nodev),
    if_neg (of_decide_eq_false deq_unbindable_noexec),
    if_neg (of_decide_eq_false deq_unbindable_relatime),
    if_neg (of_decide_eq_false deq_unbindable_strictatime),
    if_neg (of_decide_eq_false deq_unbindable_sync),
    if_neg (of_decide_eq_false deq_unbindable_dirsync),
    if_neg (of_decide_eq_false deq_unbindable_remount),
    if_neg (of_decide_eq_false deq_unbindable_bind),
    if_neg (of_decide_eq_false deq_unbindable_rbind),
    if_neg (of_decide_eq_false deq_unbindable_recursive)]

theorem mount_flag_bits_eq_runbindable : mount_flag_bits "runbindable" = 0 := by
  unfold mount_flag_bits
  rw [if_neg (of_decide_eq_false deq_runbindable_ro),
    if_neg (of_decide_eq_false deq_runbindable_nosuid),
    if_neg (of_decide_eq_false deq_runbindable_nodev),
    if_neg (of_decide_eq_false deq_runbindable_noexec),
    if_neg (of_decide_eq_false deq_runbindable_relatime),
    if_neg (of_decide_eq_false deq_runbindable_strictatime),
    if_neg (of_decide_eq_false deq_runbindable_sync),
    if_neg (of_decide_eq_false deq_runbindable_dirsync),
    if_neg (of_decide_eq_false deq_runbindable_remount),
    if_neg (of_decide_eq_false deq_runbindable_bind),
    if_neg (of_decide_eq_false deq_runbindable_rbind),
    if_neg (of_decide_eq_false deq_runbindable_recursive)]

theorem deq_ro_rw : decide (("ro" : String) = "rw") = false := rfl

theorem deq_ro_nosuid : decide (("ro" : String) = "nosuid") = false := rfl

theorem deq_ro_nodev : decide (("ro" : String) = "nodev") = false := rfl

theorem deq_ro_noexec : decide (("ro" : String) = "noexec") = false := rfl

theorem deq_ro_relatime : decide (("ro" : String) = "relatime") = false := rfl

theorem deq_ro_norelatime : decide (("ro" : String) = "norelatime") = false := rfl

theorem deq_ro_strictatime : decide (("ro" : String) = "strictatime") = false := rfl

theorem deq_ro_nostrictatime : decide (("ro" : String) = "nostrictatime") = false := rfl

theorem deq_ro_sync : decide (("ro" : String) = "sync") = false := rfl

theorem deq_ro_dirsync : decide (("ro" : String) = "dirsync") = false := rfl

theorem deq_ro_remount : decide (("ro" : String) = "remount") = false := rfl

theorem deq_ro_bind : decide (("ro" : String) = "bind") = false := rfl

theorem deq_ro_rbind : decide (("ro" : String) = "rbind") = false := rfl

theorem deq_ro_recursive : decide (("ro" : String) = "recursive") = false := rfl

theorem deq_ro_private : decide (("ro" : String) = "private") = false := rfl

theorem deq_ro_rprivate : decide (("ro" : String) = "rprivate") = false := rfl

theorem deq_ro_shared : decide (("ro" : String) = "shared") = false := rfl

theorem deq_ro_rshared : decide (("ro" : String) = "rshared") = false := rfl

theorem deq_ro_slave : decide (("ro" : String) = "slave") = false := rfl

theorem deq_ro_rslave : decide (("ro" : String) = "rslave") = false := rfl

theorem deq_ro_unbindable : decide (("ro" : String) = "unbindable") = false := rfl

theorem deq_ro_runbindable : decide (("ro" : String) = "runbindable") = false := rfl

theorem recognized_token_eq_ro : recognized_token "ro" = true := by
  unfold recognized_token
  rw [decide_eq_true (Eq.refl ("ro" : String))]
  rfl

theorem deq_rw_norelatime : decide (("rw" : String) = "norelatime") = false := rfl

theorem deq_rw_nostrictatime : decide (("rw" : String) = "nostrictatime") = false := rfl

theorem deq_rw_private : decide (("rw" : String) = "private") = false := rfl

theorem deq_rw_rprivate : decide (("rw" : String) = "rprivate") = false := rfl

theorem deq_rw_shared : decide (("rw" : String) = "shared") = false := rfl

theorem deq_rw_rshared : decide (("rw" : String) = "rshared") = false := rfl

theorem deq_rw_slave : decide (("rw" : String) = "slave") = false := rfl

theorem deq_rw_rslave : decide (("rw" : String) = "rslave") = false := rfl

theorem deq_rw_unbindable : decide (("rw" : String) = "unbindable") = false := rfl

theorem deq_rw_runbindable : decide (("rw" : String) = "runbindable") = false := rfl

theorem recognized_token_eq_rw : recognized_token "rw" = true := by
  unfold recognized_token
  rw [deq_rw_ro,
    decide_eq_true (Eq.refl ("rw" : String))]
  rfl

theorem deq_nosuid_nodev : decide (("nosuid" : String) = "nodev") = false := rfl

theorem deq_nosuid_noexec : decide (("nosuid" : String) = "noexec") = false := rfl

theorem deq_nosuid_relatime : decide (("nosuid" : String) = "relatime") = false := rfl

theorem deq_nosuid_norelatime : decide (("nosuid" : String) = "norelatime") = false := rfl

theorem deq_nosuid_strictatime : decide (("nosuid" : String) = "strictatime") = false := rfl

theorem deq_nosuid_nostrictatime : decide (("nosuid" : String) = "nostrictatime") = false := rfl

theorem deq_nosuid_sync : decide (("nosuid" : String) = "sync") = false := rfl

theorem deq_nosuid_dirsync : decide (("nosuid" : String) = "dirsync") = false := rfl

theorem deq_nosuid_remount : decide (("nosuid" : String) = "remount") = false := rfl

theorem deq_nosuid_bind : decide (("nosuid" : String) = "bind") = false := rfl

theorem deq_nosuid_rbind : decide (("nosuid" : String) = "rbind") = false := rfl

theorem deq_nosuid_recursive : decide (("nosuid" : String) = "recursive") = false := rfl

theorem deq_nosuid_private : decide (("nosuid" : String) = "private") = false := rfl

theorem deq_nosuid_rprivate : decide (("nosuid" : String) = "rprivate") = false := rfl

theorem deq_nosuid_shared : decide (("nosuid" : String) = "shared") = false := rfl

theorem deq_nosuid_rshared : decide (("nosuid" : String) = "rshared") = false := rfl

theorem deq_nosuid_slave : decide (("nosuid" : String) = "slave") = false := rfl

theorem deq_nosuid_rslave : decide (("nosuid" : String) = "rslave") = false := rfl

theorem deq_nosuid_unbindable : decide (("nosuid" : String) = "unbindable") = false := rfl

theorem deq_nosuid_runbindable : decide (("nosuid" : String) = "runbindable") = false := rfl

theorem recognized_token_eq_nosuid : recognized_token "nosuid" = true := by
  unfold recognized_token
  rw [deq_nosuid_ro,
    deq_nosuid_rw,
    decide_eq_true (Eq.refl ("nosuid" : String))]
  rfl

theorem deq_nodev_noexec : decide (("nodev" : String) = "noexec") = false := rfl

theorem deq_nodev_relatime : decide (("nodev" : String) = "relatime") = false := rfl

theorem deq_nodev_norelatime : decide (("nodev" : String) = "norelatime") = false := rfl

theorem deq_nodev_strictatime : decide (("nodev" : String) = "strictatime") = false := rfl

theorem deq_nodev_nostrictatime : decide (("nodev" : String) = "nostrictatime") = false := rfl

theorem deq_nodev_sync : decide (("nodev" : String) = "sync") = false := rfl

theorem deq_nodev_dirsync : decide (("nodev" : String) = "dirsync") = false := rfl

theorem deq_nodev_remount : decide (("nodev" : String) = "remount") = false := rfl

theorem deq_nodev_bind : decide (("nodev" : String) = "bind") = false := rfl

theorem deq_nodev_rbind : decide (("nodev" : String) = "rbind") = false := rfl

theorem deq_nodev_recursive : decide (("nodev" : String) = "recursive") = false := rfl

theorem deq_nodev_private : decide (("nodev" : String) = "private") = false := rfl

theorem deq_nodev_rprivate : decide (("nodev" : String) = "rprivate") = false := rfl

theorem deq_nodev_shared : decide (("nodev" : String) = "shared") = false := rfl

theorem deq_nodev_rshared : decide (("nodev" : String) = "rshared") = false := rfl

theorem deq_nodev_slave : decide (("nodev" : String) = "slave") = false := rfl

theorem deq_nodev_rslave : decide (("nodev" : String) = "rslave") = false := rfl

theorem deq_nodev_unbindable : decide (("nodev" : String) = "unbindable") = false := rfl

theorem deq_nodev_runbindable : decide (("nodev" : String) = "runbindable") = false := rfl

theorem recognized_token_eq_nodev : recognized_token "nodev" = true := by
  unfold recognized_token
  rw [deq_nodev_ro,
    deq_nodev_rw,
    deq_nodev_nosuid,
    decide_eq_true (Eq.refl ("nodev" : String))]
  rfl

theorem deq_noexec_relatime : decide (("noexec" : String) = "relatime") = false := rfl

theorem deq_noexec_norelatime : decide (("noexec" : String) = "norelatime") = false := rfl

theorem deq_noexec_strictatime : decide (("noexec" : String) = "strictatime") = false := rfl

theorem deq_noexec_nostrictatime : decide (("noexec" : String) = "nostrictatime") = false := rfl

theorem deq_noexec_sync : decide (("noexec" : String) = "sync") = false := rfl

theorem deq_noexec_dirsync : decide (("noexec" : String) = "dirsync") = false := rfl

theorem deq_noexec_remount : decide (("noexec" : String) = "remount") = false := rfl

theorem deq_noexec_bind : decide (("noexec" : String) = "bind") = false := rfl

theorem deq_noexec_rbind : decide (("noexec" : String) = "rbind") = false := rfl

theorem deq_noexec_recursive : decide (("noexec" : String) = "recursive") = false := rfl

theorem deq_noexec_private : decide (("noexec" : String) = "private") = false := rfl

theorem deq_noexec_rprivate : decide (("noexec" : String) = "rprivate") = false := rfl

theorem deq_noexec_shared : decide (("noexec" : String) = "shared") = false := rfl

theorem deq_noexec_rshared : decide (("noexec" : String) = "rshared") = false := rfl

theorem deq_noexec_slave : decide (("noexec" : String) = "slave") = false := rfl

theorem deq_noexec_rslave : decide (("noexec" : String) = "rslave") = false := rfl

theorem deq_noexec_unbindable : decide (("noexec" : String) = "unbindable") = false := rfl

theorem deq_noexec_runbindable : decide (("noexec" : String) = "runbindable") = false := rfl

theorem recognized_token_eq_noexec : recognized_token "noexec" = true := by
  unfold recognized_token
  rw [deq_noexec_ro,
    deq_noexec_rw,
    deq_noexec_nosuid,
    deq_noexec_nodev,
    decide_eq_true (Eq.refl ("noexec" : String))]
  rfl

theorem deq_relatime_norelatime : decide (("relatime" : String) = "norelatime") = false := rfl

theorem deq_relatime_strictatime : decide (("relatime" : String) = "strictatime") = false := rfl

theorem deq_relatime_nostrictatime : decide (("relatime" : String) = "nostrictatime") = false := rfl

theorem deq_relatime_sync : decide (("relatime" : String) = "sync") = false := rfl

theorem deq_relatime_dirsync : decide (("relatime" : String) = "dirsync") = false := rfl

theorem deq_relatime_remount : decide (("relatime" : String) = "remount") = false := rfl

theorem deq_relatime_bind : decide (("relatime" : String) = "bind") = false := rfl

theorem deq_relatime_rbind : decide (("relatime" : String) = "rbind") = false := rfl

theorem deq_relatime_recursive : decide (("relatime" : String) = "recursive") = false := rfl

theorem deq_relatime_private : decide (("relatime" : String) = "private") = false := rfl

theorem deq_relatime_rprivate : decide (("relatime" : String) = "rprivate") = false := rfl

theorem deq_relatime_shared : decide (("relatime" : String) = "shared") = false := rfl

theorem deq_relatime_rshared : decide (("relatime" : String) = "rshared") = false := rfl

theorem deq_relatime_slave : decide (("relatime" : String) = "slave") = false := rfl

theorem deq_relatime_rslave : decide (("relatime" : String) = "rslave") = false := rfl

theorem deq_relatime_unbindable : decide (("relatime" : String) = "unbindable") = false := rfl

theorem deq_relatime_runbindable : decide (("relatime" : String) = "runbindable") = false := rfl

theorem recognized_token_eq_relatime : recognized_token "relatime" = true := by
  unfold recognized_token
  rw [deq_relatime_ro,
    deq_relatime_rw,
    deq_relatime_nosuid,
    deq_relatime_nodev,
    deq_relatime_noexec,
    decide_eq_true (Eq.refl ("relatime" : String))]
  rfl

theorem deq_norelatime_nostrictatime : decide (("norelatime" : String) = "nostrictatime") = false := rfl

theorem deq_norelatime_private : decide (("norelatime" : String) = "private") = false := rfl

theorem deq_norelatime_rprivate : decide (("norelatime" : String) = "rprivate") = false := rfl

theorem deq_norelatime_shared : decide (("norelatime" : String) = "shared") = false := rfl

theorem deq_norelatime_rshared : decide (("norelatime" : String) = "rshared") = false := rfl

theorem deq_norelatime_slave : decide (("norelatime" : String) = "slave") = false := rfl

theorem deq_norelatime_rslave : decide (("norelatime" : String) = "rslave") = false := rfl

theorem deq_norelatime_unbindable : decide (("norelatime" : String) = "unbindable") = false := rfl

theorem deq_norelatime_runbindable : decide (("norelatime" : String) = "runbindable") = false := rfl

theorem recognized_token_eq_norelatime : recognized_token "norelatime" = true := by
  unfold recognized_token
  rw [deq_norelatime_ro,
    deq_norelatime_rw,
    deq_norelatime_nosuid,
    deq_norelatime_nodev,
    deq_norelatime_noexec,
    deq_norelatime_relatime,
    decide_eq_true (Eq.refl ("norelatime" : String))]
  rfl

theorem deq_strictatime_nostrictatime : decide (("strictatime" : String) = "nostrictatime") = false := rfl

theorem deq_strictatime_sync : decide (("strictatime" : String) = "sync") = false := rfl

theorem deq_strictatime_dirsync : decide (("strictatime" : String) = "dirsync") = false := rfl

theorem deq_strictatime_remount : decide (("strictatime" : String) = "remount") = false := rfl

theorem deq_strictatime_bind : decide (("strictatime" : String) = "bind") = false := rfl

theorem deq_strictatime_rbind : decide (("strictatime" : String) = "rbind") = false := rfl

theorem deq_strictatime_recursive : decide (("strictatime" : String) = "recursive") = false := rfl

theorem deq_strictatime_private : decide (("strictatime" : String) = "private") = false := rfl

theorem deq_strictatime_rprivate : decide (("strictatime" : String) = "rprivate") = false := rfl

theorem deq_strictatime_shared : decide (("strictatime" : String) = "shared") = false := rfl

theorem deq_strictatime_rshared : decide (("strictatime" : String) = "rshared") = false := rfl

theorem deq_strictatime_slave : decide (("strictatime" : String) = "slave") = false := rfl

theorem deq_strictatime_rslave : decide (("strictatime" : String) = "rslave") = false := rfl

theorem deq_strictatime_unbindable : decide (("strictatime" : String) = "unbindable") = false := rfl

theorem deq_strictatime_runbindable : decide (("strictatime" : String) = "runbindable") = false := rfl

theorem recognized_token_eq_strictatime : recognized_token "strictatime" = true := by
  unfold recognized_token
  rw [deq_strictatime_ro,
    deq_strictatime_rw,
    deq_strictatime_nosuid,
    deq_strictatime_nodev,
    deq_strictatime_noexec,
    deq_strictatime_relatime,
    deq_strictatime_norelatime,
    decide_eq_true (Eq.refl ("strictatime" : String))]
  rfl

theorem deq_nostrictatime_private : decide (("nostrictatime" : String) = "private") = false := rfl

theorem deq_nostrictatime_rprivate : decide (("nostrictatime" : String) = "rprivate") = false := rfl

theorem deq_nostrictatime_shared : decide (("nostrictatime" : String) = "shared") = false := rfl

theorem deq_nostrictatime_rshared : decide (("nostrictatime" : String) = "rshared") = false := rfl

theorem deq_nostrictatime_slave : decide (("nostrictatime" : String) = "slave") = false := rfl

theorem deq_nostrictatime_rslave : decide (("nostrictatime" : String) = "rslave") = false := rfl

theorem deq_nostrictatime_unbindable : decide (("nostrictatime" : String) = "unbindable") = false := rfl

theorem deq_nostrictatime_runbindable : decide (("nostrictatime" : String) = "runbindable") = false := rfl

theorem recognized_token_eq_nostrictatime : recognized_token "nostrictatime" = true := by
  unfold recognized_token
  rw [deq_nostrictatime_ro,
    deq_nostrictatime_rw,
    deq_nostrictatime_nosuid,
    deq_nostrictatime_nodev,
    deq_nostrictatime_noexec,
    deq_nostrictatime_relatime,
    deq_nostrictatime_norelatime,
    deq_nostrictatime_strictatime,
    decide_eq_true (Eq.refl ("nostrictatime" : String))]
  rfl

theorem deq_sync_dirsync : decide (("sync" : String) = "dirsync") = false := rfl

theorem deq_sync_remount : decide (("sync" : String) = "remount") = false := rfl

theorem deq_sync_bind : decide (("sync" : String) = "bind") = false := rfl

theorem deq_sync_rbind : decide (("sync" : String) = "rbind") = false := rfl

theorem deq_sync_recursive : decide (("sync" : String) = "recursive") = false := rfl

theorem deq_sync_private : decide (("sync" : String) = "private") = false := rfl

theorem deq_sync_rprivate : decide (("sync" : String) = "rprivate") = false := rfl

theorem deq_sync_shared : decide (("sync" : String) = "shared") = false := rfl

theorem deq_sync_rshared : decide (("sync" : String) = "rshared") = false := rfl

theorem deq_sync_slave : decide (("sync" : String) = "slave") = false := rfl

theorem deq_sync_rslave : decide (("sync" : String) = "rslave") = false := rfl

theorem deq_sync_unbindable : decide (("sync" : String) = "unbindable") = false := rfl

theorem deq_sync_runbindable : decide (("sync" : String) = "runbindable") = false := rfl

theorem recognized_token_eq_sync : recognized_token "sync" = true := by
  unfold recognized_token
  rw [deq_sync_ro,
    deq_sync_rw,
    deq_sync_nosuid,
    deq_sync_nodev,
    deq_sync_noexec,
    deq_sync_relatime,
    deq_sync_norelatime,
    deq_sync_strictatime,
    deq_sync_nostrictatime,
    decide_eq_true (Eq.refl ("sync" : String))]
  rfl

theorem deq_dirsync_remount : decide (("dirsync" : String) = "remount") = false := rfl

theorem deq_dirsync_bind : decide (("dirsync" : String) = "bind") = false := rfl

theorem deq_dirsync_rbind : decide (("dirsync" : String) = "rbind") = false := rfl

theorem deq_dirsync_recursive : decide (("dirsync" : String) = "recursive") = false := rfl

theorem deq_dirsync_private : decide (("dirsync" : String) = "private") = false := rfl

theorem deq_dirsync_rprivate : decide (("dirsync" : String) = "rprivate") = false := rfl

theorem deq_dirsync_shared : decide (("dirsync" : String) = "shared") = false := rfl

theorem deq_dirsync_rshared : decide (("dirsync" : String) = "rshared") = false := rfl

theorem deq_dirsync_slave : decide (("dirsync" : String) = "slave") = false := rfl

theorem deq_dirsync_rslave : decide (("dirsync" : String) = "rslave") = false := rfl

theorem deq_dirsync_unbindable : decide (("dirsync" : String) = "unbindable") = false := rfl

theorem deq_dirsync_runbindable : decide (("dirsync" : String) = "runbindable") = false := rfl

theorem recognized_token_eq_dirsync : recognized_token "dirsync" = true := by
  unfold recognized_token
  rw [deq_dirsync_ro,
    deq_dirsync_rw,
    deq_dirsync_nosuid,
    deq_dirsync_nodev,
    deq_dirsync_noexec,
    deq_dirsync_relatime,
    deq_dirsync_norelatime,
    deq_dirsync_strictatime,
    deq_dirsync_nostrictatime,
    deq_dirsync_sync,
    decide_eq_true (Eq.refl ("dirsync" : String))]
  rfl

theorem deq_remount_bind : decide (("remount" : String) = "bind") = false := rfl

theorem deq_remount_rbind : decide (("remount" : String) = "rbind") = false := rfl

theorem deq_remount_recursive : decide (("remount" : String) = "recursive") = false := rfl

theorem deq_remount_private : decide (("remount" : String) = "private") = false := rfl

theorem deq_remount_rprivate : decide (("remount" : String) = "rprivate") = false := rfl

theorem deq_remount_shared : decide (("remount" : String) = "shared") = false := rfl

theorem deq_remount_rshared : decide (("remount" : String) = "rshared") = false := rfl

theorem deq_remount_slave : decide (("remount" : String) = "slave") = false := rfl

theorem deq_remount_rslave : decide (("remount" : String) = "rslave") = false := rfl

theorem deq_remount_unbindable : decide (("remount" : String) = "unbindable") = false := rfl

theorem deq_remount_runbindable : decide (("remount" : String) = "runbindable") = false := rfl

theorem recognized_token_eq_remount : recognized_token "remount" = true := by
  unfold recognized_token
  rw [deq_remount_ro,
    deq_remount_rw,
    deq_remount_nosuid,
    deq_remount_nodev,
    deq_remount_noexec,
    deq_remount_relatime,
    deq_remount_norelatime,
    deq_remount_strictatime,
    deq_remount_nostrictatime,
    deq_remount_sync,
    deq_remount_dirsync,
    decide_eq_true (Eq.refl ("remount" : String))]
  rfl

theorem deq_bind_rbind : decide (("bind" : String) = "rbind") = false := rfl

theorem deq_bind_recursive : decide (("bind" : String) = "recursive") = false := rfl

theorem deq_bind_private : decide (("bind" : String) = "private") = false := rfl

theorem deq_bind_rprivate : decide (("bind" : String) = "rprivate") = false := rfl

theorem deq_bind_shared : decide (("bind" : String) = "shared") = false := rfl

theorem deq_bind_rshared : decide (("bind" : String) = "rshared") = false := rfl

theorem deq_bind_slave : decide (("bind" : String) = "slave") = false := rfl

theorem deq_bind_rslave : decide (("bind" : String) = "rslave") = false := rfl

theorem deq_bind_unbindable : decide (("bind" : String) = "unbindable") = false := rfl

theorem deq_bind_runbindable : decide (("bind" : String) = "runbindable") = false := rfl

theorem recognized_token_eq_bind : recognized_token "bind" = true := by
  unfold recognized_token recognized_token_rest
  rw [deq_bind_ro,
    deq_bind_rw,
    deq_bind_nosuid,
    deq_bind_nodev,
    deq_bind_noexec,
    deq_bind_relatime,
    deq_bind_norelatime,
    deq_bind_strictatime,
    deq_bind_nostrictatime,
    deq_bind_sync,
    deq_bind_dirsync,
    deq_bind_remount,
    decide_eq_true (Eq.refl ("bind" : String)),
    deq_bind_rbind,
    deq_bind_recursive,
    deq_bind_private,
    deq_bind_rprivate,
    deq_bind_shared,
    deq_bind_rshared,
    deq_bind_slave,
    deq_bind_rslave,
    deq_bind_unbindable,
    deq_bind_runbindable]
  rfl

theorem deq_rbind_recursive : decide (("rbind" : String) = "recursive") = false := rfl

theorem deq_rbind_private : decide (("rbind" : String) = "private") = false := rfl

theorem deq_rbind_rprivate : decide (("rbind" : String) = "rprivate") = false := rfl

theorem deq_rbind_shared : decide (("rbind" : String) = "shared") = false := rfl

theorem deq_rbind_rshared : decide (("rbind" : String) = "rshared") = false := rfl

theorem deq_rbind_slave : decide (("rbind" : String) = "slave") = false := rfl

theorem deq_rbind_rslave : decide (("rbind" : String) = "rslave") = false := rfl

theorem deq_rbind_unbindable : decide (("rbind" : String) = "unbindable") = false := rfl

theorem deq_rbind_runbindable : decide (("rbind" : String) = "runbindable") = false := rfl

theorem recognized_token_eq_rbind : recognized_token "rbind" = true := by
  unfold recognized_token recognized_token_rest
  rw [deq_rbind_ro,
    deq_rbind_rw,
    deq_rbind_nosuid,
    deq_rbind_nodev,
    deq_rbind_noexec,
    deq_rbind_relatime,
    deq_rbind_norelatime,
    deq_rbind_strictatime,
    deq_rbind_nostrictatime,
    deq_rbind_sync,
    deq_rbind_dirsync,
    deq_rbind_remount,
    deq_rbind_bind,
    decide_eq_true (Eq.refl ("rbind" : String)),
    deq_rbind_recursive,
    deq_rbind_private,
    deq_rbind_rprivate,
    deq_rbind_shared,
    deq_rbind_rshared,
    deq_rbind_slave,
    deq_rbind_rslave,
    deq_rbind_unbindable,
    deq_rbind_runbindable]
  rfl

theorem deq_recursive_private : decide (("recursive" : String) = "private") = false := rfl

theorem deq_recursive_rprivate : decide (("recursive" : String) = "rprivate") = false := rfl

theorem deq_recursive_shared : decide (("recursive" : String) = "shared") = false := rfl

theorem deq_recursive_rshared : decide (("recursive" : String) = "rshared") = false := rfl

theorem deq_recursive_slave : decide (("recursive" : String) = "slave") = false := rfl

theorem deq_recursive_rslave : decide (("recursive" : String) = "rslave") = false := rfl

theorem deq_recursive_unbindable : decide (("recursive" : String) = "unbindable") = false := rfl

theorem deq_recursive_runbindable : decide (("recursive" : String) = "runbindable") = false := rfl

theorem recognized_token_eq_recursive : recognized_token "recursive" = true := by
  unfold recognized_token recognized_token_rest
  rw [deq_recursive_ro,
    deq_recursive_rw,
    deq_recursive_nosuid,
    deq_recursive_nodev,
    deq_recursive_noexec,
    deq_recursive_relatime,
    deq_recursive_norelatime,
    deq_recursive_strictatime,
    deq_recursive_nostrictatime,
    deq_recursive_sync,
    deq_recursive_dirsync,
    deq_recursive_remount,
    deq_recursive_bind,
    deq_recursive_rbind,
    decide_eq_true (Eq.refl ("recursive" : String)),
    deq_recursive_private,
    deq_recursive_rprivate,
    deq_recursive_shared,
    deq_recursive_rshared,
    deq_recursive_slave,
    deq_recursive_rslave,
    deq_recursive_unbindable,
    deq_recursive_runbindable]
  rfl

theorem deq_private_rprivate : decide (("private" : String) = "rprivate") = false := rfl

theorem deq_private_shared : decide (("private" : String) = "shared") = false := rfl

theorem deq_private_rshared : decide (("private" : String) = "rshared") = false := rfl

theorem deq_private_slave : decide (("private" : String) = "slave") = false := rfl

theorem deq_private_rslave : decide (("private" : String) = "rslave") = false := rfl

theorem deq_private_unbindable : decide (("private" : String) = "unbindable") = false := rfl

theorem deq_private_runbindable : decide (("private" : String) = "runbindable") = false := rfl

theorem recognized_token_eq_private : recognized_token "private" = true := by
  unfold recognized_token recognized_token_rest
  rw [deq_private_ro,
    deq_private_rw,
    deq_private_nosuid,
    deq_private_nodev,
    deq_private_noexec,
    deq_private_relatime,
    deq_private_norelatime,
    deq_private_strictatime,
    deq_private_nostrictatime,
    deq_private_sync,
    deq_private_dirsync,
    deq_private_remount,
    deq_private_bind,
    deq_private_rbind,
    deq_private_recursive,
    decide_eq_true (Eq.refl ("private" : String)),
    deq_private_rprivate,
    deq_private_shared,
    deq_private_rshared,
    deq_private_slave,
    deq_private_rslave,
    deq_private_unbindable,
    deq_private_runbindable]
  rfl

theorem deq_rprivate_shared : decide (("rprivate" : String) = "shared") = false := rfl

theorem deq_rprivate_rshared : decide (("rprivate" : String) = "rshared") = false := rfl

theorem deq_rprivate_slave : decide (("rprivate" : String) = "slave") = false := rfl

theorem deq_rprivate_rslave : decide (("rprivate" : String) = "rslave") = false := rfl

theorem deq_rprivate_unbindable : decide (("rprivate" : String) = "unbindable") = false := rfl

theorem deq_rprivate_runbindable : decide (("rprivate" : String) = "runbindable") = false := rfl

theorem recognized_token_eq_rprivate : recognized_token "rprivate" = true := by
  unfold recognized_token recognized_token_rest
  rw [deq_rprivate_ro,
    deq_rprivate_rw,
    deq_rprivate_nosuid,
    deq_rprivate_nodev,
    deq_rprivate_noexec,
    deq_rprivate_relatime,
    deq_rprivate_norelatime,
    deq_rprivate_strictatime,
    deq_rprivate_nostrictatime,
    deq_rprivate_sync,
    deq_rprivate_dirsync,
    deq_rprivate_remount,
    deq_rprivate_bind,
    deq_rprivate_rbind,
    deq_rprivate_recursive,
    deq_rprivate_private,
    decide_eq_true (Eq.refl ("rprivate" : String)),
    deq_rprivate_shared,
    deq_rprivate_rshared,
    deq_rprivate_slave,
    deq_rprivate_rslave,
    deq_rprivate_unbindable,
    deq_rprivate_runbindable]
  rfl

theorem deq_shared_rshared : decide (("shared" : String) = "rshared") = false := rfl

theorem deq_shared_slave : decide (("shared" : String) = "slave") = false := rfl

theorem deq_shared_rslave : decide (("shared" : String) = "rslave") = false := rfl

theorem deq_shared_unbindable : decide (("shared" : String) = "unbindable") = false := rfl

theorem deq_shared_runbindable : decide (("shared" : String) = "runbindable") = false := rfl

theorem recognized_token_eq_shared : recognized_token "shared" = true := by
  unfold recognized_token recognized_token_rest
  rw [deq_shared_ro,
    deq_shared_rw,
    deq_shared_nosuid,
    deq_shared_nodev,
    deq_shared_noexec,
    deq_shared_relatime,
    deq_shared_norelatime,
    deq_shared_strictatime,
    deq_shared_nostrictatime,
    deq_shared_sync,
    deq_shared_dirsync,
    deq_shared_remount,
    deq_shared_bind,
    deq_shared_rbind,
    deq_shared_recursive,
    deq_shared_private,
    deq_shared_rprivate,
    decide_eq_true (Eq.refl ("shared" : String)),
    deq_shared_rshared,
    deq_shared_slave,
    deq_shared_rslave,
    deq_shared_unbindable,
    deq_shared_runbindable]
  rfl

theorem deq_rshared_slave : decide (("rshared" : String) = "slave") = false := rfl

theorem deq_rshared_rslave : decide (("rshared" : String) = "rslave") = false := rfl

theorem deq_rshared_unbindable : decide (("rshared" : String) = "unbindable") = false := rfl

theorem deq_rshared_runbindable : decide (("rshared" : String) = "runbindable") = false := rfl

theorem recognized_token_eq_rshared : recognized_token "rshared" = true := by
  unfold recognized_token recognized_token_rest
  rw [deq_rshared_ro,
    deq_rshared_rw,
    deq_rshared_nosuid,
    deq_rshared_nodev,
    deq_rshared_noexec,
    deq_rshared_relatime,
    deq_rshared_norelatime,
    deq_rshared_strictatime,
    deq_rshared_nostrictatime,
    deq_rshared_sync,
    deq_rshared_dirsync,
    deq_rshared_remount,
    deq_rshared_bind,
    deq_rshared_rbind,
    deq_rshared_recursive,
    deq_rshared_private,
    deq_rshared_rprivate,
    deq_rshared_shared,
    decide_eq_true (Eq.refl ("rshared" : String)),
    deq_rshared_slave,
    deq_rshared_rslave,
    deq_rshared_unbindable,
    deq_rshared_runbindable]
  rfl

theorem deq_slave_rslave : decide (("slave" : String) = "rslave") = false := rfl

theorem deq_slave_unbindable : decide (("slave" : String) = "unbindable") = false := rfl

theorem deq_slave_runbindable : decide (("slave" : String) = "runbindable") = false := rfl

theorem recognized_token_eq_slave : recognized_token "slave" = true := by
  unfold recognized_token recognized_token_rest
  rw [deq_slave_ro,
    deq_slave_rw,
    deq_slave_nosuid,
    deq_slave_nodev,
    deq_slave_noexec,
    deq_slave_relatime,
    deq_slave_norelatime,
    deq_slave_strictatime,
    deq_slave_nostrictatime,
    deq_slave_sync,
    deq_slave_dirsync,
    deq_slave_remount,
    deq_slave_bind,
    deq_slave_rbind,
    deq_slave_recursive,
    deq_slave_private,
    deq_slave_rprivate,
    deq_slave_shared,
    deq_slave_rshared,
    decide_eq_true (Eq.refl ("slave" : String)),
    deq_slave_rslave,
    deq_slave_unbindable,
    deq_slave_runbindable]
  rfl

theorem deq_rslave_unbindable : decide (("rslave" : String) = "unbindable") = false := rfl

theorem deq_rslave_runbindable : decide (("rslave" : String) = "runbindable") = false := rfl

theorem recognized_token_eq_rslave : recognized_token "rslave" = true := by
  unfold recognized_token recognized_token_rest
  rw [deq_rslave_ro,
    deq_rslave_rw,
    deq_rslave_nosuid,
    deq_rslave_nodev,
    deq_rslave_noexec,
    deq_rslave_relatime,
    deq_rslave_norelatime,
    deq_rslave_strictatime,
    deq_rslave_nostrictatime,
    deq_rslave_sync,
    deq_rslave_dirsync,
    deq_rslave_remount,
    deq_rslave_bind,
    deq_rslave_rbind,
    deq_rslave_recursive,
    deq_rslave_private,
    deq_rslave_rprivate,
    deq_rslave_shared,
    deq_rslave_rshared,
    deq_rslave_slave,
    decide_eq_true (Eq.refl ("rslave" : String)),
    deq_rslave_unbindable,
    deq_rslave_runbindable]
  rfl

theorem deq_unbindable_runbindable : decide (("unbindable" : String) = "runbindable") = false := rfl

theorem recognized_token_eq_unbindable : recognized_token "unbindable" = true := by
  unfold recognized_token recognized_token_rest
  rw [deq_unbindable_ro,
    deq_unbindable_rw,
    deq_unbindable_nosuid,
    deq_unbindable_nodev,
    deq_unbindable_noexec,
    deq_unbindable_relatime,
    deq_unbindable_norelatime,
    deq_unbindable_strictatime,
    deq_unbindable_nostrictatime,
    deq_unbindable_sync,
    deq_unbindable_dirsync,
    deq_unbindable_remount,
    deq_unbindable_bind,
    deq_unbindable_rbind,
    deq_unbindable_recursive,
    deq_unbindable_private,
    deq_unbindable_rprivate,
    deq_unbindable_shared,
    deq_unbindable_rshared,
    deq_unbindable_slave,
    deq_unbindable_rslave,
    decide_eq_true (Eq.refl ("unbindable" : String)),
    deq_unbindable_runbindable]
  rfl

theorem recognized_token_eq_runbindable : recognized_token "runbindable" = true := by
  unfold recognized_token recognized_token_rest
  rw [deq_runbindable_ro,
    deq_runbindable_rw,
    deq_runbindable_nosuid,
    deq_runbindable_nodev,
    deq_runbindable_noexec,
    deq_runbindable_relatime,
    deq_runbindable_norelatime,
    deq_runbindable_strictatime,
    deq_runbindable_nostrictatime,
    deq_runbindable_sync,
    deq_runbindable_dirsync,
    deq_runbindable_remount,
    deq_runbindable_bind,
    deq_runbindable_rbind,
    deq_runbindable_recursive,
    deq_runbindable_private,
    deq_runbindable_rprivate,
    deq_runbindable_shared,
    deq_runbindable_rshared,
    deq_runbindable_slave,
    deq_runbindable_rslave,
    deq_runbindable_unbindable,
    decide_eq_true (Eq.refl ("runbindable" : String))]
  rfl

theorem recognized_token_eq_size64k : recognized_token "size=64k" = false := by
  unfold recognized_token recognized_token_rest
  rw [deq_size64k_ro,
    deq_size64k_rw,
    deq_size64k_nosuid,
    deq_size64k_nodev,
    deq_size64k_noexec,
    deq_size64k_relatime,
    deq_size64k_norelatime,
    deq_size64k_strictatime,
    deq_size64k_nostrictatime,
    deq_size64k_sync,
    deq_size64k_dirsync,
    deq_size64k_remount,
    deq_size64k_bind,
    deq_size64k_rbind,
    deq_size64k_recursive,
    deq_size64k_private,
    deq_size64k_rprivate,
    deq_size64k_shared,
    deq_size64k_rshared,
    deq_size64k_slave,
    deq_size64k_rslave,
    deq_size64k_unbindable,
    deq_size64k_runbindable]
  rfl

theorem recognized_token_eq_x1 : recognized_token "x=1" = false := by
  unfold recognized_token recognized_token_rest
  rw [deq_x1_ro,
    deq_x1_rw,
    deq_x1_nosuid,
    deq_x1_nodev,
    deq_x1_noexec,
    deq_x1_relatime,
    deq_x1_norelatime,
    deq_x1_strictatime,
    deq_x1_nostrictatime,
    deq_x1_sync,
    deq_x1_dirsync,
    deq_x1_remount,
    deq_x1_bind,
    deq_x1_rbind,
    deq_x1_recursive,
    deq_x1_private,
    deq_x1_rprivate,
    deq_x1_shared,
    deq_x1_rshared,
    deq_x1_slave,
    deq_x1_rslave,
    deq_x1_unbindable,
    deq_x1_runbindable]
  rfl

theorem mount_option_step_flags_unrec (parsed : ParsedMountOptions)
    (data_options : List String) (opt : String)
    (h1 : ¬opt = "ro") (h2 : ¬opt = "rw") (h3 : ¬opt = "nosuid")
    (h4 : ¬opt = "nodev") (h5 : ¬opt = "noexec") (h6 : ¬opt = "relatime")
    (h7 : ¬opt = "norelatime") (h8 : ¬opt = "strictatime") (h9 : ¬opt = "nostrictatime")
    (h10 : ¬opt = "sync") (h11 : ¬opt = "dirsync") (h12 : ¬opt = "remount")
    (h13 : ¬opt = "bind") (h14 : ¬opt = "rbind") (h15 : ¬opt = "recursive")
    (h16 : ¬opt = "private") (h17 : ¬opt = "rprivate") (h18 : ¬opt = "shared")
    (h19 : ¬opt = "rshared") (h20 : ¬opt = "slave") (h21 : ¬opt = "rslave")
    (h22 : ¬opt = "unbindable") (h23 : ¬opt = "runbindable")
    :
    (mount_option_step (parsed, data_options) opt).1.flags =
      parsed.flags ||| mount_flag_bits opt := by
  unfold mount_option_step
  rw [if_neg h1, if_neg h2, if_neg h3, if_neg h4, if_neg h5, if_neg h6, if_neg h7, if_neg h8, if_neg h9, if_neg h10, if_neg h11, if_neg h12]
  unfold mount_option_step_rest
  rw [if_neg h13, if_neg h14, if_neg h15, if_neg h16, if_neg h17, if_neg h18, if_neg h19, if_neg h20, if_neg h21, if_neg h22, if_neg h23, ite_self]
  unfold mount_flag_bits
  rw [if_neg h1, if_neg h3, if_neg h4, if_neg h5, if_neg h6, if_neg h8, if_neg h10, if_neg h11, if_neg h12, if_neg h13, if_neg h14, if_neg h15]
  exact (Nat.or_zero parsed.flags).symm

theorem mount_option_step_data_unrec (parsed : ParsedMountOptions)
    (data_options : List String) (opt : String)
    (h1 : ¬opt = "ro") (h2 : ¬opt = "rw") (h3 : ¬opt = "nosuid")
    (h4 : ¬opt = "nodev") (h5 : ¬opt = "noexec") (h6 : ¬opt = "relatime")
    (h7 : ¬opt = "norelatime") (h8 : ¬opt = "strictatime") (h9 : ¬opt = "nostrictatime")
    (h10 : ¬opt = "sync") (h11 : ¬opt = "dirsync") (h12 : ¬opt = "remount")
    (h13 : ¬opt = "bind") (h14 : ¬opt = "rbind") (h15 : ¬opt = "recursive")
    (h16 : ¬opt = "private") (h17 : ¬opt = "rprivate") (h18 : ¬opt = "shared")
    (h19 : ¬opt = "rshared") (h20 : ¬opt = "slave") (h21 : ¬opt = "rslave")
    (h22 : ¬opt = "unbindable") (h23 : ¬opt = "runbindable")
    :
    (mount_option_step (parsed, data_options) opt).2 =
      data_options ++ (if recognized_token opt then [] else [opt]) := by
  have hrec : recognized_token opt = false := by
    unfold recognized_token recognized_token_rest
    rw [decide_eq_false h1, decide_eq_false h2, decide_eq_false h3, decide_eq_false h4, decide_eq_false h5, decide_eq_false h6, decide_eq_false h7, decide_eq_false h8, decide_eq_false h9, decide_eq_false h10, decide_eq_false h11, decide_eq_false h12, decide_eq_false h13, decide_eq_false h14, decide_eq_false h15, decide_eq_false h16, decide_eq_false h17, decide_eq_false h18, decide_eq_false h19, decide_eq_false h20, decide_eq_false h21, decide_eq_false h22, decide_eq_false h23]
    rfl
  unfold mount_option_step
  rw [if_neg h1, if_neg h2, if_neg h3, if_neg h4, if_neg h5, if_neg h6, if_neg h7, if_neg h8, if_neg h9, if_neg h10, if_neg h11, if_neg h12]
  unfold mount_option_step_rest
  rw [if_neg h13, if_neg h14, if_neg h15, if_neg h16, if_neg h17, if_neg h18, if_neg h19, if_neg h20, if_neg h21, if_neg h22, if_neg h23, ite_self, hrec]
  rw [if_neg (fun hcon => Bool.false_ne_true hcon)]

theorem step_flags_ro (parsed : ParsedMountOptions) (d : List String) :
    (mount_option_step (parsed, d) "ro").1.flags =
      parsed.flags ||| mount_flag_bits "ro" := by
  have h1 : (mount_option_step (parsed, d) "ro").1.flags = parsed.flags ||| MS_RDONLY := by
    rw [mount_option_step_eq_ro]
  have h2 : parsed.flags ||| mount_flag_bits "ro" = parsed.flags ||| MS_RDONLY := by
    rw [mount_flag_bits_eq_ro]
  exact h1.trans h2.symm

theorem step_flags_nosuid (parsed : ParsedMountOptions) (d : List String) :
    (mount_option_step (parsed, d) "nosuid").1.flags =
      parsed.flags ||| mount_flag_bits "nosuid" := by
  have h1 : (mount_option_step (parsed, d) "nosuid").1.flags = parsed.flags ||| MS_NOSUID := by
    rw [mount_option_step_eq_nosuid]
  have h2 : parsed.flags ||| mount_flag_bits "nosuid" = parsed.flags ||| MS_NOSUID := by
    rw [mount_flag_bits_eq_nosuid]
  exact h1.trans h2.symm

theorem step_flags_nodev (parsed : ParsedMountOptions) (d : List String) :
    (mount_option_step (parsed, d) "nodev").1.flags =
      parsed.flags ||| mount_flag_bits "nodev" := by
  have h1 : (mount_option_step (parsed, d) "nodev").1.flags = parsed.flags ||| MS_NODEV := by
    rw [mount_option_step_eq_nodev]
  have h2 : parsed.flags ||| mount_flag_bits "nodev" = parsed.flags ||| MS_NODEV := by
    rw [mount_flag_bits_eq_nodev]
  exact h1.trans h2.symm

theorem step_flags_noexec (parsed : ParsedMountOptions) (d : List String) :
    (mount_option_step (parsed, d) "noexec").1.flags =
      parsed.flags ||| mount_flag_bits "noexec" := by
  have h1 : (mount_option_step (parsed, d) "noexec").1.flags = parsed.flags ||| MS_NOEXEC := by
    rw [mount_option_step_eq_noexec]
  have h2 : parsed.flags ||| mount_flag_bits "noexec" = parsed.flags ||| MS_NOEXEC := by
    rw [mount_flag_bits_eq_noexec]
  exact h1.trans h2.symm

theorem step_flags_relatime (parsed : ParsedMountOptions) (d : List String) :
    (mount_option_step (parsed, d) "relatime").1.flags =
      parsed.flags ||| mount_flag_bits "relatime" := by
  have h1 : (mount_option_step (parsed, d) "relatime").1.flags = parsed.flags ||| MS_RELATIME := by
    rw [mount_option_step_eq_relatime]
  have h2 : parsed.flags ||| mount_flag_bits "relatime" = parsed.flags ||| MS_RELATIME := by
    rw [mount_flag_bits_eq_relatime]
  exact h1.trans h2.symm

theorem step_flags_strictatime (parsed : ParsedMountOptions) (d : List String) :
    (mount_option_step (parsed, d) "strictatime").1.flags =
      parsed.flags ||| mount_flag_bits "strictatime" := by
  have h1 : (mount_option_step (parsed, d) "strictatime").1.flags = parsed.flags ||| MS_STRICTATIME := by
    rw [mount_option_step_eq_strictatime]
  have h2 : parsed.flags ||| mount_flag_bits "strictatime" = parsed.flags ||| MS_STRICTATIME := by
    rw [mount_flag_bits_eq_strictatime]
  exact h1.trans h2.symm

theorem step_flags_sync (parsed : ParsedMountOptions) (d : List String) :
    (mount_option_step (parsed, d) "sync").1.flags =
      parsed.flags ||| mount_flag_bits "sync" := by
  have h1 : (mount_option_step (parsed, d) "sync").1.flags = parsed.flags ||| MS_SYNCHRONOUS := by
    rw [mount_option_step_eq_sync]
  have h2 : parsed.flags ||| mount_flag_bits "sync" = parsed.flags ||| MS_SYNCHRONOUS := by
    rw [mount_flag_bits_eq_sync]
  exact h1.trans h2.symm

theorem step_flags_dirsync (parsed : ParsedMountOptions) (d : List String) :
    (mount_option_step (parsed, d) "dirsync").1.flags =
      parsed.flags ||| mount_flag_bits "dirsync" := by
  have h1 : (mount_option_step (parsed, d) "dirsync").1.flags = parsed.flags ||| MS_DIRSYNC := by
    rw [mount_option_step_eq_dirsync]
  have h2 : parsed.flags ||| mount_flag_bits "dirsync" = parsed.flags ||| MS_DIRSYNC := by
    rw [mount_flag_bits_eq_dirsync]
  exact h1.trans h2.symm

theorem step_flags_remount (parsed : ParsedMountOptions) (d : List String) :
    (mount_option_step (parsed, d) "remount").1.flags =
      parsed.flags ||| mount_flag_bits "remount" := by
  have h1 : (mount_option_step (parsed, d) "remount").1.flags = parsed.flags ||| MS_REMOUNT := by
    rw [mount_option_step_eq_remount]
  have h2 : parsed.flags ||| mount_flag_bits "remount" = parsed.flags ||| MS_REMOUNT := by
    rw [mount_flag_bits_eq_remount]
  exact h1.trans h2.symm

theorem step_flags_bind (parsed : ParsedMountOptions) (d : List String) :
    (mount_option_step (parsed, d) "bind").1.flags =
      parsed.flags ||| mount_flag_bits "bind" := by
  have h1 : (mount_option_step (parsed, d) "bind").1.flags = parsed.flags ||| MS_BIND := by
    rw [mount_option_step_eq_bind]
  have h2 : parsed.flags ||| mount_flag_bits "bind" = parsed.flags ||| MS_BIND := by
    rw [mount_flag_bits_eq_bind]
  exact h1.trans h2.symm

theorem step_flags_rbind (parsed : ParsedMountOptions) (d : List String) :
    (mount_option_step (parsed, d) "rbind").1.flags =
      parsed.flags ||| mount_flag_bits "rbind" := by
  have h1 : (mount_option_step (parsed, d) "rbind").1.flags = parsed.flags ||| MS_BIND_REC := by
    rw [mount_option_step_eq_rbind]
  have h2 : parsed.flags ||| mount_flag_bits "rbind" = parsed.flags ||| MS_BIND_REC := by
    rw [mount_flag_bits_eq_rbind]
  exact h1.trans h2.symm

theorem step_flags_recursive (parsed : ParsedMountOptions) (d : List String) :
    (mount_option_step (parsed, d) "recursive").1.flags =
      parsed.flags ||| mount_flag_bits "recursive" := by
  have h1 : (mount_option_step (parsed, d) "recursive").1.flags = parsed.flags ||| MS_REC := by
    rw [mount_option_step_eq_recursive]
  have h2 : parsed.flags ||| mount_flag_bits "recursive" = parsed.flags ||| MS_REC := by
    rw [mount_flag_bits_eq_recursive]
  exact h1.trans h2.symm

theorem step_flags_private (parsed : ParsedMountOptions) (d : List String) :
    (mount_option_step (parsed, d) "private").1.flags =
      parsed.flags ||| mount_flag_bits "private" := by
  have h1 : (mount_option_step (parsed, d) "private").1.flags = parsed.flags := by
    rw [mount_option_step_eq_private]
  have h2 : parsed.flags ||| mount_flag_bits "private" = parsed.flags := by
    rw [mount_flag_bits_eq_private]
    exact Nat.or_zero parsed.flags
  exact h1.trans h2.symm

theorem step_flags_rprivate (parsed : ParsedMountOptions) (d : List String) :
    (mount_option_step (parsed, d) "rprivate").1.flags =
      parsed.flags ||| mount_flag_bits "rprivate" := by
  have h1 : (mount_option_step (parsed, d) "rprivate").1.flags = parsed.flags := by
    rw [mount_option_step_eq_rprivate]
  have h2 : parsed.flags ||| mount_flag_bits "rprivate" = parsed.flags := by
    rw [mount_flag_bits_eq_rprivate]
    exact Nat.or_zero parsed.flags
  exact h1.trans h2.symm

theorem step_flags_shared (parsed : ParsedMountOptions) (d : List String) :
    (mount_option_step (parsed, d) "shared").1.flags =
      parsed.flags ||| mount_flag_bits "shared" := by
  have h1 : (mount_option_step (parsed, d) "shared").1.flags = parsed.flags := by
    rw [mount_option_step_eq_shared]
  have h2 : parsed.flags ||| mount_flag_bits "shared" = parsed.flags := by
    rw [mount_flag_bits_eq_shared]
    exact Nat.or_zero parsed.flags
  exact h1.trans h2.symm

theorem step_flags_rshared (parsed : ParsedMountOptions) (d : List String) :
    (mount_option_step (parsed, d) "rshared").1.flags =
      parsed.flags ||| mount_flag_bits "rshared" := by
  have h1 : (mount_option_step (parsed, d) "rshared").1.flags = parsed.flags := by
    rw [mount_option_step_eq_rshared]
  have h2 : parsed.flags ||| mount_flag_bits "rshared" = parsed.flags := by
    rw [mount_flag_bits_eq_rshared]
    exact Nat.or_zero parsed.flags
  exact h1.trans h2.symm

theorem step_flags_slave (parsed : ParsedMountOptions) (d : List String) :
    (mount_option_step (parsed, d) "slave").1.flags =
      parsed.flags ||| mount_flag_bits "slave" := by
  have h1 : (mount_option_step (parsed, d) "slave").1.flags = parsed.flags := by
    rw [mount_option_step_eq_slave]
  have h2 : parsed.flags ||| mount_flag_bits "slave" = parsed.flags := by
    rw [mount_flag_bits_eq_slave]
    exact Nat.or_zero parsed.flags
  exact h1.trans h2.symm

theorem step_flags_rslave (parsed : ParsedMountOptions) (d : List String) :
    (mount_option_step (parsed, d) "rslave").1.flags =
      parsed.flags ||| mount_flag_bits "rslave" := by
  have h1 : (mount_option_step (parsed, d) "rslave").1.flags = parsed.flags := by
    rw [mount_option_step_eq_rslave]
  have h2 : parsed.flags ||| mount_flag_bits "rslave" = parsed.flags := by
    rw [mount_flag_bits_eq_rslave]
    exact Nat.or_zero parsed.flags
  exact h1.trans h2.symm

theorem step_flags_unbindable (parsed : ParsedMountOptions) (d : List String) :
    (mount_option_step (parsed, d) "unbindable").1.flags =
      parsed.flags ||| mount_flag_bits "unbindable" := by
  have h1 : (mount_option_step (parsed, d) "unbindable").1.flags = parsed.flags := by
    rw [mount_option_step_eq_unbindable]
  have h2 : parsed.flags ||| mount_flag_bits "unbindable" = parsed.flags := by
    rw [mount_flag_bits_eq_unbindable]
    exact Nat.or_zero parsed.flags
  exact h1.trans h2.symm

theorem step_flags_runbindable (parsed : ParsedMountOptions) (d : List String) :
    (mount_option_step (parsed, d) "runbindable").1.flags =
      parsed.flags ||| mount_flag_bits "runbindable" := by
  have h1 : (mount_option_step (parsed, d) "runbindable").1.flags = parsed.flags := by
    rw [mount_option_step_eq_runbindable]
  have h2 : parsed.flags ||| mount_flag_bits "runbindable" = parsed.flags := by
    rw [mount_flag_bits_eq_runbindable]
    exact Nat.or_zero parsed.flags
  exact h1.trans h2.symm

theorem flags_case_runbindable (parsed : ParsedMountOptions)
    (data_options : List String) (opt : String)
    (hrw : ¬opt = "rw") (hnorel : ¬opt = "norelatime") (hnostrict : ¬opt = "nostrictatime")
    (g0 : ¬opt = "ro") (g1 : ¬opt = "nosuid") (g2 : ¬opt = "nodev")
    (g3 : ¬opt = "noexec") (g4 : ¬opt = "relatime") (g5 : ¬opt = "strictatime")
    (g6 : ¬opt = "sync") (g7 : ¬opt = "dirsync") (g8 : ¬opt = "remount")
    (g9 : ¬opt = "bind") (g10 : ¬opt = "rbind") (g11 : ¬opt = "recursive")
    (g12 : ¬opt = "private") (g13 : ¬opt = "rprivate") (g14 : ¬opt = "shared")
    (g15 : ¬opt = "rshared") (g16 : ¬opt = "slave") (g17 : ¬opt = "rslave")
    (g18 : ¬opt = "unbindable")
    :
    (mount_option_step (parsed, data_options) opt).1.flags =
      parsed.flags ||| mount_flag_bits opt := by
  by_cases hx : opt = "runbindable"
  · rw [hx]
    exact step_flags_runbindable parsed data_options
  exact mount_option_step_flags_unrec parsed data_options opt g0 hrw g1 g2 g3 g4 hnorel g5 hnostrict g6 g7 g8 g9 g10 g11 g12 g13 g14 g15 g16 g17 g18 hx

theorem flags_case_unbindable (parsed : ParsedMountOptions)
    (data_options : List String) (opt : String)
    (hrw : ¬opt = "rw") (hnorel : ¬opt = "norelatime") (hnostrict : ¬opt = "nostrictatime")
    (g0 : ¬opt = "ro") (g1 : ¬opt = "nosuid") (g2 : ¬opt = "nodev")
    (g3 : ¬opt = "noexec") (g4 : ¬opt = "relatime") (g5 : ¬opt = "strictatime")
    (g6 : ¬opt = "sync") (g7 : ¬opt = "dirsync") (g8 : ¬opt = "remount")
    (g9 : ¬opt = "bind") (g10 : ¬opt = "rbind") (g11 : ¬opt = "recursive")
    (g12 : ¬opt = "private") (g13 : ¬opt = "rprivate") (g14 : ¬opt = "shared")
    (g15 : ¬opt = "rshared") (g16 : ¬opt = "slave") (g17 : ¬opt = "rslave")
    :
    (mount_option_step (parsed, data_options) opt).1.flags =
      parsed.flags ||| mount_flag_bits opt := by
  by_cases hx : opt = "unbindable"
  · rw [hx]
    exact step_flags_unbindable parsed data_options
  exact flags_case_runbindable parsed data_options opt hrw hnorel hnostrict g0 g1 g2 g3 g4 g5 g6 g7 g8 g9 g10 g11 g12 g13 g14 g15 g16 g17 hx

theorem flags_case_rslave (parsed : ParsedMountOptions)
    (data_options : List String) (opt : String)
    (hrw : ¬opt = "rw") (hnorel : ¬opt = "norelatime") (hnostrict : ¬opt = "nostrictatime")
    (g0 : ¬opt = "ro") (g1 : ¬opt = "nosuid") (g2 : ¬opt = "nodev")
    (g3 : ¬opt = "noexec") (g4 : ¬opt = "relatime") (g5 : ¬opt = "strictatime")
    (g6 : ¬opt = "sync") (g7 : ¬opt = "dirsync") (g8 : ¬opt = "remount")
    (g9 : ¬opt = "bind") (g10 : ¬opt = "rbind") (g11 : ¬opt = "recursive")
    (g12 : ¬opt = "private") (g13 : ¬opt = "rprivate") (g14 : ¬opt = "shared")
    (g15 : ¬opt = "rshared") (g16 : ¬opt = "slave")
    :
    (mount_option_step (parsed, data_options) opt).1.flags =
      parsed.flags ||| mount_flag_bits opt := by
  by_cases hx : opt = "rslave"
  · rw [hx]
    exact step_flags_rslave parsed data_options
  exact flags_case_unbindable parsed data_options opt hrw hnorel hnostrict g0 g1 g2 g3 g4 g5 g6 g7 g8 g9 g10 g11 g12 g13 g14 g15 g16 hx

theorem flags_case_slave (parsed : ParsedMountOptions)
    (data_options : List String) (opt : String)
    (hrw : ¬opt = "rw") (hnorel : ¬opt = "norelatime") (hnostrict : ¬opt = "nostrictatime")
    (g0 : ¬opt = "ro") (g1 : ¬opt = "nosuid") (g2 : ¬opt = "nodev")
    (g3 : ¬opt = "noexec") (g4 : ¬opt = "relatime") (g5 : ¬opt = "strictatime")
    (g6 : ¬opt = "sync") (g7 : ¬opt = "dirsync") (g8 : ¬opt = "remount")
    (g9 : ¬opt = "bind") (g10 : ¬opt = "rbind") (g11 : ¬opt = "recursive")
    (g12 : ¬opt = "private") (g13 : ¬opt = "rprivate") (g14 : ¬opt = "shared")
    (g15 : ¬opt = "rshared")
    :
    (mount_option_step (parsed, data_options) opt).1.flags =
      parsed.flags ||| mount_flag_bits opt := by
  by_cases hx : opt = "slave"
  · rw [hx]
    exact step_flags_slave parsed data_options
  exact flags_case_rslave parsed data_options opt hrw hnorel hnostrict g0 g1 g2 g3 g4 g5 g6 g7 g8 g9 g10 g11 g12 g13 g14 g15 hx

theorem flags_case_rshared (parsed : ParsedMountOptions)
    (data_options : List String) (opt : String)
    (hrw : ¬opt = "rw") (hnorel : ¬opt = "norelatime") (hnostrict : ¬opt = "nostrictatime")
    (g0 : ¬opt = "ro") (g1 : ¬opt = "nosuid") (g2 : ¬opt = "nodev")
    (g3 : ¬opt = "noexec") (g4 : ¬opt = "relatime") (g5 : ¬opt = "strictatime")
    (g6 : ¬opt = "sync") (g7 : ¬opt = "dirsync") (g8 : ¬opt = "remount")
    (g9 : ¬opt = "bind") (g10 : ¬opt = "rbind") (g11 : ¬opt = "recursive")
    (g12 : ¬opt = "private") (g13 : ¬opt = "rprivate") (g14 : ¬opt = "shared")
    :
    (mount_option_step (parsed, data_options) opt).1.flags =
      parsed.flags ||| mount_flag_bits opt := by
  by_cases hx : opt = "rshared"
  · rw [hx]
    exact step_flags_rshared parsed data_options
  exact flags_case_slave parsed data_options opt hrw hnorel hnostrict g0 g1 g2 g3 g4 g5 g6 g7 g8 g9 g10 g11 g12 g13 g14 hx

theorem flags_case_shared (parsed : ParsedMountOptions)
    (data_options : List String) (opt : String)
    (hrw : ¬opt = "rw") (hnorel : ¬opt = "norelatime") (hnostrict : ¬opt = "nostrictatime")
    (g0 : ¬opt = "ro") (g1 : ¬opt = "nosuid") (g2 : ¬opt = "nodev")
    (g3 : ¬opt = "noexec") (g4 : ¬opt = "relatime") (g5 : ¬opt = "strictatime")
    (g6 : ¬opt = "sync") (g7 : ¬opt = "dirsync") (g8 : ¬opt = "remount")
    (g9 : ¬opt = "bind") (g10 : ¬opt = "rbind") (g11 : ¬opt = "recursive")
    (g12 : ¬opt = "private") (g13 : ¬opt = "rprivate")
    :
    (mount_option_step (parsed, data_options) opt).1.flags =
      parsed.flags ||| mount_flag_bits opt := by
  by_cases hx : opt = "shared"
  · rw [hx]
    exact step_flags_shared parsed data_options
  exact flags_case_rshared parsed data_options opt hrw hnorel hnostrict g0 g1 g2 g3 g4 g5 g6 g7 g8 g9 g10 g11 g12 g13 hx

theorem flags_case_rprivate (parsed : ParsedMountOptions)
    (data_options : List String) (opt : String)
    (hrw : ¬opt = "rw") (hnorel : ¬opt = "norelatime") (hnostrict : ¬opt = "nostrictatime")
    (g0 : ¬opt = "ro") (g1 : ¬opt = "nosuid") (g2 : ¬opt = "nodev")
    (g3 : ¬opt = "noexec") (g4 : ¬opt = "relatime") (g5 : ¬opt = "strictatime")
    (g6 : ¬opt = "sync") (g7 : ¬opt = "dirsync") (g8 : ¬opt = "remount")
    (g9 : ¬opt = "bind") (g10 : ¬opt = "rbind") (g11 : ¬opt = "recursive")
    (g12 : ¬opt = "private")
    :
    (mount_option_step (parsed, data_options) opt).1.flags =
      parsed.flags ||| mount_flag_bits opt := by
  by_cases hx : opt = "rprivate"
  · rw [hx]
    exact step_flags_rprivate parsed data_options
  exact flags_case_shared parsed data_options opt hrw hnorel hnostrict g0 g1 g2 g3 g4 g5 g6 g7 g8 g9 g10 g11 g12 hx

theorem flags_case_private (parsed : ParsedMountOptions)
    (data_options : List String) (opt : String)
    (hrw : ¬opt = "rw") (hnorel : ¬opt = "norelatime") (hnostrict : ¬opt = "nostrictatime")
    (g0 : ¬opt = "ro") (g1 : ¬opt = "nosuid") (g2 : ¬opt = "nodev")
    (g3 : ¬opt = "noexec") (g4 : ¬opt = "relatime") (g5 : ¬opt = "strictatime")
    (g6 : ¬opt = "sync") (g7 : ¬opt = "dirsync") (g8 : ¬opt = "remount")
    (g9 : ¬opt = "bind") (g10 : ¬opt = "rbind") (g11 : ¬opt = "recursive")
    :
    (mount_option_step (parsed, data_options) opt).1.flags =
      parsed.flags ||| mount_flag_bits opt := by
  by_cases hx : opt = "private"
  · rw [hx]
    exact step_flags_private parsed data_options
  exact flags_case_rprivate parsed data_options opt hrw hnorel hnostrict g0 g1 g2 g3 g4 g5 g6 g7 g8 g9 g10 g11 hx

theorem flags_case_recursive (parsed : ParsedMountOptions)
    (data_options : List String) (opt : String)
    (hrw : ¬opt = "rw") (hnorel : ¬opt = "norelatime") (hnostrict : ¬opt = "nostrictatime")
    (g0 : ¬opt = "ro") (g1 : ¬opt = "nosuid") (g2 : ¬opt = "nodev")
    (g3 : ¬opt = "noexec") (g4 : ¬opt = "relatime") (g5 : ¬opt = "strictatime")
    (g6 : ¬opt = "sync") (g7 : ¬opt = "dirsync") (g8 : ¬opt = "remount")
    (g9 : ¬opt = "bind") (g10 : ¬opt = "rbind")
    :
    (mount_option_step (parsed, data_options) opt).1.flags =
      parsed.flags ||| mount_flag_bits opt := by
  by_cases hx : opt = "recursive"
  · rw [hx]
    exact step_flags_recursive parsed data_options
  exact flags_case_private parsed data_options opt hrw hnorel hnostrict g0 g1 g2 g3 g4 g5 g6 g7 g8 g9 g10 hx

theorem flags_case_rbind (parsed : ParsedMountOptions)
    (data_options : List String) (opt : String)
    (hrw : ¬opt = "rw") (hnorel : ¬opt = "norelatime") (hnostrict : ¬opt = "nostrictatime")
    (g0 : ¬opt = "ro") (g1 : ¬opt = "nosuid") (g2 : ¬opt = "nodev")
    (g3 : ¬opt = "noexec") (g4 : ¬opt = "relatime") (g5 : ¬opt = "strictatime")
    (g6 : ¬opt = "sync") (g7 : ¬opt = "dirsync") (g8 : ¬opt = "remount")
    (g9 : ¬opt = "bind")
    :
    (mount_option_step (parsed, data_options) opt).1.flags =
      parsed.flags ||| mount_flag_bits opt := by
  by_cases hx : opt = "rbind"
  · rw [hx]
    exact step_flags_rbind parsed data_options
  exact flags_case_recursive parsed data_options opt hrw hnorel hnostrict g0 g1 g2 g3 g4 g5 g6 g7 g8 g9 hx

theorem flags_case_bind (parsed : ParsedMountOptions)
    (data_options : List String) (opt : String)
    (hrw : ¬opt = "rw") (hnorel : ¬opt = "norelatime") (hnostrict : ¬opt = "nostrictatime")
    (g0 : ¬opt = "ro") (g1 : ¬opt = "nosuid") (g2 : ¬opt = "nodev")
    (g3 : ¬opt = "noexec") (g4 : ¬opt = "relatime") (g5 : ¬opt = "strictatime")
    (g6 : ¬opt = "sync") (g7 : ¬opt = "dirsync") (g8 : ¬opt = "remount")
    :
    (mount_option_step (parsed, data_options) opt).1.flags =
      parsed.flags ||| mount_flag_bits opt := by
  by_cases hx : opt = "bind"
  · rw [hx]
    exact step_flags_bind parsed data_options
  exact flags_case_rbind parsed data_options opt hrw hnorel hnostrict g0 g1 g2 g3 g4 g5 g6 g7 g8 hx

theorem flags_case_remount (parsed : ParsedMountOptions)
    (data_options : List String) (opt : String)
    (hrw : ¬opt = "rw") (hnorel : ¬opt = "norelatime") (hnostrict : ¬opt = "nostrictatime")
    (g0 : ¬opt = "ro") (g1 : ¬opt = "nosuid") (g2 : ¬opt = "nodev")
    (g3 : ¬opt = "noexec") (g4 : ¬opt = "relatime") (g5 : ¬opt = "strictatime")
    (g6 : ¬opt = "sync") (g7 : ¬opt = "dirsync")
    :
    (mount_option_step (parsed, data_options) opt).1.flags =
      parsed.flags ||| mount_flag_bits opt := by
  by_cases hx : opt = "remount"
  · rw [hx]
    exact step_flags_remount parsed data_options
  exact flags_case_bind parsed data_options opt hrw hnorel hnostrict g0 g1 g2 g3 g4 g5 g6 g7 hx

theorem flags_case_dirsync (parsed : ParsedMountOptions)
    (data_options : List String) (opt : String)
    (hrw : ¬opt = "rw") (hnorel : ¬opt = "norelatime") (hnostrict : ¬opt = "nostrictatime")
    (g0 : ¬opt = "ro") (g1 : ¬opt = "nosuid") (g2 : ¬opt = "nodev")
    (g3 : ¬opt = "noexec") (g4 : ¬opt = "relatime") (g5 : ¬opt = "strictatime")
    (g6 : ¬opt = "sync")
    :
    (mount_option_step (parsed, data_options) opt).1.flags =
      parsed.flags ||| mount_flag_bits opt := by
  by_cases hx : opt = "dirsync"
  · rw [hx]
    exact step_flags_dirsync parsed data_options
  exact flags_case_remount parsed data_options opt hrw hnorel hnostrict g0 g1 g2 g3 g4 g5 g6 hx

theorem flags_case_sync (parsed : ParsedMountOptions)
    (data_options : List String) (opt : String)
    (hrw : ¬opt = "rw") (hnorel : ¬opt = "norelatime") (hnostrict : ¬opt = "nostrictatime")
    (g0 : ¬opt = "ro") (g1 : ¬opt = "nosuid") (g2 : ¬opt = "nodev")
    (g3 : ¬opt = "noexec") (g4 : ¬opt = "relatime") (g5 : ¬opt = "strictatime")
    :
    (mount_option_step (parsed, data_options) opt).1.flags =
      parsed.flags ||| mount_flag_bits opt := by
  by_cases hx : opt = "sync"
  · rw [hx]
    exact step_flags_sync parsed data_options
  exact flags_case_dirsync parsed data_options opt hrw hnorel hnostrict g0 g1 g2 g3 g4 g5 hx

theorem flags_case_strictatime (parsed : ParsedMountOptions)
    (data_options : List String) (opt : String)
    (hrw : ¬opt = "rw") (hnorel : ¬opt = "norelatime") (hnostrict : ¬opt = "nostrictatime")
    (g0 : ¬opt = "ro") (g1 : ¬opt = "nosuid") (g2 : ¬opt = "nodev")
    (g3 : ¬opt = "noexec") (g4 : ¬opt = "relatime")
    :
    (mount_option_step (parsed, data_options) opt).1.flags =
      parsed.flags ||| mount_flag_bits opt := by
  by_cases hx : opt = "strictatime"
  · rw [hx]
    exact step_flags_strictatime parsed data_options
  exact flags_case_sync parsed data_options opt hrw hnorel hnostrict g0 g1 g2 g3 g4 hx

theorem flags_case_relatime (parsed : ParsedMountOptions)
    (data_options : List String) (opt : String)
    (hrw : ¬opt = "rw") (hnorel : ¬opt = "norelatime") (hnostrict : ¬opt = "nostrictatime")
    (g0 : ¬opt = "ro") (g1 : ¬opt = "nosuid") (g2 : ¬opt = "nodev")
    (g3 : ¬opt = "noexec")
    :
    (mount_option_step (parsed, data_options) opt).1.flags =
      parsed.flags ||| mount_flag_bits opt := by
  by_cases hx : opt = "relatime"
  · rw [hx]
    exact step_flags_relatime parsed data_options
  exact flags_case_strictatime parsed data_options opt hrw hnorel hnostrict g0 g1 g2 g3 hx

theorem flags_case_noexec (parsed : ParsedMountOptions)
    (data_options : List String) (opt : String)
    (hrw : ¬opt = "rw") (hnorel : ¬opt = "norelatime") (hnostrict : ¬opt = "nostrictatime")
    (g0 : ¬opt = "ro") (g1 : ¬opt = "nosuid") (g2 : ¬opt = "nodev")
    :
    (mount_option_step (parsed, data_options) opt).1.flags =
      parsed.flags ||| mount_flag_bits opt := by
  by_cases hx : opt = "noexec"
  · rw [hx]
    exact step_flags_noexec parsed data_options
  exact flags_case_relatime parsed data_options opt hrw hnorel hnostrict g0 g1 g2 hx

theorem flags_case_nodev (parsed : ParsedMountOptions)
    (data_options : List String) (opt : String)
    (hrw : ¬opt = "rw") (hnorel : ¬opt = "norelatime") (hnostrict : ¬opt = "nostrictatime")
    (g0 : ¬opt = "ro") (g1 : ¬opt = "nosuid")
    :
    (mount_option_step (parsed, data_options) opt).1.flags =
      parsed.flags ||| mount_flag_bits opt := by
  by_cases hx : opt = "nodev"
  · rw [hx]
    exact step_flags_nodev parsed data_options
  exact flags_case_noexec parsed data_options opt hrw hnorel hnostrict g0 g1 hx

theorem flags_case_nosuid (parsed : ParsedMountOptions)
    (data_options : List String) (opt : String)
    (hrw : ¬opt = "rw") (hnorel : ¬opt = "norelatime") (hnostrict : ¬opt = "nostrictatime")
    (g0 : ¬opt = "ro")
    :
    (mount_option_step (parsed, data_options) opt).1.flags =
      parsed.flags ||| mount_flag_bits opt := by
  by_cases hx : opt = "nosuid"
  · rw [hx]
    exact step_flags_nosuid parsed data_options
  exact flags_case_nodev parsed data_options opt hrw hnorel hnostrict g0 hx

theorem flags_case_ro (parsed : ParsedMountOptions)
    (data_options : List String) (opt : String)
    (hrw : ¬opt = "rw") (hnorel : ¬opt = "norelatime") (hnostrict : ¬opt = "nostrictatime")
    :
    (mount_option_step (parsed, data_options) opt).1.flags =
      parsed.flags ||| mount_flag_bits opt := by
  by_cases hx : opt = "ro"
  · rw [hx]
    exact step_flags_ro parsed data_options
  exact flags_case_nosuid parsed data_options opt hrw hnorel hnostrict  hx

theorem mount_option_step_flags_no_clear (parsed : ParsedMountOptions)
    (data_options : List String) (opt : String) (h : clearing_token opt = false) :
    (mount_option_step (parsed, data_options) opt).1.flags =
      parsed.flags ||| mount_flag_bits opt := by
  simp only [clearing_token, Bool.or_eq_false_iff, decide_eq_false_iff_not] at h
  obtain ⟨⟨hrw, hnorel⟩, hnostrict⟩ := h
  exact flags_case_ro parsed data_options opt hrw hnorel hnostrict

theorem data_case_runbindable (parsed : ParsedMountOptions)
    (data_options : List String) (opt : String)
    (g0 : ¬opt = "ro") (g1 : ¬opt = "rw") (g2 : ¬opt = "nosuid")
    (g3 : ¬opt = "nodev") (g4 : ¬opt = "noexec") (g5 : ¬opt = "relatime")
    (g6 : ¬opt = "norelatime") (g7 : ¬opt = "strictatime") (g8 : ¬opt = "nostrictatime")
    (g9 : ¬opt = "sync") (g10 : ¬opt = "dirsync") (g11 : ¬opt = "remount")
    (g12 : ¬opt = "bind") (g13 : ¬opt = "rbind") (g14 : ¬opt = "recursive")
    (g15 : ¬opt = "private") (g16 : ¬opt = "rprivate") (g17 : ¬opt = "shared")
    (g18 : ¬opt = "rshared") (g19 : ¬opt = "slave") (g20 : ¬opt = "rslave")
    (g21 : ¬opt = "unbindable")
    :
    (mount_option_step (parsed, data_options) opt).2 =
      data_options ++ (if recognized_token opt then [] else [opt]) := by
  by_cases hx : opt = "runbindable"
  · rw [hx, mount_option_step_eq_runbindable, recognized_token_eq_runbindable, if_pos rfl, List.append_nil]
  exact mount_option_step_data_unrec parsed data_options opt g0 g1 g2 g3 g4 g5 g6 g7 g8 g9 g10 g11 g12 g13 g14 g15 g16 g17 g18 g19 g20 g21 hx

theorem data_case_unbindable (parsed : ParsedMountOptions)
    (data_options : List String) (opt : String)
    (g0 : ¬opt = "ro") (g1 : ¬opt = "rw") (g2 : ¬opt = "nosuid")
    (g3 : ¬opt = "nodev") (g4 : ¬opt = "noexec") (g5 : ¬opt = "relatime")
    (g6 : ¬opt = "norelatime") (g7 : ¬opt = "strictatime") (g8 : ¬opt = "nostrictatime")
    (g9 : ¬opt = "sync") (g10 : ¬opt = "dirsync") (g11 : ¬opt = "remount")
    (g12 : ¬opt = "bind") (g13 : ¬opt = "rbind") (g14 : ¬opt = "recursive")
    (g15 : ¬opt = "private") (g16 : ¬opt = "rprivate") (g17 : ¬opt = "shared")
    (g18 : ¬opt = "rshared") (g19 : ¬opt = "slave") (g20 : ¬opt = "rslave")
    :
    (mount_option_step (parsed, data_options) opt).2 =
      data_options ++ (if recognized_token opt then [] else [opt]) := by
  by_cases hx : opt = "unbindable"
  · rw [hx, mount_option_step_eq_unbindable, recognized_token_eq_unbindable, if_pos rfl, List.append_nil]
  exact data_case_runbindable parsed data_options opt g0 g1 g2 g3 g4 g5 g6 g7 g8 g9 g10 g11 g12 g13 g14 g15 g16 g17 g18 g19 g20 hx

theorem data_case_rslave (parsed : ParsedMountOptions)
    (data_options : List String) (opt : String)
    (g0 : ¬opt = "ro") (g1 : ¬opt = "rw") (g2 : ¬opt = "nosuid")
    (g3 : ¬opt = "nodev") (g4 : ¬opt = "noexec") (g5 : ¬opt = "relatime")
    (g6 : ¬opt = "norelatime") (g7 : ¬opt = "strictatime") (g8 : ¬opt = "nostrictatime")
    (g9 : ¬opt = "sync") (g10 : ¬opt = "dirsync") (g11 : ¬opt = "remount")
    (g12 : ¬opt = "bind") (g13 : ¬opt = "rbind") (g14 : ¬opt = "recursive")
    (g15 : ¬opt = "private") (g16 : ¬opt = "rprivate") (g17 : ¬opt = "shared")
    (g18 : ¬opt = "rshared") (g19 : ¬opt = "slave")
    :
    (mount_option_step (parsed, data_options) opt).2 =
      data_options ++ (if recognized_token opt then [] else [opt]) := by
  by_cases hx : opt = "rslave"
  · rw [hx, mount_option_step_eq_rslave, recognized_token_eq_rslave, if_pos rfl, List.append_nil]
  exact data_case_unbindable parsed data_options opt g0 g1 g2 g3 g4 g5 g6 g7 g8 g9 g10 g11 g12 g13 g14 g15 g16 g17 g18 g19 hx

theorem data_case_slave (parsed : ParsedMountOptions)
    (data_options : List String) (opt : String)
    (g0 : ¬opt = "ro") (g1 : ¬opt = "rw") (g2 : ¬opt = "nosuid")
    (g3 : ¬opt = "nodev") (g4 : ¬opt = "noexec") (g5 : ¬opt = "relatime")
    (g6 : ¬opt = "norelatime") (g7 : ¬opt = "strictatime") (g8 : ¬opt = "nostrictatime")
    (g9 : ¬opt = "sync") (g10 : ¬opt = "dirsync") (g11 : ¬opt = "remount")
    (g12 : ¬opt = "bind") (g13 : ¬opt = "rbind") (g14 : ¬opt = "recursive")
    (g15 : ¬opt = "private") (g16 : ¬opt = "rprivate") (g17 : ¬opt = "shared")
    (g18 : ¬opt = "rshared")
    :
    (mount_option_step (parsed, data_options) opt).2 =
      data_options ++ (if recognized_token opt then [] else [opt]) := by
  by_cases hx : opt = "slave"
  · rw [hx, mount_option_step_eq_slave, recognized_token_eq_slave, if_pos rfl, List.append_nil]
  exact data_case_rslave parsed data_options opt g0 g1 g2 g3 g4 g5 g6 g7 g8 g9 g10 g11 g12 g13 g14 g15 g16 g17 g18 hx

theorem data_case_rshared (parsed : ParsedMountOptions)
    (data_options : List String) (opt : String)
    (g0 : ¬opt = "ro") (g1 : ¬opt = "rw") (g2 : ¬opt = "nosuid")
    (g3 : ¬opt = "nodev") (g4 : ¬opt = "noexec") (g5 : ¬opt = "relatime")
    (g6 : ¬opt = "norelatime") (g7 : ¬opt = "strictatime") (g8 : ¬opt = "nostrictatime")
    (g9 : ¬opt = "sync") (g10 : ¬opt = "dirsync") (g11 : ¬opt = "remount")
    (g12 : ¬opt = "bind") (g13 : ¬opt = "rbind") (g14 : ¬opt = "recursive")
    (g15 : ¬opt = "private") (g16 : ¬opt = "rprivate") (g17 : ¬opt = "shared")
    :
    (mount_option_step (parsed, data_options) opt).2 =
      data_options ++ (if recognized_token opt then [] else [opt]) := by
  by_cases hx : opt = "rshared"
  · rw [hx, mount_option_step_eq_rshared, recognized_token_eq_rshared, if_pos rfl, List.append_nil]
  exact data_case_slave parsed data_options opt g0 g1 g2 g3 g4 g5 g6 g7 g8 g9 g10 g11 g12 g13 g14 g15 g16 g17 hx

theorem data_case_shared (parsed : ParsedMountOptions)
    (data_options : List String) (opt : String)
    (g0 : ¬opt = "ro") (g1 : ¬opt = "rw") (g2 : ¬opt = "nosuid")
    (g3 : ¬opt = "nodev") (g4 : ¬opt = "noexec") (g5 : ¬opt = "relatime")
    (g6 : ¬opt = "norelatime") (g7 : ¬opt = "strictatime") (g8 : ¬opt = "nostrictatime")
    (g9 : ¬opt = "sync") (g10 : ¬opt = "dirsync") (g11 : ¬opt = "remount")
    (g12 : ¬opt = "bind") (g13 : ¬opt = "rbind") (g14 : ¬opt = "recursive")
    (g15 : ¬opt = "private") (g16 : ¬opt = "rprivate")
    :
    (mount_option_step (parsed, data_options) opt).2 =
      data_options ++ (if recognized_token opt then [] else [opt]) := by
  by_cases hx : opt = "shared"
  · rw [hx, mount_option_step_eq_shared, recognized_token_eq_shared, if_pos rfl, List.append_nil]
  exact data_case_rshared parsed data_options opt g0 g1 g2 g3 g4 g5 g6 g7 g8 g9 g10 g11 g12 g13 g14 g15 g16 hx

theorem data_case_rprivate (parsed : ParsedMountOptions)
    (data_options : List String) (opt : String)
    (g0 : ¬opt = "ro") (g1 : ¬opt = "rw") (g2 : ¬opt = "nosuid")
    (g3 : ¬opt = "nodev") (g4 : ¬opt = "noexec") (g5 : ¬opt = "relatime")
    (g6 : ¬opt = "norelatime") (g7 : ¬opt = "strictatime") (g8 : ¬opt = "nostrictatime")
    (g9 : ¬opt = "sync") (g10 : ¬opt = "dirsync") (g11 : ¬opt = "remount")
    (g12 : ¬opt = "bind") (g13 : ¬opt = "rbind") (g14 : ¬opt = "recursive")
    (g15 : ¬opt = "private")
    :
    (mount_option_step (parsed, data_options) opt).2 =
      data_options ++ (if recognized_token opt then [] else [opt]) := by
  by_cases hx : opt = "rprivate"
  · rw [hx, mount_option_step_eq_rprivate, recognized_token_eq_rprivate, if_pos rfl, List.append_nil]
  exact data_case_shared parsed data_options opt g0 g1 g2 g3 g4 g5 g6 g7 g8 g9 g10 g11 g12 g13 g14 g15 hx

theorem data_case_private (parsed : ParsedMountOptions)
    (data_options : List String) (opt : String)
    (g0 : ¬opt = "ro") (g1 : ¬opt = "rw") (g2 : ¬opt = "nosuid")
    (g3 : ¬opt = "nodev") (g4 : ¬opt = "noexec") (g5 : ¬opt = "relatime")
    (g6 : ¬opt = "norelatime") (g7 : ¬opt = "strictatime") (g8 : ¬opt = "nostrictatime")
    (g9 : ¬opt = "sync") (g10 : ¬opt = "dirsync") (g11 : ¬opt = "remount")
    (g12 : ¬opt = "bind") (g13 : ¬opt = "rbind") (g14 : ¬opt = "recursive")
    :
    (mount_option_step (parsed, data_options) opt).2 =
      data_options ++ (if recognized_token opt then [] else [opt]) := by
  by_cases hx : opt = "private"
  · rw [hx, mount_option_step_eq_private, recognized_token_eq_private, if_pos rfl, List.append_nil]
  exact data_case_rprivate parsed data_options opt g0 g1 g2 g3 g4 g5 g6 g7 g8 g9 g10 g11 g12 g13 g14 hx

theorem data_case_recursive (parsed : ParsedMountOptions)
    (data_options : List String) (opt : String)
    (g0 : ¬opt = "ro") (g1 : ¬opt = "rw") (g2 : ¬opt = "nosuid")
    (g3 : ¬opt = "nodev") (g4 : ¬opt = "noexec") (g5 : ¬opt = "relatime")
    (g6 : ¬opt = "norelatime") (g7 : ¬opt = "strictatime") (g8 : ¬opt = "nostrictatime")
    (g9 : ¬opt = "sync") (g10 : ¬opt = "dirsync") (g11 : ¬opt = "remount")
    (g12 : ¬opt = "bind") (g13 : ¬opt = "rbind")
    :
    (mount_option_step (parsed, data_options) opt).2 =
      data_options ++ (if recognized_token opt then [] else [opt]) := by
  by_cases hx : opt = "recursive"
  · rw [hx, mount_option_step_eq_recursive, recognized_token_eq_recursive, if_pos rfl, List.append_nil]
  exact data_case_private parsed data_options opt g0 g1 g2 g3 g4 g5 g6 g7 g8 g9 g10 g11 g12 g13 hx

theorem data_case_rbind (parsed : ParsedMountOptions)
    (data_options : List String) (opt : String)
    (g0 : ¬opt = "ro") (g1 : ¬opt = "rw") (g2 : ¬opt = "nosuid")
    (g3 : ¬opt = "nodev") (g4 : ¬opt = "noexec") (g5 : ¬opt = "relatime")
    (g6 : ¬opt = "norelatime") (g7 : ¬opt = "strictatime") (g8 : ¬opt = "nostrictatime")
    (g9 : ¬opt = "sync") (g10 : ¬opt = "dirsync") (g11 : ¬opt = "remount")
    (g12 : ¬opt = "bind")
    :
    (mount_option_step (parsed, data_options) opt).2 =
      data_options ++ (if recognized_token opt then [] else [opt]) := by
  by_cases hx : opt = "rbind"
  · rw [hx, mount_option_step_eq_rbind, recognized_token_eq_rbind, if_pos rfl, List.append_nil]
  exact data_case_recursive parsed data_options opt g0 g1 g2 g3 g4 g5 g6 g7 g8 g9 g10 g11 g12 hx

theorem data_case_bind (parsed : ParsedMountOptions)
    (data_options : List String) (opt : String)
    (g0 : ¬opt = "ro") (g1 : ¬opt = "rw") (g2 : ¬opt = "nosuid")
    (g3 : ¬opt = "nodev") (g4 : ¬opt = "noexec") (g5 : ¬opt = "relatime")
    (g6 : ¬opt = "norelatime") (g7 : ¬opt = "strictatime") (g8 : ¬opt = "nostrictatime")
    (g9 : ¬opt = "sync") (g10 : ¬opt = "dirsync") (g11 : ¬opt = "remount")
    :
    (mount_option_step (parsed, data_options) opt).2 =
      data_options ++ (if recognized_token opt then [] else [opt]) := by
  by_cases hx : opt = "bind"
  · rw [hx, mount_option_step_eq_bind, recognized_token_eq_bind, if_pos rfl, List.append_nil]
  exact data_case_rbind parsed data_options opt g0 g1 g2 g3 g4 g5 g6 g7 g8 g9 g10 g11 hx

theorem data_case_remount (parsed : ParsedMountOptions)
    (data_options : List String) (opt : String)
    (g0 : ¬opt = "ro") (g1 : ¬opt = "rw") (g2 : ¬opt = "nosuid")
    (g3 : ¬opt = "nodev") (g4 : ¬opt = "noexec") (g5 : ¬opt = "relatime")
    (g6 : ¬opt = "norelatime") (g7 : ¬opt = "strictatime") (g8 : ¬opt = "nostrictatime")
    (g9 : ¬opt = "sync") (g10 : ¬opt = "dirsync")
    :
    (mount_option_step (parsed, data_options) opt).2 =
      data_options ++ (if recognized_token opt then [] else [opt]) := by
  by_cases hx : opt = "remount"
  · rw [hx, mount_option_step_eq_remount, recognized_token_eq_remount, if_pos rfl, List.append_nil]
  exact data_case_bind parsed data_options opt g0 g1 g2 g3 g4 g5 g6 g7 g8 g9 g10 hx

theorem data_case_dirsync (parsed : ParsedMountOptions)
    (data_options : List String) (opt : String)
    (g0 : ¬opt = "ro") (g1 : ¬opt = "rw") (g2 : ¬opt = "nosuid")
    (g3 : ¬opt = "nodev") (g4 : ¬opt = "noexec") (g5 : ¬opt = "relatime")
    (g6 : ¬opt = "norelatime") (g7 : ¬opt = "strictatime") (g8 : ¬opt = "nostrictatime")
    (g9 : ¬opt = "sync")
    :
    (mount_option_step (parsed, data_options) opt).2 =
      data_options ++ (if recognized_token opt then [] else [opt]) := by
  by_cases hx : opt = "dirsync"
  · rw [hx, mount_option_step_eq_dirsync, recognized_token_eq_dirsync, if_pos rfl, List.append_nil]
  exact data_case_remount parsed data_options opt g0 g1 g2 g3 g4 g5 g6 g7 g8 g9 hx

theorem data_case_sync (parsed : ParsedMountOptions)
    (data_options : List String) (opt : String)
    (g0 : ¬opt = "ro") (g1 : ¬opt = "rw") (g2 : ¬opt = "nosuid")
    (g3 : ¬opt = "nodev") (g4 : ¬opt = "noexec") (g5 : ¬opt = "relatime")
    (g6 : ¬opt = "norelatime") (g7 : ¬opt = "strictatime") (g8 : ¬opt = "nostrictatime")
    :
    (mount_option_step (parsed, data_options) opt).2 =
      data_options ++ (if recognized_token opt then [] else [opt]) := by
  by_cases hx : opt = "sync"
  · rw [hx, mount_option_step_eq_sync, recognized_token_eq_sync, if_pos rfl, List.append_nil]
  exact data_case_dirsync parsed data_options opt g0 g1 g2 g3 g4 g5 g6 g7 g8 hx

theorem data_case_nostrictatime (parsed : ParsedMountOptions)
    (data_options : List String) (opt : String)
    (g0 : ¬opt = "ro") (g1 : ¬opt = "rw") (g2 : ¬opt = "nosuid")
    (g3 : ¬opt = "nodev") (g4 : ¬opt = "noexec") (g5 : ¬opt = "relatime")
    (g6 : ¬opt = "norelatime") (g7 : ¬opt = "strictatime")
    :
    (mount_option_step (parsed, data_options) opt).2 =
      data_options ++ (if recognized_token opt then [] else [opt]) := by
  by_cases hx : opt = "nostrictatime"
  · rw [hx, mount_option_step_eq_nostrictatime, recognized_token_eq_nostrictatime, if_pos rfl, List.append_nil]
  exact data_case_sync parsed data_options opt g0 g1 g2 g3 g4 g5 g6 g7 hx

theorem data_case_strictatime (parsed : ParsedMountOptions)
    (data_options : List String) (opt : String)
    (g0 : ¬opt = "ro") (g1 : ¬opt = "rw") (g2 : ¬opt = "nosuid")
    (g3 : ¬opt = "nodev") (g4 : ¬opt = "noexec") (g5 : ¬opt = "relatime")
    (g6 : ¬opt = "norelatime")
    :
    (mount_option_step (parsed, data_options) opt).2 =
      data_options ++ (if recognized_token opt then [] else [opt]) := by
  by_cases hx : opt = "strictatime"
  · rw [hx, mount_option_step_eq_strictatime, recognized_token_eq_strictatime, if_pos rfl, List.append_nil]
  exact data_case_nostrictatime parsed data_options opt g0 g1 g2 g3 g4 g5 g6 hx

theorem data_case_norelatime (parsed : ParsedMountOptions)
    (data_options : List String) (opt : String)
    (g0 : ¬opt = "ro") (g1 : ¬opt = "rw") (g2 : ¬opt = "nosuid")
    (g3 : ¬opt = "nodev") (g4 : ¬opt = "noexec") (g5 : ¬opt = "relatime")
    :
    (mount_option_step (parsed, data_options) opt).2 =
      data_options ++ (if recognized_token opt then [] else [opt]) := by
  by_cases hx : opt = "norelatime"
  · rw [hx, mount_option_step_eq_norelatime, recognized_token_eq_norelatime, if_pos rfl, List.append_nil]
  exact data_case_strictatime parsed data_options opt g0 g1 g2 g3 g4 g5 hx

theorem data_case_relatime (parsed : ParsedMountOptions)
    (data_options : List String) (opt : String)
    (g0 : ¬opt = "ro") (g1 : ¬opt = "rw") (g2 : ¬opt = "nosuid")
    (g3 : ¬opt = "nodev") (g4 : ¬opt = "noexec")
    :
    (mount_option_step (parsed, data_options) opt).2 =
      data_options ++ (if recognized_token opt then [] else [opt]) := by
  by_cases hx : opt = "relatime"
  · rw [hx, mount_option_step_eq_relatime, recognized_token_eq_relatime, if_pos rfl, List.append_nil]
  exact data_case_norelatime parsed data_options opt g0 g1 g2 g3 g4 hx

theorem data_case_noexec (parsed : ParsedMountOptions)
    (data_options : List String) (opt : String)
    (g0 : ¬opt = "ro") (g1 : ¬opt = "rw") (g2 : ¬opt = "nosuid")
    (g3 : ¬opt = "nodev")
    :
    (mount_option_step (parsed, data_options) opt).2 =
      data_options ++ (if recognized_token opt then [] else [opt]) := by
  by_cases hx : opt = "noexec"
  · rw [hx, mount_option_step_eq_noexec, recognized_token_eq_noexec, if_pos rfl, List.append_nil]
  exact data_case_relatime parsed data_options opt g0 g1 g2 g3 hx

theorem data_case_nodev (parsed : ParsedMountOptions)
    (data_options : List String) (opt : String)
    (g0 : ¬opt = "ro") (g1 : ¬opt = "rw") (g2 : ¬opt = "nosuid")
    :
    (mount_option_step (parsed, data_options) opt).2 =
      data_options ++ (if recognized_token opt then [] else [opt]) := by
  by_cases hx : opt = "nodev"
  · rw [hx, mount_option_step_eq_nodev, recognized_token_eq_nodev, if_pos rfl, List.append_nil]
  exact data_case_noexec parsed data_options opt g0 g1 g2 hx

theorem data_case_nosuid (parsed : ParsedMountOptions)
    (data_options : List String) (opt : String)
    (g0 : ¬opt = "ro") (g1 : ¬opt = "rw")
    :
    (mount_option_step (parsed, data_options) opt).2 =
      data_options ++ (if recognized_token opt then [] else [opt]) := by
  by_cases hx : opt = "nosuid"
  · rw [hx, mount_option_step_eq_nosuid, recognized_token_eq_nosuid, if_pos rfl, List.append_nil]
  exact data_case_nodev parsed data_options opt g0 g1 hx

theorem data_case_rw (parsed : ParsedMountOptions)
    (data_options : List String) (opt : String)
    (g0 : ¬opt = "ro")
    :
    (mount_option_step (parsed, data_options) opt).2 =
      data_options ++ (if recognized_token opt then [] else [opt]) := by
  by_cases hx : opt = "rw"
  · rw [hx, mount_option_step_eq_rw, recognized_token_eq_rw, if_pos rfl, List.append_nil]
  exact data_case_nosuid parsed data_options opt g0 hx

theorem data_case_ro (parsed : ParsedMountOptions)
    (data_options : List String) (opt : String)
    :
    (mount_option_step (parsed, data_options) opt).2 =
      data_options ++ (if recognized_token opt then [] else [opt]) := by
  by_cases hx : opt = "ro"
  · rw [hx, mount_option_step_eq_ro, recognized_token_eq_ro, if_pos rfl, List.append_nil]
  exact data_case_rw parsed data_options opt hx

theorem mount_option_step_data (parsed : ParsedMountOptions)
    (data_options : List String) (opt : String) :
    (mount_option_step (parsed, data_options) opt).2 =
      data_options ++ (if recognized_token opt then [] else [opt]) :=
  data_case_ro parsed data_options opt
theorem parse_foldl_flags_no_clear (options : List String)
    (h : ∀ opt ∈ options, clearing_token opt = false) :
    ∀ parsed : ParsedMountOptions, ∀ data_options : List String,
    (options.foldl mount_option_step (parsed, data_options)).1.flags =
      options.foldl (fun acc opt => acc ||| mount_flag_bits opt) parsed.flags := by
  induction options with
  | nil => intro parsed data_options; rfl
  | cons opt rest ih =>
    intro parsed data_options
    have hopt : clearing_token opt = false := h opt (List.mem_cons_self _ _)
    have hrest : ∀ o ∈ rest, clearing_token o = false :=
      fun o ho => h o (List.mem_cons_of_mem _ ho)
    simp only [List.foldl_cons]
    have step_eta : mount_option_step (parsed, data_options) opt =
        ((mount_option_step (parsed, data_options) opt).1,
         (mount_option_step (parsed, data_options) opt).2) := rfl
    rw [step_eta, ih hrest, mount_option_step_flags_no_clear parsed data_options opt hopt]

theorem parse_foldl_data (options : List String) :
    ∀ parsed : ParsedMountOptions, ∀ data_options : List String,
    (options.foldl mount_option_step (parsed, data_options)).2 =
      data_options ++ options.filter (fun o => recognized_token o = false) := by
  induction options with
  | nil => intro parsed data_options; simp
  | cons opt rest ih =>
    intro parsed data_options
    simp only [List.foldl_cons]
    have step_eta : mount_option_step (parsed, data_options) opt =
        ((mount_option_step (parsed, data_options) opt).1,
         (mount_option_step (parsed, data_options) opt).2) := rfl
    rw [step_eta, ih, mount_option_step_data parsed data_options opt]
    by_cases hrec : recognized_token opt <;> simp [hrec, List.filter_cons]

theorem parse_mount_options_flags_eq (options : List String) :
    (parse_mount_options options).flags =
      (options.foldl mount_option_step ({}, [])).1.flags := by
  simp only [parse_mount_options]
  split <;> rfl

theorem parse_mount_options_data_eq (options : List String) :
    (parse_mount_options options).data =
      join_strings (options.foldl mount_option_step ({}, [])).2 := by
  simp only [parse_mount_options]
  split <;> rfl

theorem parse_s5_eval :
    parse_mount_options ["bind", "ro", "nosuid", "size=64k", "shared"] =
      { flags := MS_BIND ||| MS_RDONLY ||| MS_NOSUID, propagation := MS_SHARED,
        has_propagation := true, bind_readonly := true, data := "size=64k" } := by
  have hf : List.foldl mount_option_step ({}, []) ["bind", "ro", "nosuid", "size=64k", "shared"] =
      ({ flags := ((0 ||| MS_BIND) ||| MS_RDONLY) ||| MS_NOSUID, propagation := MS_SHARED,
         has_propagation := true, bind_readonly := false, data := "" }, ["size=64k"]) := by
    rw [List.foldl_cons, mount_option_step_eq_bind, List.foldl_cons, mount_option_step_eq_ro,
      List.foldl_cons, mount_option_step_eq_nosuid, List.foldl_cons, mount_option_step_eq_size64k,
      List.foldl_cons, mount_option_step_eq_shared, List.foldl_nil]
    rfl
  simp only [parse_mount_options, hf]
  rw [if_pos (by decide)]
  simp only [join_strings]
  decide

/-- C6 (counterexample): on `["ro", "rw"]` the code's flags (`rw` clears
`MS_RDONLY`, yielding 0) differ from the bitwise-or of the per-token flag
constants (`MS_RDONLY`), refuting the claim's universally quantified
or-identity. -/
theorem c6_counterexample :
    (parse_mount_options ["ro", "rw"]).flags ≠ spec_flags_or ["ro", "rw"] := by
  have hf : (List.foldl mount_option_step ({}, []) ["ro", "rw"]).1.flags = 0 := by
    rw [List.foldl_cons, mount_option_step_eq_ro, List.foldl_cons, mount_option_step_eq_rw,
      List.foldl_nil]
    decide
  have hs : spec_flags_or ["ro", "rw"] = MS_RDONLY := by
    simp only [spec_flags_or, List.foldl_cons, List.foldl_nil, mount_flag_bits_eq_ro,
      mount_flag_bits_eq_rw]
    decide
  rw [parse_mount_options_flags_eq, hf, hs]
  decide

/-- C6 (amended): for option lists without the flag-clearing tokens `rw`,
`norelatime` and `nostrictatime`, `parse_mount_options O |>.flags` is the
bitwise-or of the per-token flag constants; for EVERY option list `O`,
`.data` is the comma-join of the unrecognized tokens; and the S5 input
`["bind", "ro", "nosuid", "size=64k", "shared"]` yields exactly the S5
output. -/
theorem c6_parse_mount_options_amended :
    (∀ options : List String, (∀ opt ∈ options, clearing_token opt = false) →
      (parse_mount_options options).flags = spec_flags_or options) ∧
    (∀ options : List String,
      (parse_mount_options options).data =
        join_strings (options.filter (fun o => recognized_token o = false))) ∧
    parse_mount_options ["bind", "ro", "nosuid", "size=64k", "shared"] =
      { flags := MS_BIND ||| MS_RDONLY ||| MS_NOSUID, propagation := MS_SHARED,
        has_propagation := true, bind_readonly := true, data := "size=64k" } := by
  refine ⟨?_, ?_, parse_s5_eval⟩
  · intro options h
    rw [parse_mount_options_flags_eq, parse_foldl_flags_no_clear options h {} []]
    rfl
  · intro options
    rw [parse_mount_options_data_eq, parse_foldl_data options {} [], List.nil_append]

/-- Witness for `c6_parse_mount_options_amended`: the flags conjunct at the
clearing-free list `["bind", "ro"]` with its hypothesis discharged, and the
unconditional data conjunct at `["ro", "rw"]`, a list that does contain a
clearing token. -/
theorem c6_amended_witness :
    ((∀ opt ∈ (["bind", "ro"] : List String), clearing_token opt = false) ∧
      (parse_mount_options ["bind", "ro"]).flags = spec_flags_or ["bind", "ro"]) ∧
    (parse_mount_options ["ro", "rw"]).data =
      join_strings ((["ro", "rw"] : List String).filter
        (fun o => recognized_token o = false)) :=
  ⟨⟨by decide, c6_parse_mount_options_amended.1 ["bind", "ro"] (by decide)⟩,
   c6_parse_mount_options_amended.2.1 ["ro", "rw"]⟩
/-! ## C8: cpu shares to cgroup-v2 weight -/

/-- Numerator-monotonicity of the truncating division by 262142 used in the
weight formula (both numerators nonnegative, so `tdiv` agrees with `ediv`). -/
theorem weight_tdiv_mono (a b : Int) (ha : 0 ≤ a) (hab : a ≤ b) :
    a.tdiv 262142 ≤ b.tdiv 262142 := by
  rw [Int.tdiv_eq_ediv ha (by norm_num), Int.tdiv_eq_ediv (le_trans ha hab) (by norm_num)]
  exact Int.ediv_le_ediv (by norm_num) hab

/-- Bounds of the quotient in the weight formula for `2 ≤ s ≤ 262144`. -/
theorem weight_quot_bounds (s : Int) (h2 : 2 ≤ s) (h3 : s ≤ 262144) :
    0 ≤ ((s - 2) * 9999).tdiv 262142 ∧ ((s - 2) * 9999).tdiv 262142 ≤ 9999 := by
  have ha : (0 : Int) ≤ (s - 2) * 9999 := mul_nonneg (by omega) (by norm_num)
  constructor
  · have := weight_tdiv_mono 0 ((s - 2) * 9999) le_rfl ha
    simpa using this
  · have hle : (s - 2) * 9999 ≤ 262142 * 9999 := by nlinarith
    have := weight_tdiv_mono ((s - 2) * 9999) (262142 * 9999) ha hle
    have hval : ((262142 : Int) * 9999).tdiv 262142 = 9999 := by decide
    omega

/-- For `2 ≤ s ≤ 262144` the code computes the raw formula value. -/
theorem cpu_shares_to_weight_mid (s : Int) (h2 : 2 ≤ s) (h3 : s ≤ 262144) :
    cpu_shares_to_weight s = 1 + ((s - 2) * 9999).tdiv 262142 := by
  unfold cpu_shares_to_weight
  rw [if_neg (by omega), if_neg (by omega)]
  simp only []
  rw [if_neg (by omega)]

/-- For `262144 < s` the code clamps the shares and returns 10000. -/
theorem cpu_shares_to_weight_high (s : Int) (h : 262144 < s) :
    cpu_shares_to_weight s = 10000 := by
  unfold cpu_shares_to_weight
  rw [if_neg (by omega), if_neg (by omega)]
  simp only []
  rw [if_pos h]
  decide

/-- C8: `cpu_shares_to_weight` returns the default 100 for `shares ≤ 0`,
agrees with the spec's clamped formula for every `shares ≥ 1`, is monotone
non-decreasing on `[1, 262144]`, and maps 0 to 100, 1 to 1 and 262144 to
10000. -/
theorem c8_cpu_shares_to_weight :
    (∀ s : Int, s ≤ 0 → cpu_shares_to_weight s = 100) ∧
    (∀ s : Int, 1 ≤ s → cpu_shares_to_weight s = spec_weight_formula s) ∧
    (∀ s t : Int, 1 ≤ s → s ≤ t → t ≤ 262144 →
      cpu_shares_to_weight s ≤ cpu_shares_to_weight t) ∧
    cpu_shares_to_weight 0 = 100 ∧ cpu_shares_to_weight 1 = 1 ∧
    cpu_shares_to_weight 262144 = 10000 := by
  have hmid : ∀ s : Int, 2 ≤ s → s ≤ 262144 →
      cpu_shares_to_weight s = 1 + ((s - 2) * 9999).tdiv 262142 :=
    cpu_shares_to_weight_mid
  have hone : ∀ s : Int, s = 1 → cpu_shares_to_weight s = 1 := by
    intro s hs
    subst hs
    decide
  refine ⟨?_, ?_, ?_, by decide, by decide, ?_⟩
  · intro s hs
    unfold cpu_shares_to_weight
    rw [if_pos hs]
  · intro s hs
    rcases lt_or_le s 2 with h1 | h2
    · have hs1 : s = 1 := by omega
      subst hs1
      decide
    · rcases le_or_lt s 262144 with h3 | h3
      · rw [hmid s h2 h3]
        obtain ⟨hq0, hq1⟩ := weight_quot_bounds s h2 h3
        unfold spec_weight_formula
        omega
      · rw [cpu_shares_to_weight_high s h3]
        unfold spec_weight_formula
        have ha : (0 : Int) ≤ 262142 * 9999 := by norm_num
        have hle : (262142 : Int) * 9999 ≤ (s - 2) * 9999 := by nlinarith
        have := weight_tdiv_mono (262142 * 9999) ((s - 2) * 9999) ha hle
        have hval : ((262142 : Int) * 9999).tdiv 262142 = 9999 := by decide
        omega
  · intro s t hs hst ht
    rcases lt_or_le s 2 with h1 | h2
    · have hs1 : s = 1 := by omega
      rw [hone s hs1]
      rcases lt_or_le t 2 with h1t | h2t
      · rw [hone t (by omega)]
      · rw [hmid t h2t ht]
        obtain ⟨hq0, _⟩ := weight_quot_bounds t h2t ht
        omega
    · rw [hmid s h2 (le_trans hst ht), hmid t (le_trans h2 hst) ht]
      have := weight_tdiv_mono ((s - 2) * 9999) ((t - 2) * 9999)
        (mul_nonneg (by omega) (by norm_num)) (by nlinarith)
      omega
  · rw [hmid 262144 (by norm_num) le_rfl]
    decide

/-- Witness for `c8_cpu_shares_to_weight`, exercising every hypothesis-bearing
conjunct at concrete shares values. -/
theorem c8_witness :
    cpu_shares_to_weight (-5) = 100 ∧
    cpu_shares_to_weight 1024 = spec_weight_formula 1024 ∧
    cpu_shares_to_weight 2 ≤ cpu_shares_to_weight 1024 :=
  ⟨c8_cpu_shares_to_weight.1 (-5) (by decide),
   c8_cpu_shares_to_weight.2.1 1024 (by decide),
   c8_cpu_shares_to_weight.2.2.1 2 1024 (by decide) (by decide) (by decide)⟩
/-! ## C9: pid file contents -/

/-- C9 (divergence): for every pid, the file content written by main.cpp's
`write_pid_file` is the decimal digits followed by a trailing newline
(`ofs << pid << std::endl`), and therefore never equals the spec's
newline-free numeric payload; in particular pid 1234 produces `"1234\n"`. -/
theorem c9_write_pid_file_newline :
    (∀ pid : Int, write_pid_file_content pid = toString pid ++ "\n" ∧
      write_pid_file_content pid ≠ spec_pid_file_content pid) ∧
    write_pid_file_content 1234 = "1234\n" := by
  refine ⟨fun pid => ⟨rfl, fun h => ?_⟩, rfl⟩
  have h2 : (toString pid ++ "\n").length = (toString pid).length :=
    congrArg String.length h
  rw [String.length_append] at h2
  have h3 : ("\n" : String).length = 1 := rfl
  omega

/-! ## C10: container state round-trip -/

/-- C10: for every `ContainerState` with non-empty id, status and bundle
path and non-negative pid, serializing with `to_json_object` and parsing
back with `from_json` preserves id, pid, status, bundle path and
annotations. -/
theorem c10_state_roundtrip (s : ContainerState)
    (hid : s.id ≠ "") (hst : s.status ≠ "") (hb : s.bundle_path ≠ "")
    (hp : 0 ≤ s.pid) :
    (ContainerState.from_json (ContainerState.to_json_object s)).id = s.id ∧
    (ContainerState.from_json (ContainerState.to_json_object s)).pid = s.pid ∧
    (ContainerState.from_json (ContainerState.to_json_object s)).status = s.status ∧
    (ContainerState.from_json (ContainerState.to_json_object s)).bundle_path
      = s.bundle_path ∧
    (ContainerState.from_json (ContainerState.to_json_object s)).annots = s.annots := by
  refine ⟨by simp [ContainerState.to_json_object, ContainerState.from_json],
    by simp [ContainerState.to_json_object, ContainerState.from_json, hp],
    by simp [ContainerState.to_json_object, ContainerState.from_json],
    by simp [ContainerState.to_json_object, ContainerState.from_json, hb], ?_⟩
  by_cases ha : s.annots = []
  · simp [ContainerState.to_json_object, ContainerState.from_json, ha]
  · simp [ContainerState.to_json_object, ContainerState.from_json, ha]

/-- Witness for `c10_state_roundtrip` at a concrete state. -/
theorem c10_witness :
    let s : ContainerState :=
      { version := "", oci_version := "1.0.2", id := "abc", pid := 42,
        status := "running", bundle_path := "/b", annots := [("k", "v")] }
    (ContainerState.from_json (ContainerState.to_json_object s)).id = s.id ∧
    (ContainerState.from_json (ContainerState.to_json_object s)).pid = s.pid ∧
    (ContainerState.from_json (ContainerState.to_json_object s)).status = s.status ∧
    (ContainerState.from_json (ContainerState.to_json_object s)).bundle_path
      = s.bundle_path ∧
    (ContainerState.from_json (ContainerState.to_json_object s)).annots = s.annots :=
  c10_state_roundtrip _ (by decide) (by decide) (by decide) (by decide)
/-! ## C5: at-most-once hook phases -/

/-- Setting a key makes the map contain it. -/
theorem mapContains_mapSet (m : List (String × String)) (k v : String) :
    mapContains (mapSet m k v) k = true := by
  unfold mapContains mapSet
  by_cases h : m.any (fun p => p.1 = k) = true
  · rw [if_pos h]
    simp only [List.any_eq_true] at h ⊢
    obtain ⟨p, hp, hpk⟩ := h
    have hpk2 : p.1 = k := of_decide_eq_true hpk
    exact ⟨(k, v), List.mem_map.mpr ⟨p, hp, by rw [if_pos hpk2]⟩, by simp⟩
  · rw [if_neg h]
    simp

/-- A hook loop whose outcomes are all successful reports success. -/
theorem run_hooks_loop_all_ok (results : List Bool)
    (hok : ∀ r ∈ results, r = true) : (run_hooks_loop results).1 = true := by
  induction results with
  | nil => rfl
  | cons r rest ih =>
    have hr : r = true := hok r (List.mem_cons_self _ _)
    have hrest : ∀ x ∈ rest, x = true := fun x hx => hok x (List.mem_cons_of_mem _ hx)
    unfold run_hooks_loop
    rw [hr, if_pos rfl]
    exact ih hrest

/-- C5 (counterexample): a phase with no hooks returns success but writes
no annotation, so "all hooks completed successfully once" does not imply
that an annotation keyed by the phase timestamps the state. -/
theorem c5_counterexample :
    (run_hook_sequence [] {} "poststart" "2024-01-01T00:00:00Z" true).1 = true ∧
    mapContains
      (run_hook_sequence [] {} "poststart" "2024-01-01T00:00:00Z" true).2.1.annots
      "runway.hooks.poststart" = false := by
  constructor <;> rfl

/-- C5 (amended): for a phase with a non-empty hook list all of whose hooks
complete successfully (and `enforce_once` set, as at every call site), the
invocation succeeds and leaves the state annotated with the phase key, and
any second invocation of the same phase on the resulting state returns
success with zero hooks executed and the state unchanged. -/
theorem c5_hooks_at_most_once (results results2 : List Bool)
    (s : ContainerState) (t now now2 : String)
    (hne : results ≠ []) (hok : ∀ r ∈ results, r = true) :
    (run_hook_sequence results s t now true).1 = true ∧
    mapContains (run_hook_sequence results s t now true).2.1.annots
      ("runway.hooks." ++ t) = true ∧
    (run_hook_sequence results2 (run_hook_sequence results s t now true).2.1
        t now2 true).1 = true ∧
    (run_hook_sequence results2 (run_hook_sequence results s t now true).2.1
        t now2 true).2.2 = 0 ∧
    (run_hook_sequence results2 (run_hook_sequence results s t now true).2.1
        t now2 true).2.1 = (run_hook_sequence results s t now true).2.1 := by
  have hloop := run_hooks_loop_all_ok results hok
  have hfirst : run_hook_sequence results s t now true =
      if mapContains s.annots ("runway.hooks." ++ t) then (true, s, 0)
      else (true, { s with annots := mapSet s.annots ("runway.hooks." ++ t) now },
            (run_hooks_loop results).2) := by
    unfold run_hook_sequence
    rw [if_neg hne]
    by_cases hc : mapContains s.annots ("runway.hooks." ++ t) = true
    · simp [hc]
    · simp only [Bool.not_eq_true] at hc
      simp [hc, hloop]
  have hsecond : ∀ s' : ContainerState,
      mapContains s'.annots ("runway.hooks." ++ t) = true →
      run_hook_sequence results2 s' t now2 true = (true, s', 0) := by
    intro s' hc
    unfold run_hook_sequence
    by_cases h2 : results2 = []
    · rw [if_pos h2]
    · rw [if_neg h2]
      simp [hc]
  by_cases hc : mapContains s.annots ("runway.hooks." ++ t) = true
  · rw [hfirst, if_pos hc]
    exact ⟨rfl, hc, by rw [hsecond s hc], by rw [hsecond s hc], by rw [hsecond s hc]⟩
  · simp only [Bool.not_eq_true] at hc
    rw [hfirst, if_neg (by simp [hc])]
    have hc2 : mapContains
        ({ s with annots := mapSet s.annots ("runway.hooks." ++ t) now }).annots
        ("runway.hooks." ++ t) = true := mapContains_mapSet _ _ _
    exact ⟨rfl, hc2, by rw [hsecond _ hc2], by rw [hsecond _ hc2], by rw [hsecond _ hc2]⟩

/-- Witness for `c5_hooks_at_most_once` at a concrete one-hook phase. -/
theorem c5_witness :
    ((([true] : List Bool) ≠ []) ∧ ∀ r ∈ ([true] : List Bool), r = true) ∧
    ((run_hook_sequence [true] {} "poststart" "T1" true).1 = true ∧
    mapContains (run_hook_sequence [true] {} "poststart" "T1" true).2.1.annots
      ("runway.hooks." ++ "poststart") = true ∧
    (run_hook_sequence [true] (run_hook_sequence [true] {} "poststart" "T1" true).2.1
        "poststart" "T2" true).1 = true ∧
    (run_hook_sequence [true] (run_hook_sequence [true] {} "poststart" "T1" true).2.1
        "poststart" "T2" true).2.2 = 0 ∧
    (run_hook_sequence [true] (run_hook_sequence [true] {} "poststart" "T1" true).2.1
        "poststart" "T2" true).2.1 = (run_hook_sequence [true] {} "poststart" "T1" true).2.1) :=
  ⟨⟨by decide, by decide⟩,
   c5_hooks_at_most_once [true] [true] {} "poststart" "T1" "T2" (by decide) (by decide)⟩
/-! ## C1: kill marks running/created containers stopped -/

/-- C1 (counterexample): a `running` container whose init pid is already
gone (`kill(2)` fails with `ESRCH`) is not marked stopped: the persisted
status stays `"running"` and only an error event is recorded, refuting the
claim's "`ESRCH` is benign and the container is still treated as already
stopped". -/
theorem c1_counterexample :
    (kill_container
      { id := "c1", pid := 7, status := "running", bundle_path := "/b" }
      SIGKILL false).1.status = "running" ∧
    (kill_container
      { id := "c1", pid := 7, status := "running", bundle_path := "/b" }
      SIGKILL false).2 = [RuntimeEvent.errorEvent "signal" "kill failed"] := by
  constructor <;> rfl

/-- C1 (amended): for a `running` or `created` container and signal
`SIGTERM` or `SIGKILL`, a successful `kill(2)` leads to persisted status
`"stopped"` with the signal and state events recorded, while a failed
`kill(2)` (e.g. `ESRCH`) leaves the state unchanged and records an error
event instead. -/
theorem c1_kill_container_amended (s : ContainerState) (signal : Int)
    (killOk : Bool)
    (hst : s.status = "running" ∨ s.status = "created")
    (hsig : signal = SIGKILL ∨ signal = SIGTERM) :
    (killOk = true →
      (kill_container s signal killOk).1.status = "stopped" ∧
      (kill_container s signal killOk).2 =
        [RuntimeEvent.signalEvent signal, RuntimeEvent.stateEvent "stopped"]) ∧
    (killOk = false →
      (kill_container s signal killOk).1 = s ∧
      (kill_container s signal killOk).2 =
        [RuntimeEvent.errorEvent "signal" "kill failed"]) := by
  have hguard : ¬(s.status ≠ "running" ∧ s.status ≠ "created") := by
    rcases hst with h | h <;> simp [h]
  constructor
  · intro hk
    subst hk
    unfold kill_container
    rw [if_neg hguard, if_pos rfl, if_pos hsig]
    exact ⟨rfl, rfl⟩
  · intro hk
    subst hk
    unfold kill_container
    rw [if_neg hguard]
    exact ⟨rfl, rfl⟩

/-- Witness for `c1_kill_container_amended` at a concrete running
container with both kill outcomes. -/
theorem c1_witness :
    ((true : Bool) = true →
      (kill_container
        { id := "c1", pid := 7, status := "running", bundle_path := "/b" }
        SIGTERM true).1.status = "stopped" ∧
      (kill_container
        { id := "c1", pid := 7, status := "running", bundle_path := "/b" }
        SIGTERM true).2 =
        [RuntimeEvent.signalEvent SIGTERM, RuntimeEvent.stateEvent "stopped"]) ∧
    ((true : Bool) = false →
      (kill_container
        { id := "c1", pid := 7, status := "running", bundle_path := "/b" }
        SIGTERM true).1 =
        { id := "c1", pid := 7, status := "running", bundle_path := "/b" } ∧
      (kill_container
        { id := "c1", pid := 7, status := "running", bundle_path := "/b" }
        SIGTERM true).2 = [RuntimeEvent.errorEvent "signal" "kill failed"]) :=
  c1_kill_container_amended
    { id := "c1", pid := 7, status := "running", bundle_path := "/b" }
    SIGTERM true (Or.inl rfl) (Or.inr rfl)

/-! ## C2: create-failure cleanup -/

/-- C2 (counterexample): cleaning up a fully initialized failed create
leaves the container state directory present (the final `record_event`
recreates it to append the error entry), refuting the claim's "the
container's state directory is absent". -/
theorem c2_counterexample :
    (cleanup_failure ⟨true, true, true, true, true, true⟩ true true true true
      "createRuntime" "createRuntime hooks failed").1.dirExists = true := rfl

/-- C2 (amended): the cleanup kills the forked init pid when one was
started, removes the cgroup when created, unlinks the FIFO when created
and the state file when saved, and emits an error event carrying the
failing phase and message — but the state directory is present afterwards
(recreated to hold `events.log` with the error entry). -/
theorem c2_cleanup_failure_amended (fs : CreateFsState)
    (pidStarted cgroupCreated fifoCreated stateSaved : Bool)
    (phase message : String) :
    (pidStarted = true →
      (cleanup_failure fs pidStarted cgroupCreated fifoCreated stateSaved
        phase message).1.pidAlive = false) ∧
    (cgroupCreated = true →
      (cleanup_failure fs pidStarted cgroupCreated fifoCreated stateSaved
        phase message).1.cgroupExists = false) ∧
    (fifoCreated = true →
      (cleanup_failure fs pidStarted cgroupCreated fifoCreated stateSaved
        phase message).1.fifoExists = false) ∧
    (stateSaved = true →
      (cleanup_failure fs pidStarted cgroupCreated fifoCreated stateSaved
        phase message).1.stateFileExists = false) ∧
    (cleanup_failure fs pidStarted cgroupCreated fifoCreated stateSaved
      phase message).1.dirExists = true ∧
    (cleanup_failure fs pidStarted cgroupCreated fifoCreated stateSaved
      phase message).1.eventsLogExists = true ∧
    (cleanup_failure fs pidStarted cgroupCreated fifoCreated stateSaved
      phase message).2 = RuntimeEvent.errorEvent phase message := by
  unfold cleanup_failure record_event_fs rmdir_op
  rcases pidStarted with _ | _ <;> rcases cgroupCreated with _ | _ <;>
    rcases fifoCreated with _ | _ <;> rcases stateSaved with _ | _ <;>
    refine ⟨?_, ?_, ?_, ?_, ?_, ?_, ?_⟩ <;> (try intro h) <;>
    simp_all <;> split <;> rfl

/-- Witness for `c2_cleanup_failure_amended` at a fully initialized
failed create. -/
theorem c2_witness :
    ((true : Bool) = true →
      (cleanup_failure ⟨true, true, true, true, true, true⟩ true true true true
        "create" "Failed to create container FIFO").1.pidAlive = false) ∧
    ((true : Bool) = true →
      (cleanup_failure ⟨true, true, true, true, true, true⟩ true true true true
        "create" "Failed to create container FIFO").1.cgroupExists = false) ∧
    ((true : Bool) = true →
      (cleanup_failure ⟨true, true, true, true, true, true⟩ true true true true
        "create" "Failed to create container FIFO").1.fifoExists = false) ∧
    ((true : Bool) = true →
      (cleanup_failure ⟨true, true, true, true, true, true⟩ true true true true
        "create" "Failed to create container FIFO").1.stateFileExists = false) ∧
    (cleanup_failure ⟨true, true, true, true, true, true⟩ true true true true
      "create" "Failed to create container FIFO").1.dirExists = true ∧
    (cleanup_failure ⟨true, true, true, true, true, true⟩ true true true true
      "create" "Failed to create container FIFO").1.eventsLogExists = true ∧
    (cleanup_failure ⟨true, true, true, true, true, true⟩ true true true true
      "create" "Failed to create container FIFO").2 =
        RuntimeEvent.errorEvent "create" "Failed to create container FIFO" :=
  c2_cleanup_failure_amended ⟨true, true, true, true, true, true⟩ true true true true
    "create" "Failed to create container FIFO"
/-! ## C3, C4, C7: the container-init sequence -/

/-- `andThen` traces only concatenate the two phase traces. -/
theorem andThen_all_credfree (r : List SysAction × Bool)
    (next : Unit → List SysAction × Bool)
    (h1 : r.1.all cred_free_b = true)
    (h2 : (next ()).1.all cred_free_b = true) :
    (andThen r next).1.all cred_free_b = true := by
  unfold andThen
  split
  · simp only []
    rw [List.all_append, h1, h2]
    rfl
  · exact h1

/-- Branches of an `if` both credential-free. -/
theorem ite_all_credfree {c : Prop} [Decidable c] (x y : List SysAction × Bool)
    (hx : x.1.all cred_free_b = true) (hy : y.1.all cred_free_b = true) :
    (if c then x else y).1.all cred_free_b = true := by
  split
  · exact hx
  · exact hy

/-- Concatenations of credential-free traces are credential-free. -/
theorem append_all_credfree (xs ys : List SysAction)
    (h1 : xs.all cred_free_b = true) (h2 : ys.all cred_free_b = true) :
    (xs ++ ys).all cred_free_b = true := by
  rw [List.all_append, h1, h2]
  rfl

/-- `run_list` traces only concatenate the per-element traces. -/
theorem run_list_all_credfree (f : α → List SysAction × Bool)
    (h : ∀ x, (f x).1.all cred_free_b = true) :
    ∀ xs : List α, (run_list f xs).1.all cred_free_b = true := by
  intro xs
  induction xs with
  | nil => rfl
  | cons x rest ih =>
    unfold run_list
    simp only []
    split
    · rw [List.all_append, h x, ih]
      rfl
    · exact h x

/-- The config-mount loop issues no credential-change calls. -/
theorem mount_one_credfree (w : InitWorld) (rootfs : String) (cfg : MountConfig) :
    (mount_one w rootfs cfg).1.all cred_free_b = true := by
  unfold mount_one
  simp only []
  repeat'
    first
    | rfl
    | apply ite_all_credfree
    | apply andThen_all_credfree
    | apply append_all_credfree
    | simp only []

/-- The masked-paths loop issues no credential-change calls. -/
theorem mask_one_credfree (w : InitWorld) (rootfs masked : String) :
    (mask_one w rootfs masked).1.all cred_free_b = true := by
  have hmm : ∀ target m is_dir,
      (mask_one.mask_mount w target m is_dir).1.all cred_free_b = true := by
    intro target m is_dir
    unfold mask_one.mask_mount
    repeat'
      first
      | rfl
      | apply ite_all_credfree
      | apply andThen_all_credfree
  unfold mask_one
  simp only []
  repeat'
    first
    | rfl
    | exact hmm _ _ _
    | apply ite_all_credfree
    | apply andThen_all_credfree
    | apply append_all_credfree
    | simp only []

/-- The readonly-paths loop issues no credential-change calls. -/
theorem ro_one_credfree (w : InitWorld) (rootfs ro_path : String) :
    (ro_one w rootfs ro_path).1.all cred_free_b = true := by
  unfold ro_one
  simp only []
  repeat'
    first
    | rfl
    | apply ite_all_credfree
    | apply andThen_all_credfree
    | apply append_all_credfree
    | simp only []

/-- The pivot_root / chroot phase issues no credential-change calls. -/
theorem pivot_phase_credfree (w : InitWorld) (b : Bool) :
    (pivot_phase w b).1.all cred_free_b = true := by
  have hcf : (pivot_phase.chroot_fallback w).1.all cred_free_b = true := by
    unfold pivot_phase.chroot_fallback
    apply andThen_all_credfree <;> rfl
  unfold pivot_phase
  simp only []
  repeat'
    first
    | rfl
    | exact hcf
    | apply ite_all_credfree
    | apply andThen_all_credfree
    | apply append_all_credfree
    | simp only []

/-- The console phase issues no credential-change calls. -/
theorem console_phase_credfree (w : InitWorld) (t : Bool) (fd : Int) :
    (console_phase w t fd).1.all cred_free_b = true := by
  unfold console_phase
  repeat'
    first
    | rfl
    | apply ite_all_credfree
    | apply andThen_all_credfree
    | apply append_all_credfree
    | simp only []

/-- The environment phase issues no credential-change calls. -/
theorem env_phase_credfree (w : InitWorld) (env : List String) :
    (env_phase w env).1.all cred_free_b = true := by
  unfold env_phase
  apply ite_all_credfree
  · rfl
  · apply andThen_all_credfree
    · rfl
    · apply run_list_all_credfree
      intro e
      unfold setenv_one
      apply ite_all_credfree <;> rfl

/-- The propagation helper issues no credential-change calls. -/
theorem apply_mount_propagation_credfree (w : InitWorld) (p q : String) :
    (apply_mount_propagation w p q).1.all cred_free_b = true := by
  unfold apply_mount_propagation
  simp only []
  repeat'
    first
    | rfl
    | apply ite_all_credfree

/-- Every action of every `container_main` run is credential-free. -/
theorem container_main_credfree (w : InitWorld) (args : ContainerArgs) :
    (container_main w args).1.all cred_free_b = true := by
  unfold container_main
  repeat'
    first
    | rfl
    | exact apply_mount_propagation_credfree w _ _
    | exact pivot_phase_credfree w _
    | exact console_phase_credfree w _ _
    | exact env_phase_credfree w _
    | (apply run_list_all_credfree
       intro x
       first
       | exact mount_one_credfree w _ x
       | exact mask_one_credfree w _ x
       | exact ro_one_credfree w _ x
       | rfl)
    | apply ite_all_credfree
    | apply andThen_all_credfree
    | apply append_all_credfree
    | simp only []

/-- C3 (divergence): with input `args_masked` (one masked directory) and a
world in which the tmpfs mount onto the masked target fails, the init
aborts (`return 1`) instead of skipping the path; and in a fully
successful run the masking tmpfs mount happens before the `/proc` mount,
not after it. -/
theorem c3_masked_paths_divergence :
    (container_main w_mask_fail args_masked).2 = false ∧
    ((container_main {} args_masked).1.findIdx
        (fun a => a == SysAction.mountA "tmpfs" "/r/sys/firmware" "tmpfs" 15 "size=0") <
      (container_main {} args_masked).1.findIdx
        (fun a => a == SysAction.mountA "proc" "/proc" "proc" 0 "")) ∧
    SysAction.mountA "tmpfs" "/r/sys/firmware" "tmpfs" 15 "size=0" ∈
      (container_main {} args_masked).1 ∧
    SysAction.mountA "proc" "/proc" "proc" 0 "" ∈
      (container_main {} args_masked).1 := by
  decide

/-- C4 (counterexample): a run of `container_main` that reaches `execvp`
performs no `setgroups`, `setgid` or `setuid` call at all, refuting the
claimed credential drop before the payload exec. -/
theorem c4_counterexample :
    (container_main {} args_masked).2 = true ∧
    SysAction.execvpA "/bin/sh" ∈ (container_main {} args_masked).1 ∧
    SysAction.setgroupsA ∉ (container_main {} args_masked).1 ∧
    SysAction.setgidA ∉ (container_main {} args_masked).1 ∧
    SysAction.setuidA ∉ (container_main {} args_masked).1 := by
  decide

/-- C4 (amended): `container_main` never drops credentials: no run, for
any syscall outcomes and any configuration, contains a `setgroups`,
`setgid` or `setuid` call; the payload is exec'd with the runtime's
credentials. -/
theorem c4_no_credential_drop (w : InitWorld) (args : ContainerArgs) :
    SysAction.setgroupsA ∉ (container_main w args).1 ∧
    SysAction.setgidA ∉ (container_main w args).1 ∧
    SysAction.setuidA ∉ (container_main w args).1 := by
  have h := container_main_credfree w args
  rw [List.all_eq_true] at h
  exact ⟨fun hm => absurd (h _ hm) (by decide),
         fun hm => absurd (h _ hm) (by decide),
         fun hm => absurd (h _ hm) (by decide)⟩

/-- C7 (divergence): with input `args_cgroup` (one cgroup-filesystem
mount) and a world in which that mount fails — as with `EBUSY` on a host
that pre-mounted it; the code never inspects `errno` — the init aborts
(`return 1`) without reaching `execvp`, instead of tolerating the
failure. -/
theorem c7_cgroup_busy_fatal :
    (container_main w_cgroup_busy args_cgroup).2 = false ∧
    SysAction.mountA "cgroup" "/r/sys/fs/cgroup" "cgroup" 0 "" ∈
      (container_main w_cgroup_busy args_cgroup).1 ∧
    SysAction.execvpA "/bin/sh" ∉ (container_main w_cgroup_busy args_cgroup).1 := by
  decide

/-- Witness for `c4_no_credential_drop` at a concrete world and
configuration. -/
theorem c4_witness :
    SysAction.setgroupsA ∉ (container_main {} args_cgroup).1 ∧
    SysAction.setgidA ∉ (container_main {} args_cgroup).1 ∧
    SysAction.setuidA ∉ (container_main {} args_cgroup).1 :=
  c4_no_credential_drop {} args_cgroup
